import Mathlib

/-!
# vde_vmnet: `cli.c`

A shallow embedding of `cli_options_parse` (src/cli.c) together with the libc
routines it calls (`getopt_long`, `inet_aton`, `inet_ntoa`, `uuid_parse`,
`uuid_is_null`), followed by theorems about the parsed configuration.

Conventions
* a C string is a `String`; a `char *` field that may be `NULL` is an `Option String`;
* `uuid_t` (sixteen bytes) is a `List Nat`;
* the value written by `uuid_generate_random` is an input `rnd` of the parser;
* what the process writes is recorded as a list of `Write`s, and the way the
  call ends (`return res` or `exit(code)`) as a `Status`;
* `malloc` and `strdup` are assumed to succeed;
* the libc routines follow the BSD sources that macOS ships: `getopt_long` permutes the
  non-options to the end (POSIXLY_CORRECT unset) and takes unambiguous abbreviations of
  the long options; `inet_aton` takes one to four numbers in base 8, 10 or 16.
-/

namespace VdeVmnet

/-! ## Data model (cli.h, vmnet.h) -/

/-- The `operating_modes_t` value `VMNET_HOST_MODE` of vmnet.h. -/
def VMNET_HOST_MODE : Nat := 1000
/-- The `operating_modes_t` value `VMNET_SHARED_MODE` of vmnet.h. -/
def VMNET_SHARED_MODE : Nat := 1001
/-- The `operating_modes_t` value `VMNET_BRIDGED_MODE` of vmnet.h. -/
def VMNET_BRIDGED_MODE : Nat := 1002

/-- Sixteen bytes, as `uuid_t` of uuid/uuid.h. -/
abbrev uuid_t := List Nat

/-- The all-zero UUID, which is what `memset(res, 0, sizeof(*res))` leaves in the field. -/
def uuid_zero : uuid_t := List.replicate 16 0

/-- The struct `cli_options` of cli.h, with the fields cli.c reads and writes. -/
structure cli_options where
  vde_group : Option String
  vde_switch : Option String
  vmnet_mode : Nat
  vmnet_interface : Option String
  vmnet_gateway : Option String
  vmnet_dhcp_end : Option String
  vmnet_mask : Option String
  vmnet_interface_id : uuid_t
  deriving DecidableEq, Repr

/-- The struct right after `memset(res, 0, sizeof(*res))` (line 71). -/
def cli_options_zero : cli_options :=
  { vde_group := none, vde_switch := none, vmnet_mode := 0, vmnet_interface := none,
    vmnet_gateway := none, vmnet_dhcp_end := none, vmnet_mask := none,
    vmnet_interface_id := uuid_zero }

def EXIT_SUCCESS : Nat := 0
def EXIT_FAILURE : Nat := 1

/-- Diagnostics that `getopt_long` itself prints through `warnx` (opterr is 1 and the
option string does not start with a colon). -/
inductive GetoptWarn where
  | ambig (name : String)
  | noarg (name : String)
  | recargstring (name : String)
  | illoptstring (name : String)
  | illoptchar (c : Char)
  deriving DecidableEq, Repr

/-- One write of the process. -/
inductive Write where
  /-- The text goes to stdout (`printf`, `puts`). -/
  | out (text : String)
  /-- The text goes to stderr (`fprintf(stderr, ...)`). -/
  | err (text : String)
  /-- The call `perror(s)`: `s`, a colon and the text of `errno` go to stderr. -/
  | perror (s : String)
  /-- A `warnx` of `getopt_long`, on stderr. -/
  | warnx (w : GetoptWarn)
  deriving DecidableEq, Repr

/-- How a call of `cli_options_parse` ends. -/
inductive Status where
  | returned (res : cli_options)
  | exited (code : Nat)
  deriving DecidableEq, Repr

/-- A finished call: everything written, in order, and the way the call ended. -/
structure Run where
  trace : List Write
  status : Status
  deriving DecidableEq, Repr

def CLI_DEFAULT_VDE_GROUP : String := "staff"
def VERSION : String := "UNKNOWN"

/-- The function `print_usage` (lines 23-55): every line goes to stdout. -/
def print_usage (argv0 : String) : List Write :=
  [ Write.out ("Usage: " ++ argv0 ++ " [OPTION]... VDESWITCH\n"),
    Write.out "vmnet.framework support for rootless QEMU.\n",
    Write.out ("vde_vmnet does not require QEMU to run as the root user, but " ++
      "vde_vmnet itself has to run as the root, in most cases.\n"),
    Write.out "\n",
    Write.out ("--vde-group=GROUP                   VDE group name (default: " ++
      "\"" ++ CLI_DEFAULT_VDE_GROUP ++ "\")\n"),
    Write.out "--vmnet-mode=(host|shared|bridged)  vmnet mode (default: \"shared\")\n",
    Write.out ("--vmnet-interface=INTERFACE         interface used for " ++
      "--vmnet=bridged, e.g., \"en0\"\n"),
    Write.out ("--vmnet-gateway=IP                  gateway used for " ++
      "--vmnet=(host|shared), e.g., \"192.168.105.1\" (default: decided by " ++
      "macOS)\n"),
    Write.out ("                                    the next IP (e.g., " ++
      "\"192.168.105.2\") is used as the first DHCP address\n"),
    Write.out ("--vmnet-dhcp-end=IP                 end of the DHCP range (default: " ++
      "XXX.XXX.XXX.254)\n"),
    Write.out ("                                    requires --vmnet-gateway to be " ++
      "specified\n"),
    Write.out ("--vmnet-mask=MASK                   subnet mask (default: " ++
      "\"255.255.255.0\")\n"),
    Write.out ("                                    requires --vmnet-gateway to be " ++
      "specified\n"),
    Write.out ("--vmnet-interface-id=UUID           vmnet interface ID (default: " ++
      "random)\n"),
    Write.out "-h, --help                          display this help and exit\n",
    Write.out ("-v, --version                       display version information and " ++
      "exit\n"),
    Write.out "\n",
    Write.out ("version: " ++ VERSION ++ "\n") ]

/-- The function `print_version` (line 57): `puts(VERSION)`. -/
def print_version : List Write := [Write.out (VERSION ++ "\n")]

def CLI_OPTIONS_ID_VDE_GROUP : Int := -42
def CLI_OPTIONS_ID_VMNET_MODE : Int := -43
def CLI_OPTIONS_ID_VMNET_INTERFACE : Int := -44
def CLI_OPTIONS_ID_VMNET_GATEWAY : Int := -45
def CLI_OPTIONS_ID_VMNET_DHCP_END : Int := -46
def CLI_OPTIONS_ID_VMNET_MASK : Int := -47
def CLI_OPTIONS_ID_VMNET_INTERFACE_ID : Int := -48

/-! ## libc: character classes, `inet_aton`, `inet_ntoa`, byte order, UUIDs -/

/-- The function `isdigit` of ctype.h in the C locale. -/
def isdigit (c : Char) : Bool := decide ('0'.toNat ≤ c.toNat ∧ c.toNat ≤ '9'.toNat)

/-- The function `islower` of ctype.h in the C locale. -/
def islower (c : Char) : Bool := decide ('a'.toNat ≤ c.toNat ∧ c.toNat ≤ 'z'.toNat)

/-- The function `isxdigit` of ctype.h in the C locale. -/
def isxdigit (c : Char) : Bool :=
  isdigit c || decide ('a'.toNat ≤ c.toNat ∧ c.toNat ≤ 'f'.toNat) ||
    decide ('A'.toNat ≤ c.toNat ∧ c.toNat ≤ 'F'.toNat)

/-- The function `isspace` of ctype.h in the C locale: space, and tab to carriage return. -/
def isspace (c : Char) : Bool := decide (c.toNat = 32 ∨ (9 ≤ c.toNat ∧ c.toNat ≤ 13))

/-- The function `htonl` on a little-endian host (every Mac): the four bytes of a 32-bit
value in reverse order. -/
def htonl (h : Nat) : Nat :=
  h % 256 * 16777216 + h / 256 % 256 * 65536 + h / 65536 % 256 * 256 + h / 16777216 % 256

/-- The function `ntohl` on a little-endian host: the same byte swap as `htonl`. -/
def ntohl (n : Nat) : Nat := htonl n

/-- The end of libc's `inet_aton`: the check of the character the number stopped at, the
check that a digit was seen, and the assembly of the value from the one to four parts.
`c` is the list from the stopping character on (empty at the end of the string). The
result is `s_addr`, that is `htonl(val)`, or `none` when `inet_aton` returns 0. -/
def inet_aton_finish (parts : List Nat) (val : Nat) (digit : Bool) (c : List Char) :
    Option Nat :=
  if (match c with
      | [] => false
      | c0 :: _ => !(decide (c0.toNat < 128) && isspace c0)) then none
  else if !digit then none
  else
    match parts with
    | [] => some (htonl (val % 4294967296))
    | [p0] => if val > 0xffffff then none else some (htonl (val ||| p0 <<< 24))
    | [p0, p1] =>
      if val > 0xffff then none else some (htonl (val ||| (p0 <<< 24 ||| p1 <<< 16)))
    | [p0, p1, p2] =>
      if val > 0xff then none
      else some (htonl (val ||| (p0 <<< 24 ||| p1 <<< 16 ||| p2 <<< 8)))
    | _ => none

/-- The scanning loop of libc's `inet_aton` (the ISC implementation of BSD and macOS
Libc, inet_addr.c), as a state machine over the characters. `parts` are the numbers
stored so far. The state is `none` at the start of a number, where a digit is required,
and `some (base, val, digit, zero)` inside a number; `zero` holds right after a leading
`0`, where an `x` or `X` switches from base 8 to base 16. `val` is an `unsigned long` of
64 bits. -/
def inet_aton_scan (parts : List Nat) :
    Option (Nat × Nat × Bool × Bool) → List Char → Option Nat
  | none, [] => none
  | none, c :: cs =>
    if !isdigit c then none
    else if c = '0' then inet_aton_scan parts (some (8, 0, true, true)) cs
    else inet_aton_scan parts (some (10, (0 * 10 + (c.toNat - '0'.toNat)) % 2 ^ 64, true, false)) cs
  | some (_, val, digit, _), [] => inet_aton_finish parts val digit []
  | some (base, val, digit, zero), c :: cs =>
    if zero && (c == 'x' || c == 'X') then inet_aton_scan parts (some (16, 0, false, false)) cs
    else if decide (c.toNat < 128) && isdigit c then
      if base = 8 ∧ (c = '8' ∨ c = '9') then none
      else inet_aton_scan parts
        (some (base, (val * base + (c.toNat - '0'.toNat)) % 2 ^ 64, true, false)) cs
    else if decide (base = 16) && decide (c.toNat < 128) && isxdigit c then
      inet_aton_scan parts
        (some (base, (val <<< 4 ||| (c.toNat + 10 - (if islower c then 'a'.toNat else 'A'.toNat)))
          % 2 ^ 64, true, false)) cs
    else if c = '.' then
      if parts.length ≥ 3 ∨ val > 0xff then none
      else inet_aton_scan (parts ++ [val]) none cs
    else inet_aton_finish parts val digit (c :: cs)

/-- The function `inet_aton` of libc: `some s_addr` when it returns 1, `none` when it
returns 0. -/
def inet_aton (cp : String) : Option Nat := inet_aton_scan [] none cp.data

/-- The function `inet_ntoa` of libc: the four bytes of `s_addr` in memory order, in
decimal, separated by dots. It never returns `NULL`. -/
def inet_ntoa (s_addr : Nat) : Option String :=
  some (toString (s_addr % 256) ++ "." ++ toString (s_addr / 256 % 256) ++ "." ++
    toString (s_addr / 65536 % 256) ++ "." ++ toString (s_addr / 16777216 % 256))

/-- The value of a hexadecimal digit, as `strtoul(_, _, 16)` reads it. -/
def hexval (c : Char) : Nat :=
  if isdigit c then c.toNat - '0'.toNat
  else if islower c then c.toNat + 10 - 'a'.toNat
  else c.toNat + 10 - 'A'.toNat

/-- Bytes from pairs of hexadecimal digits. -/
def hex_bytes : List Char → List Nat
  | c0 :: c1 :: cs => (hexval c0 * 16 + hexval c1) :: hex_bytes cs
  | _ => []

/-- The syntax check of `uuid_parse`: 36 characters, a hyphen at the offsets 8, 13, 18
and 23, a hexadecimal digit everywhere else. -/
def uuid_syntax (cs : List Char) : Bool :=
  decide (cs.length = 36) &&
    cs.enum.all (fun ic =>
      if ic.1 = 8 ∨ ic.1 = 13 ∨ ic.1 = 18 ∨ ic.1 = 23 then decide (ic.2 = '-')
      else isxdigit ic.2)

/-- The function `uuid_parse` of libc (uuid/parse.c): `none` when it returns -1, else the
sixteen bytes: time_low, time_mid, time_hi_and_version, clock_seq and node, each
big-endian, which are the hexadecimal digits of the text two by two. -/
def uuid_parse (inp : String) : Option uuid_t :=
  if uuid_syntax inp.data then some (hex_bytes (inp.data.filter (fun c => c != '-')))
  else none

/-- The function `uuid_is_null` of libc: every byte is zero. -/
def uuid_is_null (uu : uuid_t) : Bool := uu.all (fun b => b == 0)

/-! ## libc: `getopt_long` -/

def no_argument : Nat := 0
def required_argument : Nat := 1

/-- The struct `option` of getopt.h; `flag` is `NULL` in every entry of the table. -/
structure option where
  name : String
  has_arg : Nat
  val : Int
  deriving DecidableEq, Repr

/-- The table `longopts` of `cli_options_parse` (lines 73-87), without its terminator. -/
def longopts : List option :=
  [ ⟨"vde-group", required_argument, CLI_OPTIONS_ID_VDE_GROUP⟩,
    ⟨"vmnet-mode", required_argument, CLI_OPTIONS_ID_VMNET_MODE⟩,
    ⟨"vmnet-interface", required_argument, CLI_OPTIONS_ID_VMNET_INTERFACE⟩,
    ⟨"vmnet-gateway", required_argument, CLI_OPTIONS_ID_VMNET_GATEWAY⟩,
    ⟨"vmnet-dhcp-end", required_argument, CLI_OPTIONS_ID_VMNET_DHCP_END⟩,
    ⟨"vmnet-mask", required_argument, CLI_OPTIONS_ID_VMNET_MASK⟩,
    ⟨"vmnet-interface-id", required_argument, CLI_OPTIONS_ID_VMNET_INTERFACE_ID⟩,
    ⟨"help", no_argument, 104⟩,
    ⟨"version", no_argument, 118⟩ ]

/-- The short options `"hv"` of the call (line 89). -/
def optstring : List Char := ['h', 'v']

/-- What `getopt_long` returns for an unknown option or a missing argument: the character
`?` (the option string does not start with a colon, so BADARG is BADCH). -/
def BADCH : Int := 63

/-- One return of `getopt_long` other than -1: the value, `optarg`, and what it printed. -/
structure GetoptRet where
  opt : Int
  optarg : Option String
  warn : Option GetoptWarn
  deriving DecidableEq, Repr

/-- The search loop of `parse_long_options`: `name` is the text before any `=`, `found`
the partial match so far. The result is `none` for an ambiguous abbreviation and
`some m` otherwise, `m` being the match if any. An exact match ends the search. -/
def find_long_option (name : List Char) : List option → Option option → Option (Option option)
  | [], found => some found
  | o :: os, found =>
    if !(name.isPrefixOf o.name.data) then find_long_option name os found
    else if o.name.data.length = name.length then some (some o)
    else
      match found with
      | none => find_long_option name os (some o)
      | some _ => none

/-- The function `parse_long_options` of BSD `getopt_long`: `current_argv` is the text
after the two dashes and `next` the following element of argv, if any. The result is the
return of `getopt_long` and whether `next` was taken as the argument. -/
def parse_long_options (current_argv : List Char) (next : Option String) : GetoptRet × Bool :=
  let name := current_argv.takeWhile (fun c => c != '=')
  let has_equal : Option (List Char) :=
    if current_argv.contains '=' then some (current_argv.dropWhile (fun c => c != '=')).tail
    else none
  match find_long_option name longopts none with
  | none => (⟨BADCH, none, some (GetoptWarn.ambig (String.mk name))⟩, false)
  | some none => (⟨BADCH, none, some (GetoptWarn.illoptstring (String.mk current_argv))⟩, false)
  | some (some o) =>
    if o.has_arg = no_argument then
      match has_equal with
      | some _ => (⟨BADCH, none, some (GetoptWarn.noarg (String.mk name))⟩, false)
      | none => (⟨o.val, none, none⟩, false)
    else
      match has_equal, next with
      | some a, _ => (⟨o.val, some (String.mk a), none⟩, false)
      | none, some a => (⟨o.val, some a, none⟩, true)
      | none, none =>
        (⟨BADCH, none, some (GetoptWarn.recargstring (String.mk current_argv))⟩, false)

/-- A short option letter: `h` and `v` are in the option string and take no argument, any
other character is unknown. -/
def short_option (optchar : Char) : GetoptRet :=
  if optstring.contains optchar then ⟨optchar.toNat, none, none⟩
  else ⟨BADCH, none, some (GetoptWarn.illoptchar optchar)⟩

/-- The successive returns of `getopt_long` while its scanning pointer `place` is inside
one element of argv: a dash starts a long option, any other character is a short option
letter. `k0` is what follows from the next element of argv on, `k1` what follows when the
next element was taken as an argument. -/
def getopt_place (next : Option String) (k0 k1 : List GetoptRet × List String) :
    List Char → List GetoptRet × List String
  | [] => k0
  | c :: place =>
    if c = '-' then
      let r := parse_long_options place next
      (r.1 :: (if r.2 then k1 else k0).1, (if r.2 then k1 else k0).2)
    else
      let k := getopt_place next k0 k1 place
      (short_option c :: k.1, k.2)

/-- The successive returns of `getopt_long` from the elements `args` of argv on, up to
its return of -1, together with `argv[optind..]` as it stands then. `nonopts` are the
non-options skipped so far: `getopt_long` permutes them behind the options
(POSIXLY_CORRECT is not set), so that at the end they come first. An element that does
not start with a dash, or is a lone dash, is a non-option; `--` ends the options. -/
def getopt_long_from (nonopts : List String) : List String → List GetoptRet × List String
  | [] => ([], nonopts)
  | arg :: rest =>
    match arg.data with
    | c0 :: c1 :: place =>
      if c0 = '-' then
        if c1 = '-' ∧ place = [] then ([], nonopts ++ rest)
        else
          match rest with
          | [] => getopt_place none ([], nonopts) ([], nonopts) (c1 :: place)
          | next :: rest1 =>
            getopt_place (some next) (getopt_long_from nonopts (next :: rest1))
              (getopt_long_from nonopts rest1) (c1 :: place)
      else getopt_long_from (nonopts ++ [arg]) rest
    | _ => getopt_long_from (nonopts ++ [arg]) rest

/-- The calls `getopt_long(argc, argv, "hv", longopts, NULL)` of the loop at line 89,
which start at `argv[1]`: the successive returns, and `argv[optind..]` at the end. -/
def getopt_long (argv : List String) : List GetoptRet × List String :=
  getopt_long_from [] argv.tail

/-! ## `cli_options_parse` -/

/-- The label `error:` (lines 214-218): the usage text, then `exit(EXIT_FAILURE)`. -/
def error_exit (argv0 : String) (trace : List Write) : Run :=
  ⟨trace ++ print_usage argv0, Status.exited EXIT_FAILURE⟩

/-- How the option loop ends: it runs to the end (`getopt_long` returned -1), or the
whole call ends inside it. -/
inductive Loop where
  | finished (res : cli_options) (trace : List Write)
  | halted (run : Run)
  deriving DecidableEq, Repr

/-- The loop of lines 89-140 over the successive returns of `getopt_long`. -/
def option_loop (argv0 : String) : cli_options → List Write → List GetoptRet → Loop
  | res, trace, [] => Loop.finished res trace
  | res, trace0, r :: rs =>
    let trace := trace0 ++ r.warn.toList.map Write.warnx
    if r.opt = CLI_OPTIONS_ID_VDE_GROUP then
      option_loop argv0 { res with vde_group := r.optarg } trace rs
    else if r.opt = CLI_OPTIONS_ID_VMNET_MODE then
      if r.optarg = some "host" then
        option_loop argv0 { res with vmnet_mode := VMNET_HOST_MODE } trace rs
      else if r.optarg = some "shared" then
        option_loop argv0 { res with vmnet_mode := VMNET_SHARED_MODE } trace rs
      else if r.optarg = some "bridged" then
        option_loop argv0 { res with vmnet_mode := VMNET_BRIDGED_MODE } trace rs
      else
        Loop.halted (error_exit argv0
          (trace ++ [Write.err ("Unknown vmnet mode \"" ++ r.optarg.getD "" ++ "\"\n")]))
    else if r.opt = CLI_OPTIONS_ID_VMNET_INTERFACE then
      option_loop argv0 { res with vmnet_interface := r.optarg } trace rs
    else if r.opt = CLI_OPTIONS_ID_VMNET_GATEWAY then
      option_loop argv0 { res with vmnet_gateway := r.optarg } trace rs
    else if r.opt = CLI_OPTIONS_ID_VMNET_DHCP_END then
      option_loop argv0 { res with vmnet_dhcp_end := r.optarg } trace rs
    else if r.opt = CLI_OPTIONS_ID_VMNET_MASK then
      option_loop argv0 { res with vmnet_mask := r.optarg } trace rs
    else if r.opt = CLI_OPTIONS_ID_VMNET_INTERFACE_ID then
      match uuid_parse (r.optarg.getD "") with
      | none =>
        Loop.halted (error_exit argv0
          (trace ++ [Write.err ("Failed to parse UUID \"" ++ r.optarg.getD "" ++ "\"\n")]))
      | some uu => option_loop argv0 { res with vmnet_interface_id := uu } trace rs
    else if r.opt = 104 then
      Loop.halted ⟨trace ++ print_usage argv0, Status.exited EXIT_SUCCESS⟩
    else if r.opt = 118 then
      Loop.halted ⟨trace ++ print_version, Status.exited EXIT_SUCCESS⟩
    else Loop.halted (error_exit argv0 trace)

/-- Lines 152-170: the default of `vmnet_dhcp_end`, when the gateway is set and the end
of the range is not. The error is what is written before `goto error`. -/
def default_dhcp_end (res : cli_options) : Except Write cli_options :=
  match res.vmnet_gateway, res.vmnet_dhcp_end with
  | some gateway, none =>
    match inet_aton gateway with
    | none => Except.error (Write.perror "inet_aton(res->vmnet_gateway)")
    | some s_addr =>
      let h := ntohl s_addr
      let h := h &&& 0xFFFFFF00
      let h := h ||| 0x000000FE
      match inet_ntoa (htonl h) with
      | none => Except.error (Write.perror "inet_ntoa")
      | some end_static => Except.ok { res with vmnet_dhcp_end := some end_static }
  | _, _ => Except.ok res

/-- Lines 146-176, "fill default": each field is assigned only when it is unset. `rnd` is
what `uuid_generate_random` writes. -/
def fill_default (rnd : uuid_t) (res0 : cli_options) : Except Write cli_options :=
  let res1 := { res0 with
    vde_group := if res0.vde_group = none then some CLI_DEFAULT_VDE_GROUP else res0.vde_group }
  let res2 := { res1 with
    vmnet_mode := if res1.vmnet_mode = 0 then VMNET_SHARED_MODE else res1.vmnet_mode }
  match default_dhcp_end res2 with
  | Except.error w => Except.error w
  | Except.ok res3 =>
    let res4 := { res3 with
      vmnet_mask :=
        if res3.vmnet_gateway ≠ none ∧ res3.vmnet_mask = none then some "255.255.255.0"
        else res3.vmnet_mask }
    Except.ok { res4 with
      vmnet_interface_id :=
        if uuid_is_null res4.vmnet_interface_id then rnd else res4.vmnet_interface_id }

def msg_bridged_interface : String :=
  "vmnet mode \"bridged\" require --vmnet-interface to be specified\n"
def msg_warning : String :=
  "WARNING: --vmnet-gateway=IP should be explicitly specified to " ++
    "avoid conflicting with other applications\n"
def msg_dhcp_end : String := "--vmnet-dhcp-end=IP requires --vmnet-gateway=IP\n"
def msg_mask : String := "--vmnet-mask=MASK requires --vmnet-gateway=IP\n"
def msg_bridged_gateway : String := "vmnet mode \"bridged\" conflicts with --vmnet-gateway\n"

/-- Lines 178-212, "validate": what is written to stderr, and whether `return res` is
reached (`true`) or `goto error` is taken (`false`). -/
def validate (res : cli_options) : List Write × Bool :=
  if res.vmnet_mode = VMNET_BRIDGED_MODE ∧ res.vmnet_interface = none then
    ([Write.err msg_bridged_interface], false)
  else
    match res.vmnet_gateway with
    | none =>
      let warning :=
        if res.vmnet_mode ≠ VMNET_BRIDGED_MODE then [Write.err msg_warning] else []
      if res.vmnet_dhcp_end ≠ none then (warning ++ [Write.err msg_dhcp_end], false)
      else if res.vmnet_mask ≠ none then (warning ++ [Write.err msg_mask], false)
      else (warning, true)
    | some gateway =>
      if res.vmnet_mode = VMNET_BRIDGED_MODE then ([Write.err msg_bridged_gateway], false)
      else
        match inet_aton gateway with
        | none =>
          ([Write.err ("invalid address \"" ++ gateway ++
              "\" was specified for --vmnet-gateway\n")], false)
        | some _ => ([], true)

/-- Lines 141-213: what follows the option loop. `positional` is `argv[optind..]`, so
that `argc - optind` is its length and `argv[optind]` its head. -/
def after_options (rnd : uuid_t) (argv0 : String) (res : cli_options) (trace : List Write)
    (positional : List String) : Run :=
  if positional.length ≠ 1 then error_exit argv0 trace
  else
    match fill_default rnd { res with vde_switch := positional.head? } with
    | Except.error w => error_exit argv0 (trace ++ [w])
    | Except.ok res1 =>
      match validate res1 with
      | (ws, false) => error_exit argv0 (trace ++ ws)
      | (ws, true) => ⟨trace ++ ws, Status.returned res1⟩

/-- The function `cli_options_parse` (lines 66-219). `argv` is the argument vector,
`argc` its length, and `rnd` the UUID that `uuid_generate_random` would write. -/
def cli_options_parse (rnd : uuid_t) (argv : List String) : Run :=
  let argv0 := argv.headD "(null)"
  let g := getopt_long argv
  match option_loop argv0 cli_options_zero [] g.1 with
  | Loop.halted run => run
  | Loop.finished res trace => after_options rnd argv0 res trace g.2

/-! ## Reading an argument vector -/

/-- The returns of `getopt_long` on `argv` that carry the option value `id`. -/
def occurrences (id : Int) (argv : List String) : List GetoptRet :=
  (getopt_long argv).1.filter (fun r => decide (r.opt = id))

/-- The option `id` is given in `argv`: some return of `getopt_long` carries it. -/
def supplied (id : Int) (argv : List String) : Prop := occurrences id argv ≠ []

instance (id : Int) (argv : List String) : Decidable (supplied id argv) := by
  unfold supplied; exact inferInstance

/-- The argument of the last occurrence of the option `id` among the returns `rs`, and
`init` when there is none. -/
def last_optarg (id : Int) (init : Option String) (rs : List GetoptRet) : Option String :=
  rs.foldl (fun acc r => if r.opt = id then r.optarg else acc) init

/-- The argument given to the option `id` in `argv`: the one of its last occurrence. -/
def option_value (id : Int) (argv : List String) : Option String :=
  last_optarg id none (getopt_long argv).1

/-- A help or version flag (`-h`, `--help`, `-v`, `--version`) is given in `argv`. -/
def help_or_version (argv : List String) : Prop :=
  ∃ r ∈ (getopt_long argv).1, r.opt = 104 ∨ r.opt = 118

instance (argv : List String) : Decidable (help_or_version argv) := by
  unfold help_or_version; exact inferInstance

/-- The positional arguments of `argv`: `argv[optind..]` once `getopt_long` returned -1. -/
def positional (argv : List String) : List String := (getopt_long argv).2

/-- The canonical text of a dotted quad: four decimal numbers separated by dots. -/
def dotted_quad (a b c d : Nat) : String :=
  toString a ++ "." ++ toString b ++ "." ++ toString c ++ "." ++ toString d

/-- The mode after the returns `rs`, from the mode `m`: each `--vmnet-mode` with a known
name sets it (lines 94-100). -/
def mode_after (m : Nat) (rs : List GetoptRet) : Nat :=
  rs.foldl (fun m r =>
    if r.opt = CLI_OPTIONS_ID_VMNET_MODE then
      if r.optarg = some "host" then VMNET_HOST_MODE
      else if r.optarg = some "shared" then VMNET_SHARED_MODE
      else if r.optarg = some "bridged" then VMNET_BRIDGED_MODE
      else m
    else m) m

/-- A return of `getopt_long` without `optarg` is a flag or an error, and one with a
diagnostic is an error. -/
def getopt_ret_ok (r : GetoptRet) : Prop :=
  (r.optarg = none → r.opt = BADCH ∨ r.opt = 104 ∨ r.opt = 118) ∧
    (r.warn ≠ none → r.opt = BADCH)

/-- The value of a run of decimal digits, as the loop of `inet_aton` accumulates it from
`val` on. -/
def dec_value (val : Nat) (ds : List Char) : Nat :=
  ds.foldl (fun v c => (v * 10 + (c.toNat - '0'.toNat)) % 2 ^ 64) val

/-- The facts on the decimal text of `n` that the scan of `inet_aton` relies on: it is a
non-empty run of digits whose value is `n`, and it starts with `0` only when it is `0`. -/
def byte_text_ok (n : Nat) : Bool :=
  match Nat.toDigits 10 n with
  | [] => false
  | c :: ds =>
    (c :: ds).all (fun c => decide (c.toNat < 128) && isdigit c) &&
      decide (dec_value 0 (c :: ds) = n) &&
      (if c = '0' then decide (ds = []) && decide (n = 0) else decide (n ≠ 0))

/-- The pieces of a text between its dots. -/
def split_dots : List Char → List (List Char)
  | [] => [[]]
  | c :: cs =>
    match split_dots cs with
    | [] => [[]]
    | p :: ps => if c = '.' then [] :: p :: ps else (c :: p) :: ps

/-- The spec's words for the syntax of the gateway, "four decimal octets 0..255 separated
by dots": four pieces, each a non-empty run of decimal digits of value at most 255. -/
def spec_dotted_quad (s : String) : Bool :=
  decide ((split_dots s.data).length = 4) &&
    (split_dots s.data).all (fun p =>
      decide (p ≠ []) && p.all isdigit &&
        decide (p.foldl (fun v c => v * 10 + (c.toNat - '0'.toNat)) 0 ≤ 255))

/-- The returns of `getopt_long` on which the option loop goes on: an option with a
string argument, a mode with one of the three names, an interface id that parses. -/
def accepted (r : GetoptRet) : Bool :=
  decide (r.opt = CLI_OPTIONS_ID_VDE_GROUP ∨ r.opt = CLI_OPTIONS_ID_VMNET_INTERFACE ∨
    r.opt = CLI_OPTIONS_ID_VMNET_GATEWAY ∨ r.opt = CLI_OPTIONS_ID_VMNET_DHCP_END ∨
    r.opt = CLI_OPTIONS_ID_VMNET_MASK) ||
  (decide (r.opt = CLI_OPTIONS_ID_VMNET_MODE) &&
    decide (r.optarg = some "host" ∨ r.optarg = some "shared" ∨ r.optarg = some "bridged")) ||
  (decide (r.opt = CLI_OPTIONS_ID_VMNET_INTERFACE_ID) &&
    (uuid_parse (r.optarg.getD "")).isSome)

/-- The version of a UUID: the high four bits of its byte 6. -/
def uuid_version (uu : uuid_t) : Nat := uu.getD 6 0 / 16

/-- A version-4 UUID, as an example of what `uuid_generate_random` writes. -/
def sample_uuid : uuid_t :=
  [0x12, 0x34, 0x56, 0x78, 0x9a, 0xbc, 0x4d, 0xef, 0x81, 0x23, 0x45, 0x67, 0x89, 0xab, 0xcd, 0xef]

/-- The configuration returned for the arguments `--vmnet-gateway=192.168.105.1
/var/run/vde.ctl` when `uuid_generate_random` writes `sample_uuid`. -/
def sample_shared : cli_options :=
  { vde_group := some "staff", vde_switch := some "/var/run/vde.ctl",
    vmnet_mode := VMNET_SHARED_MODE, vmnet_interface := none,
    vmnet_gateway := some "192.168.105.1", vmnet_dhcp_end := some "192.168.105.254",
    vmnet_mask := some "255.255.255.0", vmnet_interface_id := sample_uuid }

/-- The last return of `getopt_long` on `argv` that carries the option value `id`. -/
def last_occurrence (id : Int) (argv : List String) : Option GetoptRet :=
  (occurrences id argv).getLast?

/-- The interface id after the returns `rs`, from the id `uu`: each
`--vmnet-interface-id` whose argument parses sets it (lines 118-123). -/
def id_after (uu : uuid_t) (rs : List GetoptRet) : uuid_t :=
  rs.foldl (fun uu r =>
    if r.opt = CLI_OPTIONS_ID_VMNET_INTERFACE_ID then
      match uuid_parse (r.optarg.getD "") with
      | some u => u
      | none => uu
    else uu) uu

/-- Every return of `getopt_long` on `argv` is one on which the option loop goes on: only
recognised options, with a known mode name and an interface id that parses, and no help
or version flag. -/
def all_accepted (argv : List String) : Prop :=
  ∀ r ∈ (getopt_long argv).1, accepted r = true

instance (argv : List String) : Decidable (all_accepted argv) := by
  unfold all_accepted; exact inferInstance

/-- The write goes to stderr. -/
def on_stderr : Write → Bool
  | Write.out _ => false
  | _ => true

/-- A Configuration of the data model: `groupName` is a string and `mode` one of the three
modes, and the invariants 1-7 hold. Invariant 5, "the gateway parses as a syntactically
valid dotted-quad address", is that `inet_aton` accepts the gateway or that the gateway is
the dotted quad of four decimal octets. -/
def valid_configuration (res : cli_options) : Prop :=
  res.vde_group ≠ none ∧
  (res.vmnet_mode = VMNET_HOST_MODE ∨ res.vmnet_mode = VMNET_SHARED_MODE ∨
    res.vmnet_mode = VMNET_BRIDGED_MODE) ∧
  (res.vmnet_mode = VMNET_BRIDGED_MODE → res.vmnet_interface ≠ none) ∧
  (res.vmnet_gateway ≠ none → res.vmnet_mode ≠ VMNET_BRIDGED_MODE) ∧
  (res.vmnet_gateway = none → res.vmnet_dhcp_end = none ∧ res.vmnet_mask = none) ∧
  (res.vmnet_gateway ≠ none → res.vmnet_dhcp_end ≠ none ∧ res.vmnet_mask ≠ none) ∧
  (∀ g, res.vmnet_gateway = some g →
    inet_aton g ≠ none ∨
      ∃ a b c d, a < 256 ∧ b < 256 ∧ c < 256 ∧ d < 256 ∧ g = dotted_quad a b c d) ∧
  uuid_is_null res.vmnet_interface_id = false ∧
  (∃ sw, res.vde_switch = some sw ∧ sw ≠ "")

/-- The values the table of long options and the option string can make `getopt_long`
return. -/
def known_value (opt : Int) : Bool :=
  decide (opt = CLI_OPTIONS_ID_VDE_GROUP ∨ opt = CLI_OPTIONS_ID_VMNET_MODE ∨
    opt = CLI_OPTIONS_ID_VMNET_INTERFACE ∨ opt = CLI_OPTIONS_ID_VMNET_GATEWAY ∨
    opt = CLI_OPTIONS_ID_VMNET_DHCP_END ∨ opt = CLI_OPTIONS_ID_VMNET_MASK ∨
    opt = CLI_OPTIONS_ID_VMNET_INTERFACE_ID ∨ opt = 104 ∨ opt = 118)

/-- A return of `getopt_long` is an option of the table or of the option string, or it
comes with a diagnostic of `getopt_long`. -/
def getopt_ret_known (r : GetoptRet) : Prop := known_value r.opt = true ∨ r.warn ≠ none

/-- The spec's list of the cross-field rules (section 4.4), in its order, as the messages
of those a configuration breaks: bridged without interface; with the gateway unset, a
set dhcp-end, then a set mask; with the gateway set, bridged mode, then a gateway that
is not an address. -/
def violated_rules (res : cli_options) : List String :=
  (if res.vmnet_mode = VMNET_BRIDGED_MODE ∧ res.vmnet_interface = none then
    [msg_bridged_interface] else []) ++
  (if res.vmnet_gateway = none ∧ res.vmnet_dhcp_end ≠ none then [msg_dhcp_end] else []) ++
  (if res.vmnet_gateway = none ∧ res.vmnet_mask ≠ none then [msg_mask] else []) ++
  (if res.vmnet_gateway ≠ none ∧ res.vmnet_mode = VMNET_BRIDGED_MODE then
    [msg_bridged_gateway] else []) ++
  (match res.vmnet_gateway with
    | some g =>
      if inet_aton g = none then
        ["invalid address \"" ++ g ++ "\" was specified for --vmnet-gateway\n"]
      else []
    | none => [])

/-- The warning of lines 186-190, written when rule 1 holds, the gateway is unset and
the mode is not bridged. -/
def gateway_warning (res : cli_options) : List Write :=
  if res.vmnet_gateway = none ∧ res.vmnet_mode ≠ VMNET_BRIDGED_MODE then
    [Write.err msg_warning]
  else []

/-- A vector in bridged mode with a gateway and without an interface. -/
def argv_bridged_gateway_only : List String :=
  ["vde_vmnet", "--vmnet-mode=bridged", "--vmnet-gateway=192.168.105.1", "/var/run/vde.ctl"]

/-- What has been written when the option loop ends. -/
def loop_trace : Loop → List Write
  | Loop.finished _ trace => trace
  | Loop.halted run => run.trace

/-! ## Sample inputs -/

/-- A vector in bridged mode without `--vmnet-interface`. -/
def argv_bridged : List String := ["vde_vmnet", "--vmnet-mode=bridged", "/var/run/vde.ctl"]

/-- A vector in bridged mode with `--vmnet-interface`. -/
def argv_bridged_en0 : List String :=
  ["vde_vmnet", "--vmnet-mode=bridged", "--vmnet-interface=en0", "/var/run/vde.ctl"]

/-- The configuration returned for `argv_bridged_en0`. -/
def sample_bridged : cli_options :=
  { vde_group := some "staff", vde_switch := some "/var/run/vde.ctl",
    vmnet_mode := VMNET_BRIDGED_MODE, vmnet_interface := some "en0", vmnet_gateway := none,
    vmnet_dhcp_end := none, vmnet_mask := none, vmnet_interface_id := sample_uuid }

/-- A vector in bridged mode with an interface and a gateway. -/
def argv_bridged_gateway : List String :=
  ["vde_vmnet", "--vmnet-mode=bridged", "--vmnet-interface=en0",
    "--vmnet-gateway=192.168.105.1", "/var/run/vde.ctl"]

/-- A vector with a gateway and nothing else but the switch. -/
def argv_shared : List String :=
  ["vde_vmnet", "--vmnet-gateway=192.168.105.1", "/var/run/vde.ctl"]

/-- A vector in host mode without a gateway. -/
def argv_host : List String := ["vde_vmnet", "--vmnet-mode=host", "/var/run/vde.ctl"]

/-- The configuration returned for `argv_host`. -/
def sample_host : cli_options :=
  { vde_group := some "staff", vde_switch := some "/var/run/vde.ctl",
    vmnet_mode := VMNET_HOST_MODE, vmnet_interface := none, vmnet_gateway := none,
    vmnet_dhcp_end := none, vmnet_mask := none, vmnet_interface_id := sample_uuid }

/-- A vector with `--vmnet-dhcp-end` and without `--vmnet-gateway`. -/
def argv_dhcp_end_only : List String :=
  ["vde_vmnet", "--vmnet-dhcp-end=192.168.105.99", "/var/run/vde.ctl"]

/-- A vector whose gateway is not an address. -/
def argv_bad_gateway : List String :=
  ["vde_vmnet", "--vmnet-gateway=192.168.105.one", "/var/run/vde.ctl"]

/-- A vector with the all-zero UUID as interface id. -/
def argv_zero_id : List String :=
  ["vde_vmnet", "--vmnet-interface-id=00000000-0000-0000-0000-000000000000", "--vmnet-mode=host",
    "/var/run/vde.ctl"]

/-- A vector with a help flag after a valid option and before invalid ones. -/
def argv_help : List String :=
  ["vde_vmnet", "--vmnet-mode=bridged", "--help", "--vmnet-mode=nat", "--no-such-option"]

/-- A vector with a version flag before an invalid option and two positional arguments. -/
def argv_version : List String := ["vde_vmnet", "-v", "--vmnet-interface-id=zzz", "a", "b"]

/-- A vector without a positional argument. -/
def argv_no_switch : List String := ["vde_vmnet", "--vmnet-mode=host"]

/-- A vector with two positional arguments. -/
def argv_two_switches : List String :=
  ["vde_vmnet", "/var/run/vde.ctl", "--vmnet-mode=host", "/var/run/vde2.ctl"]

/-- A vector with a help flag before an unknown mode name. -/
def argv_help_bad_mode : List String := ["vde_vmnet", "--help", "--vmnet-mode=nat"]

/-- A vector with an unknown mode name and no help or version flag. -/
def argv_bad_mode : List String := ["vde_vmnet", "--vmnet-mode=Host", "/var/run/vde.ctl"]

/-- A vector with a version flag before a malformed interface id. -/
def argv_version_bad_id : List String :=
  ["vde_vmnet", "--version", "--vmnet-interface-id=zzz", "/var/run/vde.ctl"]

/-- A vector with a malformed interface id and no help or version flag. -/
def argv_bad_id : List String :=
  ["vde_vmnet", "--vmnet-interface-id=zzz", "/var/run/vde.ctl"]

/-- A vector with every option that takes a string, and an interface id. -/
def argv_all : List String :=
  ["vde_vmnet", "--vde-group=wheel", "--vmnet-mode=host", "--vmnet-interface=en1",
    "--vmnet-gateway=10.0.0.1", "--vmnet-dhcp-end=10.0.0.99", "--vmnet-mask=255.0.0.0",
    "--vmnet-interface-id=deadbeef-0000-4000-8000-00000000cafe", "/var/run/vde.ctl"]

/-- The bytes of the interface id of `argv_all`. -/
def sample_id : uuid_t :=
  [0xde, 0xad, 0xbe, 0xef, 0x00, 0x00, 0x40, 0x00, 0x80, 0x00, 0x00, 0x00, 0x00, 0x00, 0xca, 0xfe]

/-- The configuration returned for `argv_all`. -/
def sample_all : cli_options :=
  { vde_group := some "wheel", vde_switch := some "/var/run/vde.ctl",
    vmnet_mode := VMNET_HOST_MODE, vmnet_interface := some "en1",
    vmnet_gateway := some "10.0.0.1", vmnet_dhcp_end := some "10.0.0.99",
    vmnet_mask := some "255.0.0.0", vmnet_interface_id := sample_id }

/-- A vector that gives the mode and the group twice. -/
def argv_twice : List String :=
  ["vde_vmnet", "--vmnet-mode=bridged", "--vde-group=wheel", "--vmnet-mode=shared",
    "--vde-group=admin", "/var/run/vde.ctl"]

/-- The configuration returned for `argv_twice`. -/
def sample_twice : cli_options :=
  { vde_group := some "admin", vde_switch := some "/var/run/vde.ctl",
    vmnet_mode := VMNET_SHARED_MODE, vmnet_interface := none, vmnet_gateway := none,
    vmnet_dhcp_end := none, vmnet_mask := none, vmnet_interface_id := sample_uuid }

/-! ## Lemmas on the stages -/

theorem validate_ok {res : cli_options} (h : (validate res).2 = true) :
    ¬ (res.vmnet_mode = VMNET_BRIDGED_MODE ∧ res.vmnet_interface = none) ∧
    (res.vmnet_gateway = none → res.vmnet_dhcp_end = none ∧ res.vmnet_mask = none) ∧
    (∀ g, res.vmnet_gateway = some g →
      res.vmnet_mode ≠ VMNET_BRIDGED_MODE ∧ inet_aton g ≠ none) := by
  unfold validate at h
  split at h
  · simp at h
  · rename_i hb
    refine ⟨hb, ?_, ?_⟩
    · intro hg
      rw [hg] at h
      simp only at h
      split at h
      · simp at h
      · rename_i hd
        split at h
        · simp at h
        · rename_i hm
          exact ⟨not_not.mp hd, not_not.mp hm⟩
    · intro g hg
      rw [hg] at h
      simp only at h
      split at h
      · simp at h
      · rename_i hmode
        refine ⟨hmode, ?_⟩
        intro hn
        rw [hn] at h
        simp at h

/-- The value lines 160-169 give to `vmnet_dhcp_end` from the `s_addr` of the gateway. -/
theorem default_dhcp_end_ok {res res1 : cli_options} (h : default_dhcp_end res = Except.ok res1) :
    res1 = { res with vmnet_dhcp_end := res1.vmnet_dhcp_end } ∧
    ((res.vmnet_gateway = none ∨ res.vmnet_dhcp_end ≠ none) →
      res1.vmnet_dhcp_end = res.vmnet_dhcp_end) ∧
    (∀ g, res.vmnet_gateway = some g → res.vmnet_dhcp_end = none →
      ∃ s, inet_aton g = some s ∧
        res1.vmnet_dhcp_end = inet_ntoa (htonl (ntohl s &&& 0xFFFFFF00 ||| 0x000000FE))) := by
  unfold default_dhcp_end at h
  split at h
  · rename_i g hg hd
    split at h
    · simp at h
    · rename_i s hs
      simp only at h
      split at h
      · simp at h
      · rename_i e he
        simp only [Except.ok.injEq] at h
        subst h
        refine ⟨rfl, ?_, ?_⟩
        · intro hc
          rcases hc with hc | hc
          · rw [hg] at hc; simp at hc
          · exact absurd hd hc
        · intro g1 hg1 _
          rw [hg] at hg1
          simp only [Option.some.injEq] at hg1
          subst hg1
          exact ⟨s, hs, he.symm⟩
  · rename_i hne
    simp only [Except.ok.injEq] at h
    subst h
    refine ⟨rfl, fun _ => rfl, ?_⟩
    intro g hg hd
    exact absurd hd (hne g hg)

theorem fill_default_ok {rnd : uuid_t} {res res1 : cli_options}
    (h : fill_default rnd res = Except.ok res1) :
    res1.vde_switch = res.vde_switch ∧
    res1.vmnet_interface = res.vmnet_interface ∧
    res1.vmnet_gateway = res.vmnet_gateway ∧
    res1.vmnet_mode = (if res.vmnet_mode = 0 then VMNET_SHARED_MODE else res.vmnet_mode) ∧
    res1.vde_group = (if res.vde_group = none then some CLI_DEFAULT_VDE_GROUP else res.vde_group) ∧
    ((res.vmnet_gateway = none ∨ res.vmnet_dhcp_end ≠ none) →
      res1.vmnet_dhcp_end = res.vmnet_dhcp_end) ∧
    (∀ g, res.vmnet_gateway = some g → res.vmnet_dhcp_end = none →
      ∃ s, inet_aton g = some s ∧
        res1.vmnet_dhcp_end = inet_ntoa (htonl (ntohl s &&& 0xFFFFFF00 ||| 0x000000FE))) ∧
    res1.vmnet_mask =
      (if res.vmnet_gateway ≠ none ∧ res.vmnet_mask = none then some "255.255.255.0"
       else res.vmnet_mask) ∧
    res1.vmnet_interface_id =
      (if uuid_is_null res.vmnet_interface_id then rnd else res.vmnet_interface_id) := by
  unfold fill_default at h
  simp only at h
  split at h
  · simp at h
  · rename_i res3 h3
    obtain ⟨e3, hkeep, hnew⟩ := default_dhcp_end_ok h3
    simp only [Except.ok.injEq] at h
    subst h
    rw [e3]
    exact ⟨rfl, rfl, rfl, rfl, rfl, hkeep, hnew, rfl, rfl⟩

theorem last_optarg_cons (id : Int) (init : Option String) (r : GetoptRet) (rs : List GetoptRet) :
    last_optarg id init (r :: rs) = last_optarg id (if r.opt = id then r.optarg else init) rs := rfl

theorem mode_after_cons (m : Nat) (r : GetoptRet) (rs : List GetoptRet) :
    mode_after m (r :: rs) =
      mode_after (if r.opt = CLI_OPTIONS_ID_VMNET_MODE then
          if r.optarg = some "host" then VMNET_HOST_MODE
          else if r.optarg = some "shared" then VMNET_SHARED_MODE
          else if r.optarg = some "bridged" then VMNET_BRIDGED_MODE
          else m
        else m) rs := rfl

/-- What the option loop leaves in the struct when it runs to its end. -/
theorem option_loop_finished (argv0 : String) (rs : List GetoptRet) :
    ∀ (res : cli_options) (t : List Write) (res1 : cli_options) (t1 : List Write),
    option_loop argv0 res t rs = Loop.finished res1 t1 →
    res1.vde_switch = res.vde_switch ∧
    res1.vde_group = last_optarg CLI_OPTIONS_ID_VDE_GROUP res.vde_group rs ∧
    res1.vmnet_interface = last_optarg CLI_OPTIONS_ID_VMNET_INTERFACE res.vmnet_interface rs ∧
    res1.vmnet_gateway = last_optarg CLI_OPTIONS_ID_VMNET_GATEWAY res.vmnet_gateway rs ∧
    res1.vmnet_dhcp_end = last_optarg CLI_OPTIONS_ID_VMNET_DHCP_END res.vmnet_dhcp_end rs ∧
    res1.vmnet_mask = last_optarg CLI_OPTIONS_ID_VMNET_MASK res.vmnet_mask rs ∧
    res1.vmnet_mode = mode_after res.vmnet_mode rs := by
  induction rs with
  | nil =>
    intro res t res1 t1 h
    simp only [option_loop, Loop.finished.injEq] at h
    obtain ⟨h, -⟩ := h
    subst h
    exact ⟨rfl, rfl, rfl, rfl, rfl, rfl, rfl⟩
  | cons r rs ih =>
    intro res t res1 t1 h
    rw [option_loop] at h
    simp only [last_optarg_cons, mode_after_cons]
    simp only [CLI_OPTIONS_ID_VDE_GROUP, CLI_OPTIONS_ID_VMNET_MODE,
      CLI_OPTIONS_ID_VMNET_INTERFACE, CLI_OPTIONS_ID_VMNET_GATEWAY,
      CLI_OPTIONS_ID_VMNET_DHCP_END, CLI_OPTIONS_ID_VMNET_MASK,
      CLI_OPTIONS_ID_VMNET_INTERFACE_ID] at h ih ⊢
    split_ifs at h with h1 h2 h3 h4 h5 h6 h7 h8 h9 h10
    · have := ih _ _ _ _ h
      simpa [h1] using this
    · have := ih _ _ _ _ h
      simpa [h2, h3] using this
    · have := ih _ _ _ _ h
      simpa [h2, h3, h4] using this
    · have := ih _ _ _ _ h
      simpa [h2, h3, h4, h5] using this
    · have := ih _ _ _ _ h
      simpa [h6] using this
    · have := ih _ _ _ _ h
      simpa [h7] using this
    · have := ih _ _ _ _ h
      simpa [h8] using this
    · have := ih _ _ _ _ h
      simpa [h9] using this
    · split at h
      · simp at h
      · have := ih _ _ _ _ h
        simpa [h10] using this

/-- A run that ends inside the option loop fails, unless a help or version flag was
reached. -/
theorem option_loop_halted (argv0 : String) (rs : List GetoptRet) :
    ∀ (res : cli_options) (t : List Write) (run : Run),
    option_loop argv0 res t rs = Loop.halted run →
    run.status = Status.exited EXIT_FAILURE ∨
      (run.status = Status.exited EXIT_SUCCESS ∧ ∃ r ∈ rs, r.opt = 104 ∨ r.opt = 118) := by
  induction rs with
  | nil =>
    intro res t run h
    simp [option_loop] at h
  | cons r rs ih =>
    intro res t run h
    rw [option_loop] at h
    have step : ∀ res2 t2, option_loop argv0 res2 t2 rs = Loop.halted run →
        run.status = Status.exited EXIT_FAILURE ∨
          (run.status = Status.exited EXIT_SUCCESS ∧
            ∃ r1 ∈ r :: rs, r1.opt = 104 ∨ r1.opt = 118) := by
      intro res2 t2 h2
      rcases ih res2 t2 run h2 with hf | ⟨hs, r1, hr1, ho⟩
      · exact Or.inl hf
      · exact Or.inr ⟨hs, r1, List.mem_cons_of_mem _ hr1, ho⟩
    split_ifs at h with h1 h2 h3 h4 h5 h6 h7 h8 h9 h10 h11 h12
    · exact step _ _ h
    · exact step _ _ h
    · exact step _ _ h
    · exact step _ _ h
    · simp only [Loop.halted.injEq] at h
      subst h
      exact Or.inl rfl
    · exact step _ _ h
    · exact step _ _ h
    · exact step _ _ h
    · exact step _ _ h
    · split at h
      · simp only [Loop.halted.injEq] at h
        subst h
        exact Or.inl rfl
      · exact step _ _ h
    · simp only [Loop.halted.injEq] at h
      subst h
      exact Or.inr ⟨rfl, r, List.mem_cons_self _ _, Or.inl h11⟩
    · simp only [Loop.halted.injEq] at h
      subst h
      exact Or.inr ⟨rfl, r, List.mem_cons_self _ _, Or.inr h12⟩
    · simp only [Loop.halted.injEq] at h
      subst h
      exact Or.inl rfl

/-- What lines 141-213 do after the option loop, when they return. -/
theorem after_options_returned {rnd : uuid_t} {argv0 : String} {res0 : cli_options}
    {t : List Write} {pos : List String} {res : cli_options}
    (h : (after_options rnd argv0 res0 t pos).status = Status.returned res) :
    pos.length = 1 ∧
    fill_default rnd { res0 with vde_switch := pos.head? } = Except.ok res ∧
    (validate res).2 = true := by
  unfold after_options at h
  split_ifs at h with hlen
  · simp [error_exit] at h
  · split at h
    · simp [error_exit] at h
    · rename_i res1 h1
      split at h
      · simp [error_exit] at h
      · rename_i ws hv
        simp only [Status.returned.injEq] at h
        subst h
        exact ⟨not_not.mp hlen, h1, by rw [hv]⟩

/-- Lines 141-213 never end with `exit(EXIT_SUCCESS)`. -/
theorem after_options_status (rnd : uuid_t) (argv0 : String) (res0 : cli_options)
    (t : List Write) (pos : List String) :
    (∃ res, (after_options rnd argv0 res0 t pos).status = Status.returned res) ∨
    (after_options rnd argv0 res0 t pos).status = Status.exited EXIT_FAILURE := by
  unfold after_options
  split_ifs
  · exact Or.inr rfl
  · split
    · exact Or.inr rfl
    · split
      · exact Or.inr rfl
      · exact Or.inl ⟨_, rfl⟩

/-- The stages behind a returned configuration. -/
theorem parse_returned {rnd : uuid_t} {argv : List String} {res : cli_options}
    (h : (cli_options_parse rnd argv).status = Status.returned res) :
    ∃ res0 t,
      option_loop (argv.headD "(null)") cli_options_zero [] (getopt_long argv).1 =
        Loop.finished res0 t ∧
      (positional argv).length = 1 ∧
      fill_default rnd { res0 with vde_switch := (positional argv).head? } = Except.ok res ∧
      (validate res).2 = true := by
  unfold cli_options_parse at h
  simp only at h
  split at h
  · rename_i run hrun
    rcases option_loop_halted _ _ _ _ _ hrun with hf | ⟨hs, -⟩
    · rw [hf] at h; simp at h
    · rw [hs] at h; simp at h
  · rename_i res0 t hloop
    exact ⟨res0, t, hloop, after_options_returned h⟩

/-- The three ways a call ends: a configuration is returned, or the process exits with
failure, or it exits with success, which takes a help or version flag. -/
theorem parse_status (rnd : uuid_t) (argv : List String) :
    (∃ res, (cli_options_parse rnd argv).status = Status.returned res) ∨
    (cli_options_parse rnd argv).status = Status.exited EXIT_FAILURE ∨
    ((cli_options_parse rnd argv).status = Status.exited EXIT_SUCCESS ∧
      help_or_version argv) := by
  unfold cli_options_parse
  simp only
  split
  · rename_i run hrun
    rcases option_loop_halted _ _ _ _ _ hrun with hf | ⟨hs, hr⟩
    · exact Or.inr (Or.inl hf)
    · exact Or.inr (Or.inr ⟨hs, hr⟩)
  · rcases after_options_status rnd (argv.headD "(null)") _ _ (getopt_long argv).2 with hr | hf
    · exact Or.inl hr
    · exact Or.inr (Or.inl hf)

/-! ## Lemmas on `getopt_long` and on the reading of an argument vector -/

theorem last_optarg_absent (id : Int) (rs : List GetoptRet) :
    ∀ init, (∀ r ∈ rs, r.opt ≠ id) → last_optarg id init rs = init := by
  induction rs with
  | nil => intro init _; rfl
  | cons r rs ih =>
    intro init h
    rw [last_optarg_cons, if_neg (h r (List.mem_cons_self _ _))]
    exact ih init (fun r1 hr1 => h r1 (List.mem_cons_of_mem _ hr1))

theorem last_optarg_present (id : Int) (rs : List GetoptRet)
    (harg : ∀ r ∈ rs, r.opt = id → r.optarg ≠ none) :
    ∀ init, (init ≠ none ∨ ∃ r ∈ rs, r.opt = id) → last_optarg id init rs ≠ none := by
  induction rs with
  | nil =>
    intro init h
    rcases h with h | ⟨r, hr, -⟩
    · exact h
    · simp at hr
  | cons r rs ih =>
    intro init h
    rw [last_optarg_cons]
    apply ih (fun r1 hr1 => harg r1 (List.mem_cons_of_mem _ hr1))
    by_cases hid : r.opt = id
    · rw [if_pos hid]
      exact Or.inl (harg r (List.mem_cons_self _ _) hid)
    · rw [if_neg hid]
      rcases h with h | ⟨r1, hr1, h1⟩
      · exact Or.inl h
      · rcases List.mem_cons.mp hr1 with e | hmem
        · subst e; exact absurd h1 hid
        · exact Or.inr ⟨r1, hmem, h1⟩

theorem find_long_option_mem (name : List Char) (os : List option) :
    ∀ found o, find_long_option name os found = some (some o) → o ∈ os ∨ found = some o := by
  induction os with
  | nil =>
    intro found o h
    simp only [find_long_option, Option.some.injEq] at h
    exact Or.inr h
  | cons o1 os ih =>
    intro found o h
    simp only [find_long_option] at h
    split_ifs at h with h1 h2
    · rcases ih _ _ h with hm | hf
      · exact Or.inl (List.mem_cons_of_mem _ hm)
      · exact Or.inr hf
    · simp only [Option.some.injEq] at h
      subst h
      exact Or.inl (List.mem_cons_self _ _)
    · split at h
      · rcases ih _ _ h with hm | hf
        · exact Or.inl (List.mem_cons_of_mem _ hm)
        · simp only [Option.some.injEq] at hf
          subst hf
          exact Or.inl (List.mem_cons_self _ _)
      · simp at h

theorem parse_long_options_optarg (cs : List Char) (next : Option String) :
    getopt_ret_ok (parse_long_options cs next).1 := by
  unfold parse_long_options
  simp only
  generalize (if cs.contains '=' = true then some (List.dropWhile (fun c => c != '=') cs).tail
    else none) = has_equal
  split
  · exact ⟨fun _ => Or.inl rfl, fun _ => rfl⟩
  · exact ⟨fun _ => Or.inl rfl, fun _ => rfl⟩
  · rename_i o ho
    have hmem : o ∈ longopts := by
      rcases find_long_option_mem _ _ _ _ ho with hm | hf
      · exact hm
      · simp at hf
    by_cases hna : o.has_arg = no_argument
    · rw [if_pos hna]
      cases has_equal with
      | some a => exact ⟨fun _ => Or.inl rfl, fun _ => rfl⟩
      | none =>
        refine ⟨fun _ => ?_, fun h => absurd rfl h⟩
        simp only [longopts, List.mem_cons, List.mem_singleton, List.not_mem_nil, or_false] at hmem
        rcases hmem with e | e | e | e | e | e | e | e | e <;> subst e <;>
          simp [no_argument, required_argument] at hna ⊢
    · rw [if_neg hna]
      cases has_equal with
      | some a => exact ⟨fun h => by simp at h, fun h => absurd rfl h⟩
      | none =>
        cases next with
        | some a => exact ⟨fun h => by simp at h, fun h => absurd rfl h⟩
        | none => exact ⟨fun _ => Or.inl rfl, fun _ => rfl⟩

theorem short_option_optarg (c : Char) : getopt_ret_ok (short_option c) := by
  unfold short_option getopt_ret_ok
  split_ifs with h
  · refine ⟨fun _ => ?_, fun h => absurd rfl h⟩
    simp only [optstring, List.contains_cons, List.contains_nil, Bool.or_false, Bool.or_eq_true,
      beq_iff_eq] at h
    rcases h with e | e <;> subst e <;> simp
  · exact ⟨fun _ => Or.inl rfl, fun _ => rfl⟩

theorem getopt_place_optarg (next : Option String) (k0 k1 : List GetoptRet × List String)
    (h0 : ∀ r ∈ k0.1, getopt_ret_ok r) (h1 : ∀ r ∈ k1.1, getopt_ret_ok r) (place : List Char) :
    ∀ r ∈ (getopt_place next k0 k1 place).1, getopt_ret_ok r := by
  induction place with
  | nil => exact h0
  | cons c place ih =>
    rw [getopt_place]
    split_ifs with hc
    · intro r hr
      simp only [List.mem_cons] at hr
      rcases hr with e | hr
      · subst e; exact parse_long_options_optarg _ _
      · split_ifs at hr
        · exact h1 r hr
        · exact h0 r hr
    · intro r hr
      simp only [List.mem_cons] at hr
      rcases hr with e | hr
      · subst e; exact short_option_optarg _
      · exact ih r hr

theorem getopt_long_from_optarg (nonopts args : List String) :
    ∀ r ∈ (getopt_long_from nonopts args).1, getopt_ret_ok r := by
  induction nonopts, args using getopt_long_from.induct with
  | case1 nonopts => simp [getopt_long_from]
  | case2 nonopts arg rest c1 cs hdd harg =>
    rw [getopt_long_from, harg]
    simp [hdd]
  | case3 nonopts arg c1 cs hdd harg =>
    rw [getopt_long_from, harg]
    simp only [if_true, if_neg hdd]
    exact getopt_place_optarg _ _ _ (by simp) (by simp) _
  | case4 nonopts arg c1 cs hdd next rest1 harg ih0 ih1 =>
    rw [getopt_long_from, harg]
    simp only [if_true, if_neg hdd]
    exact getopt_place_optarg _ _ _ ih0 ih1 _
  | case5 nonopts arg rest c0 c1 cs harg hc0 ih =>
    rw [getopt_long_from, harg]
    simp only [if_neg hc0]
    exact ih
  | case6 nonopts arg rest hno ih =>
    rw [getopt_long_from]
    split
    · rename_i c0 c1 place harg
      exact absurd harg (fun e => hno c0 c1 place e)
    · exact ih

/-- An option that takes an argument always comes with one. -/
theorem getopt_long_optarg (argv : List String) (id : Int)
    (hid : id ≠ BADCH ∧ id ≠ 104 ∧ id ≠ 118) :
    ∀ r ∈ (getopt_long argv).1, r.opt = id → r.optarg ≠ none := by
  intro r hr ho hn
  rcases (getopt_long_from_optarg _ _ r hr).1 hn with e | e | e
  · exact hid.1 (ho.symm.trans e)
  · exact hid.2.1 (ho.symm.trans e)
  · exact hid.2.2 (ho.symm.trans e)

theorem option_value_absent {id : Int} {argv : List String} (h : ¬ supplied id argv) :
    option_value id argv = none := by
  apply last_optarg_absent
  intro r hr ho
  apply h
  unfold supplied occurrences
  intro hnil
  have : r ∈ (getopt_long argv).1.filter (fun r => decide (r.opt = id)) := by
    simp [List.mem_filter, hr, ho]
  rw [hnil] at this
  simp at this

theorem option_value_present {id : Int} {argv : List String}
    (hid : id ≠ BADCH ∧ id ≠ 104 ∧ id ≠ 118) (h : supplied id argv) :
    option_value id argv ≠ none := by
  apply last_optarg_present _ _ (getopt_long_optarg argv id hid)
  right
  unfold supplied occurrences at h
  obtain ⟨r, hr⟩ := List.exists_mem_of_ne_nil _ h
  simp only [List.mem_filter, decide_eq_true_eq] at hr
  exact ⟨r, hr.1, hr.2⟩

/-- The fields of a returned configuration, read off the argument vector. -/
theorem parse_returned_fields {rnd : uuid_t} {argv : List String} {res : cli_options}
    (h : (cli_options_parse rnd argv).status = Status.returned res) :
    (positional argv).length = 1 ∧
    res.vde_switch = (positional argv).head? ∧
    res.vmnet_interface = option_value CLI_OPTIONS_ID_VMNET_INTERFACE argv ∧
    res.vmnet_gateway = option_value CLI_OPTIONS_ID_VMNET_GATEWAY argv ∧
    res.vmnet_mode =
      (if mode_after 0 (getopt_long argv).1 = 0 then VMNET_SHARED_MODE
       else mode_after 0 (getopt_long argv).1) ∧
    ((option_value CLI_OPTIONS_ID_VMNET_GATEWAY argv = none ∨
        option_value CLI_OPTIONS_ID_VMNET_DHCP_END argv ≠ none) →
      res.vmnet_dhcp_end = option_value CLI_OPTIONS_ID_VMNET_DHCP_END argv) ∧
    (∀ g, option_value CLI_OPTIONS_ID_VMNET_GATEWAY argv = some g →
      option_value CLI_OPTIONS_ID_VMNET_DHCP_END argv = none →
      ∃ s, inet_aton g = some s ∧
        res.vmnet_dhcp_end = inet_ntoa (htonl (ntohl s &&& 0xFFFFFF00 ||| 0x000000FE))) ∧
    res.vmnet_mask =
      (if option_value CLI_OPTIONS_ID_VMNET_GATEWAY argv ≠ none ∧
          option_value CLI_OPTIONS_ID_VMNET_MASK argv = none then some "255.255.255.0"
       else option_value CLI_OPTIONS_ID_VMNET_MASK argv) ∧
    (validate res).2 = true := by
  obtain ⟨res0, t, hloop, hlen, hfill, hval⟩ := parse_returned h
  obtain ⟨-, -, l3, l4, l5, l6, l7⟩ := option_loop_finished _ _ _ _ _ _ hloop
  obtain ⟨f1, f2, f3, f4, -, f6, f7, f8, -⟩ := fill_default_ok hfill
  simp only at f1 f2 f3 f4 f6 f7 f8
  rw [l3] at f2
  rw [l4] at f3 f6 f7 f8
  rw [l5] at f6 f7
  rw [l6] at f8
  rw [l7] at f4
  exact ⟨hlen, f1, f2, f3, f4, f6, f7, f8, hval⟩

/-- The mode the loop ends with agrees with the last `--vmnet-mode` argument. -/
theorem mode_after_last (rs : List GetoptRet) :
    ∀ (init : Option String) (m : Nat),
    ((init = some "host" → m = VMNET_HOST_MODE) ∧
      (init = some "shared" → m = VMNET_SHARED_MODE) ∧
      (init = some "bridged" → m = VMNET_BRIDGED_MODE)) →
    ((last_optarg CLI_OPTIONS_ID_VMNET_MODE init rs = some "host" →
        mode_after m rs = VMNET_HOST_MODE) ∧
      (last_optarg CLI_OPTIONS_ID_VMNET_MODE init rs = some "shared" →
        mode_after m rs = VMNET_SHARED_MODE) ∧
      (last_optarg CLI_OPTIONS_ID_VMNET_MODE init rs = some "bridged" →
        mode_after m rs = VMNET_BRIDGED_MODE)) := by
  induction rs with
  | nil => intro init m h; exact h
  | cons r rs ih =>
    intro init m h
    rw [last_optarg_cons, mode_after_cons]
    apply ih
    by_cases hid : r.opt = CLI_OPTIONS_ID_VMNET_MODE
    · simp only [if_pos hid]
      refine ⟨?_, ?_, ?_⟩ <;> intro ha <;> simp [ha]
    · simp only [if_neg hid]
      exact h

theorem mode_after_bridged {argv : List String}
    (h : option_value CLI_OPTIONS_ID_VMNET_MODE argv = some "bridged") :
    mode_after 0 (getopt_long argv).1 = VMNET_BRIDGED_MODE :=
  (mode_after_last _ none 0 (by simp)).2.2 h

/-! ## Lemmas on `inet_aton`, `inet_ntoa` and the byte order -/

theorem and_mask (hi lo : Nat) (hhi : hi < 16777216) (hlo : lo < 256) :
    (hi * 256 + lo) &&& 0xFFFFFF00 = hi * 256 := by
  have e1 : hi * 256 + lo = 2 ^ 8 * hi + lo := by omega
  have e2 : (0xFFFFFF00 : Nat) = 2 ^ 8 * (2 ^ 24 - 1) + 0 := by norm_num
  have e3 : hi * 256 = 2 ^ 8 * hi + 0 := by omega
  rw [e1, e2, e3]
  apply Nat.eq_of_testBit_eq
  intro j
  rw [Nat.testBit_and, Nat.testBit_mul_pow_two_add _ (by omega : lo < 2 ^ 8),
    Nat.testBit_mul_pow_two_add _ (by norm_num : 0 < 2 ^ 8),
    Nat.testBit_mul_pow_two_add _ (by norm_num : 0 < 2 ^ 8)]
  by_cases hj : j < 8
  · simp [hj]
  · simp only [hj, if_false, Nat.testBit_two_pow_sub_one]
    by_cases hk : j - 8 < 24
    · simp [hk]
    · have : hi.testBit (j - 8) = false := by
        apply Nat.testBit_lt_two_pow
        calc hi < 2 ^ 24 := by omega
          _ ≤ 2 ^ (j - 8) := Nat.pow_le_pow_right (by norm_num) (by omega)
      simp [this]

theorem or_low (y lo : Nat) (hlo : lo < 256) : y * 256 ||| lo = y * 256 + lo := by
  have := Nat.mul_add_lt_is_or (i := 8) (b := lo) (by omega) y
  simp only [Nat.reducePow] at this
  rw [Nat.mul_comm]
  exact this.symm

theorem htonl_bytes (a b c d : Nat) (ha : a < 256) (hb : b < 256) (hc : c < 256) (hd : d < 256) :
    htonl (a * 16777216 + b * 65536 + c * 256 + d) = d * 16777216 + c * 65536 + b * 256 + a := by
  unfold htonl
  omega

theorem parts_or (a b c d : Nat) (hb : b < 256) (hc : c < 256) (hd : d < 256) :
    d ||| (a <<< 24 ||| b <<< 16 ||| c <<< 8) = a * 16777216 + b * 65536 + c * 256 + d := by
  have s1 : a <<< 24 ||| b <<< 16 = 2 ^ 16 * (a * 256 + b) := by
    have h := Nat.mul_add_lt_is_or (i := 24) (b := b * 65536) (by omega) a
    rw [Nat.shiftLeft_eq, Nat.shiftLeft_eq, Nat.mul_comm a (2 ^ 24), ← h]
    omega
  have s2 : a <<< 24 ||| b <<< 16 ||| c <<< 8 = 2 ^ 8 * (a * 65536 + b * 256 + c) := by
    have h := Nat.mul_add_lt_is_or (i := 16) (b := c * 256) (by omega) (a * 256 + b)
    rw [s1, Nat.shiftLeft_eq, ← h]
    omega
  have h := Nat.mul_add_lt_is_or (i := 8) (b := d) (by omega) (a * 65536 + b * 256 + c)
  rw [s2, Nat.or_comm, ← h]
  omega

set_option maxRecDepth 100000 in
theorem byte_text_ok_all : ∀ n, n < 256 → byte_text_ok n = true := by
  decide

theorem scan_decimal (parts : List Nat) (rest : List Char) (ds : List Char) :
    ∀ (val : Nat),
    ds.all (fun c => decide (c.toNat < 128) && isdigit c) = true →
    inet_aton_scan parts (some (10, val, true, false)) (ds ++ rest) =
      inet_aton_scan parts (some (10, dec_value val ds, true, false)) rest := by
  induction ds with
  | nil => intro val _; rfl
  | cons c ds ih =>
    intro val hall
    simp only [List.all_cons, Bool.and_eq_true] at hall
    rw [List.cons_append, inet_aton_scan]
    simp only [Bool.false_and, hall.1.1, hall.1.2, Bool.and_self, if_true]
    rw [if_neg (by simp), if_neg (by simp), ih _ hall.2]
    rfl

theorem scan_dot (parts : List Nat) (base val : Nat) (zero : Bool) (rest : List Char)
    (hb : base ≠ 16) :
    inet_aton_scan parts (some (base, val, true, zero)) ('.' :: rest) =
      if parts.length ≥ 3 ∨ val > 0xff then none
      else inet_aton_scan (parts ++ [val]) none rest := by
  rw [inet_aton_scan]
  have h1 : (zero && ('.' == 'x' || '.' == 'X')) = false := by
    cases zero <;> decide
  have h2 : (decide (('.' : Char).toNat < 128) && isdigit '.') = false := by decide
  simp only [h1, h2, hb, decide_False, Bool.false_and, if_true, if_false]
  simp

theorem scan_byte (parts : List Nat) (n : Nat) (hn : n < 256) (rest : List Char) :
    inet_aton_scan parts none (Nat.toDigits 10 n ++ rest) =
      inet_aton_scan parts (some (if n = 0 then 8 else 10, n, true, decide (n = 0))) rest := by
  have hok := byte_text_ok_all n hn
  unfold byte_text_ok at hok
  split at hok
  · simp at hok
  · rename_i c ds hds
    rw [hds]
    simp only [Bool.and_eq_true, decide_eq_true_eq, List.all_cons] at hok
    obtain ⟨⟨⟨⟨-, hc2⟩, hall⟩, hval⟩, hzero⟩ := hok
    rw [List.cons_append, inet_aton_scan]
    simp only [hc2, Bool.not_true, if_false]
    by_cases hc : c = '0'
    · simp only [hc, if_true, Bool.and_eq_true, decide_eq_true_eq] at hzero ⊢
      obtain ⟨hds0, hn0⟩ := hzero
      subst hds0 hn0
      simp
    · simp only [hc, if_false, decide_eq_true_eq] at hzero ⊢
      rw [scan_decimal _ _ _ _ hall]
      simp only [hzero, if_false, decide_False]
      rw [← hval]
      rfl

theorem scan_byte_dot (parts : List Nat) (n : Nat) (hn : n < 256) (hp : parts.length < 3)
    (rest : List Char) :
    inet_aton_scan parts none (Nat.toDigits 10 n ++ '.' :: rest) =
      inet_aton_scan (parts ++ [n]) none rest := by
  rw [scan_byte parts n hn, scan_dot _ _ _ _ _ (by split_ifs <;> decide)]
  rw [if_neg (by omega)]

theorem scan_byte_end (parts : List Nat) (n : Nat) (hn : n < 256) :
    inet_aton_scan parts none (Nat.toDigits 10 n) = inet_aton_finish parts n true [] := by
  have h := scan_byte parts n hn []
  rw [List.append_nil] at h
  rw [h, inet_aton_scan]

theorem toString_data (n : Nat) : (toString n).data = Nat.toDigits 10 n := rfl

theorem inet_aton_dotted_quad (a b c d : Nat) (ha : a < 256) (hb : b < 256) (hc : c < 256)
    (hd : d < 256) :
    inet_aton (dotted_quad a b c d) =
      some (htonl (d ||| (a <<< 24 ||| b <<< 16 ||| c <<< 8))) := by
  unfold inet_aton dotted_quad
  simp only [String.data_append, toString_data, List.append_assoc]
  have e : (".".data : List Char) = ['.'] := rfl
  simp only [e, List.singleton_append]
  rw [scan_byte_dot _ _ ha (by simp), scan_byte_dot _ _ hb (by simp),
    scan_byte_dot _ _ hc (by simp), scan_byte_end _ _ hd]
  simp only [List.nil_append, List.cons_append, inet_aton_finish]
  simp
  omega

/-- Lines 160-164 on the address of the dotted quad a.b.c.d give the text of a.b.c.254. -/
theorem dhcp_end_of_dotted_quad (a b c d : Nat) (ha : a < 256) (hb : b < 256) (hc : c < 256)
    (hd : d < 256) :
    inet_ntoa (htonl (ntohl (htonl (d ||| (a <<< 24 ||| b <<< 16 ||| c <<< 8)))
      &&& 0xFFFFFF00 ||| 0x000000FE)) = some (dotted_quad a b c 254) := by
  rw [parts_or a b c d hb hc hd, htonl_bytes a b c d ha hb hc hd]
  unfold ntohl
  rw [htonl_bytes d c b a hd hc hb ha]
  have e : a * 16777216 + b * 65536 + c * 256 + d = (a * 65536 + b * 256 + c) * 256 + d := by
    omega
  rw [e, and_mask _ _ (by omega) hd, or_low _ _ (by omega : 254 < 256)]
  have e2 : (a * 65536 + b * 256 + c) * 256 + 254 = a * 16777216 + b * 65536 + c * 256 + 254 := by
    omega
  rw [e2, htonl_bytes a b c 254 ha hb hc (by omega)]
  unfold inet_ntoa dotted_quad
  have q1 : (254 * 16777216 + c * 65536 + b * 256 + a) / 256 = 254 * 65536 + c * 256 + b := by
    omega
  have q2 : (254 * 16777216 + c * 65536 + b * 256 + a) / 65536 = 254 * 256 + c := by omega
  have q3 : (254 * 16777216 + c * 65536 + b * 256 + a) / 16777216 = 254 := by omega
  have h0 : (254 * 16777216 + c * 65536 + b * 256 + a) % 256 = a := by omega
  have h1 : (254 * 65536 + c * 256 + b) % 256 = b := by omega
  have h2 : (254 * 256 + c) % 256 = c := by omega
  rw [q1, q2, q3, h1, h2]
  have h3 : 254 % 256 = 254 := rfl
  rw [h0, h3]

/-- The option loop runs through accepted returns without writing anything. -/
theorem option_loop_accepted (argv0 : String) (pre rest : List GetoptRet) :
    ∀ (res : cli_options) (t : List Write),
    (∀ p ∈ pre, accepted p = true ∧ p.warn = none) →
    ∃ res1, option_loop argv0 res t (pre ++ rest) = option_loop argv0 res1 t rest := by
  induction pre with
  | nil => intro res t _; exact ⟨res, rfl⟩
  | cons p pre ih =>
    intro res t hpre
    obtain ⟨hacc, hwarn⟩ := hpre p (List.mem_cons_self _ _)
    have hrest : ∀ q ∈ pre, accepted q = true ∧ q.warn = none :=
      fun q hq => hpre q (List.mem_cons_of_mem _ hq)
    rw [List.cons_append, option_loop]
    simp only [hwarn, Option.toList, List.map_nil, List.append_nil]
    simp only [accepted, Bool.or_eq_true, Bool.and_eq_true, decide_eq_true_eq,
      Option.isSome_iff_exists] at hacc
    simp only [CLI_OPTIONS_ID_VDE_GROUP, CLI_OPTIONS_ID_VMNET_MODE,
        CLI_OPTIONS_ID_VMNET_INTERFACE, CLI_OPTIONS_ID_VMNET_GATEWAY,
        CLI_OPTIONS_ID_VMNET_DHCP_END, CLI_OPTIONS_ID_VMNET_MASK,
        CLI_OPTIONS_ID_VMNET_INTERFACE_ID] at hacc ⊢
    rcases hacc with ((h | h | h | h | h) | ⟨h, (ha | ha | ha)⟩) | ⟨h, a, ha⟩
    · simp only [h, if_true]
      exact ih _ _ hrest
    · rw [if_neg (by rw [h]; decide), if_neg (by rw [h]; decide), if_pos h]
      exact ih _ _ hrest
    · rw [if_neg (by rw [h]; decide), if_neg (by rw [h]; decide), if_neg (by rw [h]; decide),
        if_pos h]
      exact ih _ _ hrest
    · rw [if_neg (by rw [h]; decide), if_neg (by rw [h]; decide), if_neg (by rw [h]; decide),
        if_neg (by rw [h]; decide), if_pos h]
      exact ih _ _ hrest
    · rw [if_neg (by rw [h]; decide), if_neg (by rw [h]; decide), if_neg (by rw [h]; decide),
        if_neg (by rw [h]; decide), if_neg (by rw [h]; decide), if_pos h]
      exact ih _ _ hrest
    · rw [if_neg (by rw [h]; decide), if_pos h, if_pos ha]
      exact ih _ _ hrest
    · rw [if_neg (by rw [h]; decide), if_pos h, if_neg (by rw [ha]; decide), if_pos ha]
      exact ih _ _ hrest
    · rw [if_neg (by rw [h]; decide), if_pos h, if_neg (by rw [ha]; decide),
        if_neg (by rw [ha]; decide), if_pos ha]
      exact ih _ _ hrest
    · rw [if_neg (by rw [h]; decide), if_neg (by rw [h]; decide), if_neg (by rw [h]; decide),
        if_neg (by rw [h]; decide), if_neg (by rw [h]; decide), if_neg (by rw [h]; decide),
        if_pos h]
      simp only [ha]
      exact ih _ _ hrest

/-- An accepted return of `getopt_long` carries no diagnostic. -/
theorem accepted_no_warn (argv : List String) {r : GetoptRet}
    (hr : r ∈ (getopt_long argv).1) (hacc : accepted r = true) : r.warn = none := by
  by_contra hw
  have hbad := (getopt_long_from_optarg _ _ r hr).2 hw
  simp only [accepted, Bool.or_eq_true, Bool.and_eq_true, decide_eq_true_eq] at hacc
  simp only [CLI_OPTIONS_ID_VDE_GROUP, CLI_OPTIONS_ID_VMNET_MODE,
    CLI_OPTIONS_ID_VMNET_INTERFACE, CLI_OPTIONS_ID_VMNET_GATEWAY,
    CLI_OPTIONS_ID_VMNET_DHCP_END, CLI_OPTIONS_ID_VMNET_MASK,
    CLI_OPTIONS_ID_VMNET_INTERFACE_ID, hbad, BADCH] at hacc
  simp at hacc

/-- A help or version flag returned by `getopt_long` carries no diagnostic. -/
theorem flag_no_warn {argv : List String} {r : GetoptRet}
    (hr : r ∈ (getopt_long argv).1) (hflag : r.opt = 104 ∨ r.opt = 118) : r.warn = none := by
  by_contra hw
  have hbad := (getopt_long_from_optarg _ _ r hr).2 hw
  rw [hbad] at hflag
  simp [BADCH] at hflag

theorem all_zero_getD (l : List Nat) :
    ∀ i, l.all (fun b => b == 0) = true → l.getD i 0 = 0 := by
  induction l with
  | nil => intro i _; rfl
  | cons x l ih =>
    intro i h
    simp only [List.all_cons, Bool.and_eq_true, beq_iff_eq] at h
    cases i with
    | zero => simpa using h.1
    | succ i => simpa using ih i h.2

/-- A UUID with a version other than 0 is not the null UUID. -/
theorem uuid_version_not_null {uu : uuid_t} (h : uuid_version uu ≠ 0) :
    uuid_is_null uu = false := by
  by_contra hn
  simp only [Bool.not_eq_false] at hn
  apply h
  unfold uuid_version
  rw [all_zero_getD uu 6 hn]

/-! ## Lemmas on accepted options and on the last occurrence -/

/-- The argument of the last occurrence, read off the list of the occurrences. -/
theorem last_optarg_getLast (id : Int) (rs : List GetoptRet) :
    ∀ init, last_optarg id init rs =
      match (rs.filter (fun r => decide (r.opt = id))).getLast? with
      | some r => r.optarg
      | none => init := by
  induction rs with
  | nil => intro init; rfl
  | cons r rs ih =>
    intro init
    rw [last_optarg_cons, ih, List.filter_cons]
    by_cases hid : r.opt = id
    · simp only [hid, decide_True, if_true, List.getLast?_cons]
      cases (List.filter (fun r => decide (r.opt = id)) rs).getLast? <;> rfl
    · simp only [hid, decide_False, if_false]
      rfl

theorem option_value_last_occurrence (id : Int) (argv : List String) :
    option_value id argv = (last_occurrence id argv).bind (fun r => r.optarg) := by
  unfold option_value last_occurrence occurrences
  rw [last_optarg_getLast]
  cases (List.filter (fun r => decide (r.opt = id)) (getopt_long argv).1).getLast? <;> rfl

theorem last_occurrence_mem {id : Int} {argv : List String} {r : GetoptRet}
    (h : last_occurrence id argv = some r) : r ∈ (getopt_long argv).1 ∧ r.opt = id := by
  unfold last_occurrence occurrences at h
  have hm := List.mem_of_getLast?_eq_some h
  simpa [List.mem_filter] using hm

theorem last_occurrence_none {id : Int} {argv : List String} :
    last_occurrence id argv = none ↔ ¬ supplied id argv := by
  unfold last_occurrence supplied
  rw [List.getLast?_eq_none_iff]
  simp

theorem id_after_cons (uu : uuid_t) (r : GetoptRet) (rs : List GetoptRet) :
    id_after uu (r :: rs) =
      id_after (if r.opt = CLI_OPTIONS_ID_VMNET_INTERFACE_ID then
          match uuid_parse (r.optarg.getD "") with
          | some u => u
          | none => uu
        else uu) rs := rfl

/-- When the option loop runs to its end, every return was accepted, and the interface id
is the one the returns leave. -/
theorem option_loop_finished_accepted (argv0 : String) (rs : List GetoptRet) :
    ∀ (res : cli_options) (t : List Write) (res1 : cli_options) (t1 : List Write),
    option_loop argv0 res t rs = Loop.finished res1 t1 →
    (∀ r ∈ rs, accepted r = true) ∧
    res1.vmnet_interface_id = id_after res.vmnet_interface_id rs := by
  induction rs with
  | nil =>
    intro res t res1 t1 h
    simp only [option_loop, Loop.finished.injEq] at h
    obtain ⟨h, -⟩ := h
    subst h
    exact ⟨fun r hr => by simp at hr, rfl⟩
  | cons r rs ih =>
    intro res t res1 t1 h
    rw [option_loop] at h
    rw [id_after_cons]
    have step : ∀ res2 t2, accepted r = true →
        option_loop argv0 res2 t2 rs = Loop.finished res1 t1 →
        res2.vmnet_interface_id =
          (if r.opt = CLI_OPTIONS_ID_VMNET_INTERFACE_ID then
            match uuid_parse (r.optarg.getD "") with
            | some u => u
            | none => res.vmnet_interface_id
          else res.vmnet_interface_id) →
        (∀ r1 ∈ r :: rs, accepted r1 = true) ∧
          res1.vmnet_interface_id =
            id_after (if r.opt = CLI_OPTIONS_ID_VMNET_INTERFACE_ID then
              match uuid_parse (r.optarg.getD "") with
              | some u => u
              | none => res.vmnet_interface_id
            else res.vmnet_interface_id) rs := by
      intro res2 t2 hacc h2 hid
      obtain ⟨ha, hi⟩ := ih res2 t2 res1 t1 h2
      refine ⟨?_, by rw [hi, hid]⟩
      intro r1 hr1
      rcases List.mem_cons.mp hr1 with e | hm
      · rw [e]; exact hacc
      · exact ha r1 hm
    simp only [CLI_OPTIONS_ID_VDE_GROUP, CLI_OPTIONS_ID_VMNET_MODE,
      CLI_OPTIONS_ID_VMNET_INTERFACE, CLI_OPTIONS_ID_VMNET_GATEWAY,
      CLI_OPTIONS_ID_VMNET_DHCP_END, CLI_OPTIONS_ID_VMNET_MASK,
      CLI_OPTIONS_ID_VMNET_INTERFACE_ID] at h step ⊢
    split_ifs at h with h1 h2 h3 h4 h5 h6 h7 h8 h9 h10
    · exact step _ _ (by simp [accepted, CLI_OPTIONS_ID_VDE_GROUP, h1]) h
        (by rw [if_neg (by rw [h1]; decide)])
    · exact step _ _ (by simp [accepted, CLI_OPTIONS_ID_VMNET_MODE, h2, h3]) h
        (by rw [if_neg (by rw [h2]; decide)])
    · exact step _ _ (by simp [accepted, CLI_OPTIONS_ID_VMNET_MODE, h2, h4]) h
        (by rw [if_neg (by rw [h2]; decide)])
    · exact step _ _ (by simp [accepted, CLI_OPTIONS_ID_VMNET_MODE, h2, h5]) h
        (by rw [if_neg (by rw [h2]; decide)])
    · exact step _ _ (by simp [accepted, CLI_OPTIONS_ID_VMNET_INTERFACE, h6]) h
        (by rw [if_neg (by rw [h6]; decide)])
    · exact step _ _ (by simp [accepted, CLI_OPTIONS_ID_VMNET_GATEWAY, h7]) h
        (by rw [if_neg (by rw [h7]; decide)])
    · exact step _ _ (by simp [accepted, CLI_OPTIONS_ID_VMNET_DHCP_END, h8]) h
        (by rw [if_neg (by rw [h8]; decide)])
    · exact step _ _ (by simp [accepted, CLI_OPTIONS_ID_VMNET_MASK, h9]) h
        (by rw [if_neg (by rw [h9]; decide)])
    · split at h
      · simp at h
      · rename_i uu huu
        exact step _ _ (by simp [accepted, CLI_OPTIONS_ID_VMNET_INTERFACE_ID, h10, huu]) h
          (by rw [if_pos h10, huu])

/-- The mode the loop ends with, when every return is accepted: unset without a
`--vmnet-mode`, else the mode named by the last one. -/
theorem mode_after_accepted (rs : List GetoptRet) (hacc : ∀ r ∈ rs, accepted r = true) :
    ∀ (init : Option String) (m : Nat),
    ((init = none ∧ m = 0) ∨ (init = some "host" ∧ m = VMNET_HOST_MODE) ∨
      (init = some "shared" ∧ m = VMNET_SHARED_MODE) ∨
      (init = some "bridged" ∧ m = VMNET_BRIDGED_MODE)) →
    ((last_optarg CLI_OPTIONS_ID_VMNET_MODE init rs = none ∧ mode_after m rs = 0) ∨
      (last_optarg CLI_OPTIONS_ID_VMNET_MODE init rs = some "host" ∧
        mode_after m rs = VMNET_HOST_MODE) ∨
      (last_optarg CLI_OPTIONS_ID_VMNET_MODE init rs = some "shared" ∧
        mode_after m rs = VMNET_SHARED_MODE) ∨
      (last_optarg CLI_OPTIONS_ID_VMNET_MODE init rs = some "bridged" ∧
        mode_after m rs = VMNET_BRIDGED_MODE)) := by
  induction rs with
  | nil => intro init m h; exact h
  | cons r rs ih =>
    intro init m h
    rw [last_optarg_cons, mode_after_cons]
    apply ih (fun r1 hr1 => hacc r1 (List.mem_cons_of_mem _ hr1))
    by_cases hid : r.opt = CLI_OPTIONS_ID_VMNET_MODE
    · have ha := hacc r (List.mem_cons_self _ _)
      simp only [accepted, hid, Bool.or_eq_true, Bool.and_eq_true, decide_eq_true_eq,
        CLI_OPTIONS_ID_VDE_GROUP, CLI_OPTIONS_ID_VMNET_MODE, CLI_OPTIONS_ID_VMNET_INTERFACE,
        CLI_OPTIONS_ID_VMNET_GATEWAY, CLI_OPTIONS_ID_VMNET_DHCP_END, CLI_OPTIONS_ID_VMNET_MASK,
        CLI_OPTIONS_ID_VMNET_INTERFACE_ID] at ha
      simp only [if_pos hid]
      rcases ha with (ha | ⟨-, ha⟩) | ⟨ha, -⟩
      · omega
      · rcases ha with ha | ha | ha
        · right; left; exact ⟨ha, by rw [if_pos ha]⟩
        · right; right; left
          exact ⟨ha, by rw [if_neg (by rw [ha]; decide), if_pos ha]⟩
        · right; right; right
          exact ⟨ha, by rw [if_neg (by rw [ha]; decide), if_neg (by rw [ha]; decide), if_pos ha]⟩
      · omega
    · simp only [if_neg hid]
      exact h

/-- The interface id the loop ends with, when every return is accepted: the one it
started with without a `--vmnet-interface-id`, else what the last one parses to. -/
theorem id_after_accepted (uu0 : uuid_t) (rs : List GetoptRet)
    (hacc : ∀ r ∈ rs, accepted r = true) :
    ∀ (init : Option String) (uu : uuid_t),
    ((init = none ∧ uu = uu0) ∨ (∃ a, init = some a ∧ uuid_parse a = some uu)) →
    ((last_optarg CLI_OPTIONS_ID_VMNET_INTERFACE_ID init rs = none ∧ id_after uu rs = uu0) ∨
      (∃ a, last_optarg CLI_OPTIONS_ID_VMNET_INTERFACE_ID init rs = some a ∧
        uuid_parse a = some (id_after uu rs))) := by
  induction rs with
  | nil => intro init uu h; exact h
  | cons r rs ih =>
    intro init uu h
    rw [last_optarg_cons, id_after_cons]
    apply ih (fun r1 hr1 => hacc r1 (List.mem_cons_of_mem _ hr1))
    by_cases hid : r.opt = CLI_OPTIONS_ID_VMNET_INTERFACE_ID
    · have ha := hacc r (List.mem_cons_self _ _)
      simp only [accepted, hid, Bool.or_eq_true, Bool.and_eq_true, decide_eq_true_eq,
        CLI_OPTIONS_ID_VDE_GROUP, CLI_OPTIONS_ID_VMNET_MODE, CLI_OPTIONS_ID_VMNET_INTERFACE,
        CLI_OPTIONS_ID_VMNET_GATEWAY, CLI_OPTIONS_ID_VMNET_DHCP_END, CLI_OPTIONS_ID_VMNET_MASK,
        CLI_OPTIONS_ID_VMNET_INTERFACE_ID, Option.isSome_iff_exists] at ha
      simp only [if_pos hid]
      rcases ha with (ha | ⟨ha, -⟩) | ⟨-, u, hu⟩
      · omega
      · omega
      · right
        cases ho : r.optarg with
        | none =>
          have hn : uuid_parse "" = none := by decide
          rw [ho, Option.getD_none, hn] at hu
          exact absurd hu (by simp)
        | some a =>
          rw [ho] at hu
          simp only [Option.getD_some] at hu ⊢
          exact ⟨a, rfl, by rw [hu]⟩
    · simp only [if_neg hid]
      exact h

/-- The verdict of the validation stage on a configuration that breaks no rule. -/
theorem validate_true {res : cli_options}
    (h1 : ¬ (res.vmnet_mode = VMNET_BRIDGED_MODE ∧ res.vmnet_interface = none))
    (h2 : res.vmnet_gateway = none → res.vmnet_dhcp_end = none ∧ res.vmnet_mask = none)
    (h3 : ∀ g, res.vmnet_gateway = some g →
      res.vmnet_mode ≠ VMNET_BRIDGED_MODE ∧ inet_aton g ≠ none) :
    validate res =
      (if res.vmnet_gateway = none ∧ res.vmnet_mode ≠ VMNET_BRIDGED_MODE then
        [Write.err msg_warning] else [], true) := by
  unfold validate
  rw [if_neg h1]
  cases hg : res.vmnet_gateway with
  | none =>
    obtain ⟨hd, hm⟩ := h2 hg
    simp only [hd, hm, ne_eq, not_true_eq_false, if_false, true_and]
  | some g =>
    obtain ⟨hb, ha⟩ := h3 g hg
    simp only [if_neg hb]
    obtain ⟨s, hs⟩ := Option.ne_none_iff_exists'.mp ha
    rw [hs]
    simp

/-- The defaulting stage fails only on a gateway that `inet_aton` rejects, and only when
the end of the range is to be derived from it. -/
theorem fill_default_succeeds (rnd : uuid_t) (res : cli_options)
    (h : ∀ g, res.vmnet_gateway = some g → res.vmnet_dhcp_end = none → inet_aton g ≠ none) :
    ∃ res1, fill_default rnd res = Except.ok res1 := by
  unfold fill_default default_dhcp_end
  simp only
  cases hg : res.vmnet_gateway with
  | none => exact ⟨_, rfl⟩
  | some g =>
    cases hd : res.vmnet_dhcp_end with
    | some d => exact ⟨_, rfl⟩
    | none =>
      obtain ⟨s, hs⟩ := Option.ne_none_iff_exists'.mp (h g hg hd)
      simp only [hs, inet_ntoa]
      exact ⟨_, rfl⟩

theorem fill_default_error {rnd : uuid_t} {res : cli_options} {w : Write}
    (h : fill_default rnd res = Except.error w) :
    w = Write.perror "inet_aton(res->vmnet_gateway)" ∧
    ∃ g, res.vmnet_gateway = some g ∧ res.vmnet_dhcp_end = none ∧ inet_aton g = none := by
  unfold fill_default default_dhcp_end at h
  simp only at h
  cases hg : res.vmnet_gateway with
  | none => simp [hg] at h
  | some g =>
    cases hd : res.vmnet_dhcp_end with
    | some d => simp [hg, hd] at h
    | none =>
      cases hs : inet_aton g with
      | none =>
        simp only [hg, hd, hs] at h
        simp only [Except.error.injEq] at h
        exact ⟨h.symm, g, rfl, rfl, hs⟩
      | some s => simp [hg, hd, hs, inet_ntoa] at h

/-- A returned configuration comes from a vector whose options are all accepted. -/
theorem parse_all_accepted {rnd : uuid_t} {argv : List String} {res : cli_options}
    (h : (cli_options_parse rnd argv).status = Status.returned res) : all_accepted argv := by
  obtain ⟨res0, t, hloop, -⟩ := parse_returned h
  exact (option_loop_finished_accepted _ _ _ _ _ _ hloop).1

/-- On a vector whose options are all accepted the option loop runs to its end without
writing, and the call goes on with lines 141-213. -/
theorem parse_of_accepted (rnd : uuid_t) (argv : List String) (h : all_accepted argv) :
    ∃ res0,
      option_loop (argv.headD "(null)") cli_options_zero [] (getopt_long argv).1 =
        Loop.finished res0 [] ∧
      cli_options_parse rnd argv =
        after_options rnd (argv.headD "(null)") res0 [] (positional argv) := by
  have hpre : ∀ p ∈ (getopt_long argv).1, accepted p = true ∧ p.warn = none :=
    fun p hp => ⟨h p hp, accepted_no_warn argv hp (h p hp)⟩
  obtain ⟨res0, hloop⟩ :=
    option_loop_accepted (argv.headD "(null)") (getopt_long argv).1 [] cli_options_zero [] hpre
  rw [List.append_nil] at hloop
  have hfin : option_loop (argv.headD "(null)") cli_options_zero [] (getopt_long argv).1 =
      Loop.finished res0 [] := by
    rw [hloop]; rfl
  refine ⟨res0, hfin, ?_⟩
  unfold cli_options_parse
  simp only
  rw [hfin]
  rfl

/-- The mode option and the mode the loop ends with, on accepted options. -/
theorem mode_cases (argv : List String) (h : all_accepted argv) :
    (option_value CLI_OPTIONS_ID_VMNET_MODE argv = none ∧
      mode_after 0 (getopt_long argv).1 = 0) ∨
    (option_value CLI_OPTIONS_ID_VMNET_MODE argv = some "host" ∧
      mode_after 0 (getopt_long argv).1 = VMNET_HOST_MODE) ∨
    (option_value CLI_OPTIONS_ID_VMNET_MODE argv = some "shared" ∧
      mode_after 0 (getopt_long argv).1 = VMNET_SHARED_MODE) ∨
    (option_value CLI_OPTIONS_ID_VMNET_MODE argv = some "bridged" ∧
      mode_after 0 (getopt_long argv).1 = VMNET_BRIDGED_MODE) :=
  mode_after_accepted _ h none 0 (Or.inl ⟨rfl, rfl⟩)

/-- The mode, the group and the interface id of a returned configuration, read off the
argument vector. -/
theorem parse_returned_more {rnd : uuid_t} {argv : List String} {res : cli_options}
    (h : (cli_options_parse rnd argv).status = Status.returned res) :
    res.vde_group =
      (if option_value CLI_OPTIONS_ID_VDE_GROUP argv = none then some CLI_DEFAULT_VDE_GROUP
       else option_value CLI_OPTIONS_ID_VDE_GROUP argv) ∧
    ((option_value CLI_OPTIONS_ID_VMNET_MODE argv = none ∧
        res.vmnet_mode = VMNET_SHARED_MODE) ∨
      (option_value CLI_OPTIONS_ID_VMNET_MODE argv = some "host" ∧
        res.vmnet_mode = VMNET_HOST_MODE) ∨
      (option_value CLI_OPTIONS_ID_VMNET_MODE argv = some "shared" ∧
        res.vmnet_mode = VMNET_SHARED_MODE) ∨
      (option_value CLI_OPTIONS_ID_VMNET_MODE argv = some "bridged" ∧
        res.vmnet_mode = VMNET_BRIDGED_MODE)) ∧
    ((option_value CLI_OPTIONS_ID_VMNET_INTERFACE_ID argv = none ∧
        res.vmnet_interface_id = rnd) ∨
      (∃ a uu, option_value CLI_OPTIONS_ID_VMNET_INTERFACE_ID argv = some a ∧
        uuid_parse a = some uu ∧
        res.vmnet_interface_id = (if uuid_is_null uu then rnd else uu))) := by
  obtain ⟨res0, t, hloop, -, hfill, -⟩ := parse_returned h
  obtain ⟨-, l2, -, -, -, -, -⟩ := option_loop_finished _ _ _ _ _ _ hloop
  obtain ⟨hacc, lid⟩ := option_loop_finished_accepted _ _ _ _ _ _ hloop
  obtain ⟨-, -, -, -, f5, -, -, -, f9⟩ := fill_default_ok hfill
  have e5 := (parse_returned_fields h).2.2.2.2.1
  simp only at f5 f9
  rw [l2] at f5
  rw [lid] at f9
  refine ⟨f5, ?_, ?_⟩
  · rcases mode_cases argv hacc with ⟨hv, hm⟩ | ⟨hv, hm⟩ | ⟨hv, hm⟩ | ⟨hv, hm⟩
    · exact Or.inl ⟨hv, by rw [e5, hm]; rfl⟩
    · exact Or.inr (Or.inl ⟨hv, by rw [e5, hm]; decide⟩)
    · exact Or.inr (Or.inr (Or.inl ⟨hv, by rw [e5, hm]; decide⟩))
    · exact Or.inr (Or.inr (Or.inr ⟨hv, by rw [e5, hm]; decide⟩))
  · rcases id_after_accepted uuid_zero _ hacc none uuid_zero (Or.inl ⟨rfl, rfl⟩) with
      ⟨hv, hi⟩ | ⟨a, hv, hi⟩
    · left
      refine ⟨hv, ?_⟩
      rw [f9]
      have : cli_options_zero.vmnet_interface_id = uuid_zero := rfl
      rw [this, hi, if_pos (by decide)]
    · right
      have : cli_options_zero.vmnet_interface_id = uuid_zero := rfl
      rw [this] at f9
      exact ⟨a, _, hv, hi, f9⟩

theorem valid_gateway_parses {res : cli_options} (h : valid_configuration res) :
    ∀ g, res.vmnet_gateway = some g → inet_aton g ≠ none := by
  intro g hg
  rcases h.2.2.2.2.2.2.1 g hg with ha | ⟨a, b, c, d, ha, hb, hc, hd, e⟩
  · exact ha
  · rw [e, inet_aton_dotted_quad a b c d ha hb hc hd]
    simp

theorem sample_shared_valid : valid_configuration sample_shared := by
  refine ⟨by decide, by decide, by decide, by decide, by decide, by decide, ?_, by decide,
    "/var/run/vde.ctl", rfl, by decide⟩
  intro g hg
  have h1 : sample_shared.vmnet_gateway = some "192.168.105.1" := rfl
  rw [h1] at hg
  rw [← Option.some.inj hg]
  exact Or.inr ⟨192, 168, 105, 1, by decide, by decide, by decide, by decide, by decide⟩

theorem option_value_none_iff {id : Int} {argv : List String}
    (hid : id ≠ BADCH ∧ id ≠ 104 ∧ id ≠ 118) :
    option_value id argv = none ↔ ¬ supplied id argv := by
  constructor
  · intro h hs
    exact option_value_present hid hs h
  · exact option_value_absent

/-- The argument of a long option written `--name=value` is the text after the sign. -/
theorem getopt_vde_group_equals (v : String) :
    getopt_long ["vde_vmnet", "--vde-group=" ++ v] =
      ([⟨CLI_OPTIONS_ID_VDE_GROUP, some v, none⟩], []) := by
  have e : ("--vde-group=" ++ v).data =
      '-' :: '-' :: 'v' :: 'd' :: 'e' :: '-' :: 'g' :: 'r' :: 'o' :: 'u' :: 'p' :: '=' :: v.data := by
    rw [String.data_append]; rfl
  unfold getopt_long
  simp only [List.tail_cons]
  rw [getopt_long_from, e]
  rfl

theorem parse_long_options_known (cs : List Char) (next : Option String) :
    getopt_ret_known (parse_long_options cs next).1 := by
  unfold parse_long_options
  simp only
  generalize (if cs.contains '=' = true then some (List.dropWhile (fun c => c != '=') cs).tail
    else none) = has_equal
  split
  · exact Or.inr (by simp)
  · exact Or.inr (by simp)
  · rename_i o ho
    have hmem : o ∈ longopts := by
      rcases find_long_option_mem _ _ _ _ ho with hm | hf
      · exact hm
      · simp at hf
    have hval : known_value o.val = true := by
      simp only [longopts, List.mem_cons, List.mem_singleton, List.not_mem_nil, or_false] at hmem
      rcases hmem with e | e | e | e | e | e | e | e | e <;> subst e <;> decide
    by_cases hna : o.has_arg = no_argument
    · rw [if_pos hna]
      cases has_equal with
      | some a => exact Or.inr (by simp)
      | none => exact Or.inl hval
    · rw [if_neg hna]
      cases has_equal with
      | some a => exact Or.inl hval
      | none =>
        cases next with
        | some a => exact Or.inl hval
        | none => exact Or.inr (by simp)

theorem short_option_known (c : Char) : getopt_ret_known (short_option c) := by
  unfold short_option
  split_ifs with h
  · left
    simp only [optstring, List.contains_cons, List.contains_nil, Bool.or_false, Bool.or_eq_true,
      beq_iff_eq] at h
    rcases h with e | e <;> subst e <;> decide
  · exact Or.inr (by simp)

theorem getopt_place_known (next : Option String) (k0 k1 : List GetoptRet × List String)
    (h0 : ∀ r ∈ k0.1, getopt_ret_known r) (h1 : ∀ r ∈ k1.1, getopt_ret_known r)
    (place : List Char) :
    ∀ r ∈ (getopt_place next k0 k1 place).1, getopt_ret_known r := by
  induction place with
  | nil => exact h0
  | cons c place ih =>
    rw [getopt_place]
    split_ifs with hc
    · intro r hr
      simp only [List.mem_cons] at hr
      rcases hr with e | hr
      · subst e; exact parse_long_options_known _ _
      · split_ifs at hr
        · exact h1 r hr
        · exact h0 r hr
    · intro r hr
      simp only [List.mem_cons] at hr
      rcases hr with e | hr
      · subst e; exact short_option_known _
      · exact ih r hr

theorem getopt_long_from_known (nonopts args : List String) :
    ∀ r ∈ (getopt_long_from nonopts args).1, getopt_ret_known r := by
  induction nonopts, args using getopt_long_from.induct with
  | case1 nonopts => simp [getopt_long_from]
  | case2 nonopts arg rest c1 cs hdd harg =>
    rw [getopt_long_from, harg]
    simp [hdd]
  | case3 nonopts arg c1 cs hdd harg =>
    rw [getopt_long_from, harg]
    simp only [if_true, if_neg hdd]
    exact getopt_place_known _ _ _ (by simp) (by simp) _
  | case4 nonopts arg c1 cs hdd next rest1 harg ih0 ih1 =>
    rw [getopt_long_from, harg]
    simp only [if_true, if_neg hdd]
    exact getopt_place_known _ _ _ ih0 ih1 _
  | case5 nonopts arg rest c0 c1 cs harg hc0 ih =>
    rw [getopt_long_from, harg]
    simp only [if_neg hc0]
    exact ih
  | case6 nonopts arg rest hno ih =>
    rw [getopt_long_from]
    split
    · rename_i c0 c1 place harg
      exact absurd harg (fun e => hno c0 c1 place e)
    · exact ih

/-- The usage text goes to stdout, line by line. -/
theorem print_usage_stdout (argv0 : String) : ∀ w ∈ print_usage argv0, on_stderr w = false := by
  intro w hw
  simp only [print_usage, List.mem_cons, List.mem_singleton, List.not_mem_nil, or_false] at hw
  rcases hw with e | e | e | e | e | e | e | e | e | e | e | e | e | e | e | e | e | e <;>
    subst e <;> rfl

/-- A failed validation has written to stderr. -/
theorem validate_false_message {res : cli_options} (h : (validate res).2 = false) :
    ∃ w ∈ (validate res).1, on_stderr w = true := by
  by_cases hb : res.vmnet_mode = VMNET_BRIDGED_MODE ∧ res.vmnet_interface = none
  · have hv : validate res = ([Write.err msg_bridged_interface], false) := by
      unfold validate; rw [if_pos hb]
    rw [hv]
    exact ⟨_, List.mem_singleton_self _, rfl⟩
  · cases hg : res.vmnet_gateway with
    | none =>
      by_cases hd : res.vmnet_dhcp_end ≠ none
      · have hv : validate res =
            ((if res.vmnet_mode ≠ VMNET_BRIDGED_MODE then [Write.err msg_warning] else []) ++
              [Write.err msg_dhcp_end], false) := by
          unfold validate; rw [if_neg hb, hg]; simp only; rw [if_pos hd]
        rw [hv]
        exact ⟨_, List.mem_append_right _ (List.mem_singleton_self _), rfl⟩
      · by_cases hm : res.vmnet_mask ≠ none
        · have hv : validate res =
              ((if res.vmnet_mode ≠ VMNET_BRIDGED_MODE then [Write.err msg_warning] else []) ++
                [Write.err msg_mask], false) := by
            unfold validate; rw [if_neg hb, hg]; simp only; rw [if_neg hd, if_pos hm]
          rw [hv]
          exact ⟨_, List.mem_append_right _ (List.mem_singleton_self _), rfl⟩
        · have hv : (validate res).2 = true := by
            unfold validate; rw [if_neg hb, hg]; simp only; rw [if_neg hd, if_neg hm]
          rw [hv] at h
          exact absurd h (by simp)
    | some g =>
      by_cases hm : res.vmnet_mode = VMNET_BRIDGED_MODE
      · have hv : validate res = ([Write.err msg_bridged_gateway], false) := by
          unfold validate; rw [if_neg hb, hg]; simp only; rw [if_pos hm]
        rw [hv]
        exact ⟨_, List.mem_singleton_self _, rfl⟩
      · cases hs : inet_aton g with
        | none =>
          have hv : validate res =
              ([Write.err ("invalid address \"" ++ g ++
                "\" was specified for --vmnet-gateway\n")], false) := by
            unfold validate; rw [if_neg hb, hg]; simp only; rw [if_neg hm, hs]
          rw [hv]
          exact ⟨_, List.mem_singleton_self _, rfl⟩
        | some s =>
          have hv : (validate res).2 = true := by
            unfold validate; rw [if_neg hb, hg]; simp only; rw [if_neg hm, hs]
          rw [hv] at h
          exact absurd h (by simp)

/-- A run that fails inside the option loop has written to stderr, and then the usage
text. -/
theorem option_loop_failure_trace (argv0 : String) (rs : List GetoptRet)
    (hk : ∀ r ∈ rs, getopt_ret_known r) :
    ∀ (res : cli_options) (t : List Write) (run : Run),
    option_loop argv0 res t rs = Loop.halted run →
    run.status = Status.exited EXIT_FAILURE →
    ∃ t1, run.trace = (t ++ t1) ++ print_usage argv0 ∧ ∃ w ∈ t1, on_stderr w = true := by
  induction rs with
  | nil =>
    intro res t run h
    simp [option_loop] at h
  | cons r rs ih =>
    intro res t run h hfail
    rw [option_loop] at h
    have hk1 : ∀ r1 ∈ rs, getopt_ret_known r1 :=
      fun r1 hr1 => hk r1 (List.mem_cons_of_mem _ hr1)
    have step : ∀ res2, option_loop argv0 res2 (t ++ r.warn.toList.map Write.warnx) rs =
        Loop.halted run →
        ∃ t1, run.trace = (t ++ t1) ++ print_usage argv0 ∧ ∃ w ∈ t1, on_stderr w = true := by
      intro res2 h2
      obtain ⟨t1, ht, w, hw, hs⟩ := ih hk1 res2 _ run h2 hfail
      refine ⟨r.warn.toList.map Write.warnx ++ t1, ?_, w, List.mem_append_right _ hw, hs⟩
      rw [ht, List.append_assoc t]
    simp only [CLI_OPTIONS_ID_VDE_GROUP, CLI_OPTIONS_ID_VMNET_MODE,
      CLI_OPTIONS_ID_VMNET_INTERFACE, CLI_OPTIONS_ID_VMNET_GATEWAY,
      CLI_OPTIONS_ID_VMNET_DHCP_END, CLI_OPTIONS_ID_VMNET_MASK,
      CLI_OPTIONS_ID_VMNET_INTERFACE_ID] at h
    split_ifs at h with h1 h2 h3 h4 h5 h6 h7 h8 h9 h10 h11 h12
    · exact step _ h
    · exact step _ h
    · exact step _ h
    · exact step _ h
    · simp only [Loop.halted.injEq] at h
      subst h
      refine ⟨r.warn.toList.map Write.warnx ++
        [Write.err ("Unknown vmnet mode \"" ++ r.optarg.getD "" ++ "\"\n")], ?_, _,
        List.mem_append_right _ (List.mem_singleton_self _), rfl⟩
      simp [error_exit]
    · exact step _ h
    · exact step _ h
    · exact step _ h
    · exact step _ h
    · split at h
      · simp only [Loop.halted.injEq] at h
        subst h
        refine ⟨r.warn.toList.map Write.warnx ++
          [Write.err ("Failed to parse UUID \"" ++ r.optarg.getD "" ++ "\"\n")], ?_, _,
          List.mem_append_right _ (List.mem_singleton_self _), rfl⟩
        simp [error_exit]
      · exact step _ h
    · simp only [Loop.halted.injEq] at h
      subst h
      simp [EXIT_SUCCESS, EXIT_FAILURE] at hfail
    · simp only [Loop.halted.injEq] at h
      subst h
      simp [EXIT_SUCCESS, EXIT_FAILURE] at hfail
    · simp only [Loop.halted.injEq] at h
      subst h
      have hw : r.warn ≠ none := by
        rcases hk r (List.mem_cons_self _ _) with hv | hw
        · exfalso
          simp only [known_value, decide_eq_true_eq, CLI_OPTIONS_ID_VDE_GROUP,
            CLI_OPTIONS_ID_VMNET_MODE, CLI_OPTIONS_ID_VMNET_INTERFACE,
            CLI_OPTIONS_ID_VMNET_GATEWAY, CLI_OPTIONS_ID_VMNET_DHCP_END,
            CLI_OPTIONS_ID_VMNET_MASK, CLI_OPTIONS_ID_VMNET_INTERFACE_ID] at hv
          omega
        · exact hw
      obtain ⟨w, hw⟩ := Option.ne_none_iff_exists'.mp hw
      refine ⟨[Write.warnx w], ?_, _, List.mem_singleton_self _, rfl⟩
      simp [error_exit, hw]

/-- A run that fails after the option loop has written the usage text last, and before
it a message on stderr unless the number of positional arguments is the error. -/
theorem after_options_failure_trace {rnd : uuid_t} {argv0 : String} {res0 : cli_options}
    {t : List Write} {pos : List String}
    (h : (after_options rnd argv0 res0 t pos).status = Status.exited EXIT_FAILURE) :
    ∃ t1, (after_options rnd argv0 res0 t pos).trace = (t ++ t1) ++ print_usage argv0 ∧
      ((∃ w ∈ t1, on_stderr w = true) ∨ (t1 = [] ∧ pos.length ≠ 1)) := by
  unfold after_options at h ⊢
  split_ifs at h ⊢ with hlen
  · exact ⟨[], by simp [error_exit], Or.inr ⟨rfl, hlen⟩⟩
  · cases hf : fill_default rnd { res0 with vde_switch := pos.head? } with
    | error w =>
      obtain ⟨hw, -⟩ := fill_default_error hf
      refine ⟨[w], by simp [error_exit], Or.inl ⟨w, List.mem_singleton_self _, ?_⟩⟩
      rw [hw]; rfl
    | ok res1 =>
      rw [hf] at h
      simp only at h ⊢
      cases hv : validate res1 with
      | mk ws ok =>
        rw [hv] at h
        cases ok with
        | false =>
          have hm := validate_false_message (by rw [hv] : (validate res1).2 = false)
          rw [hv] at hm
          exact ⟨ws, by simp [error_exit], Or.inl hm⟩
        | true => simp at h

/-- The trace of a failed call: the usage text comes last, and before it a message on
stderr, unless the options are all accepted and the number of positional arguments is
the error. -/
theorem parse_failure_trace {rnd : uuid_t} {argv : List String}
    (h : (cli_options_parse rnd argv).status = Status.exited EXIT_FAILURE) :
    ∃ t, (cli_options_parse rnd argv).trace = t ++ print_usage (argv.headD "(null)") ∧
      ((∃ w ∈ t, on_stderr w = true) ∨
        (t = [] ∧ all_accepted argv ∧ (positional argv).length ≠ 1)) := by
  have hk : ∀ r ∈ (getopt_long argv).1, getopt_ret_known r := getopt_long_from_known _ _
  unfold cli_options_parse at h ⊢
  simp only at h ⊢
  cases hloop : option_loop (argv.headD "(null)") cli_options_zero [] (getopt_long argv).1 with
  | halted run =>
    rw [hloop] at h
    simp only at h ⊢
    obtain ⟨t1, ht, hw⟩ := option_loop_failure_trace _ _ hk _ _ _ hloop h
    exact ⟨t1, by rw [ht, List.nil_append], Or.inl hw⟩
  | finished res0 t0 =>
    rw [hloop] at h
    simp only at h ⊢
    have hacc : all_accepted argv := (option_loop_finished_accepted _ _ _ _ _ _ hloop).1
    obtain ⟨res0a, hfin, -⟩ := parse_of_accepted rnd argv hacc
    rw [hfin] at hloop
    simp only [Loop.finished.injEq] at hloop
    obtain ⟨-, ht0⟩ := hloop
    subst ht0
    obtain ⟨t1, ht, hcase⟩ := after_options_failure_trace h
    refine ⟨t1, by rw [ht, List.nil_append], ?_⟩
    rcases hcase with hw | ⟨he, hlen⟩
    · exact Or.inl hw
    · exact Or.inr ⟨he, hacc, hlen⟩

/-- What the validation stage writes and decides, from the rules in the spec's order. -/
theorem validate_first_rule (res : cli_options) :
    validate res =
      (gateway_warning res ++ (violated_rules res).head?.toList.map Write.err,
        (violated_rules res).isEmpty) := by
  unfold gateway_warning violated_rules
  by_cases hb : res.vmnet_mode = VMNET_BRIDGED_MODE ∧ res.vmnet_interface = none
  · have hv : validate res = ([Write.err msg_bridged_interface], false) := by
      unfold validate; rw [if_pos hb]
    rw [hv, if_pos hb, if_neg (fun h => h.2 hb.1)]
    rfl
  · rw [if_neg hb]
    cases hg : res.vmnet_gateway with
    | none =>
      by_cases hd : res.vmnet_dhcp_end ≠ none
      · have hv : validate res =
            ((if res.vmnet_mode ≠ VMNET_BRIDGED_MODE then [Write.err msg_warning] else []) ++
              [Write.err msg_dhcp_end], false) := by
          unfold validate; rw [if_neg hb, hg]; simp only; rw [if_pos hd]
        rw [hv]
        simp [hd]
      · by_cases hm : res.vmnet_mask ≠ none
        · have hv : validate res =
              ((if res.vmnet_mode ≠ VMNET_BRIDGED_MODE then [Write.err msg_warning] else []) ++
                [Write.err msg_mask], false) := by
            unfold validate; rw [if_neg hb, hg]; simp only; rw [if_neg hd, if_pos hm]
          rw [hv]
          simp [hd, hm]
        · have hv : validate res =
              (if res.vmnet_mode ≠ VMNET_BRIDGED_MODE then [Write.err msg_warning] else [],
                true) := by
            unfold validate; rw [if_neg hb, hg]; simp only; rw [if_neg hd, if_neg hm]
          rw [hv]
          simp [hd, hm]
    | some g =>
      by_cases hm : res.vmnet_mode = VMNET_BRIDGED_MODE
      · have hv : validate res = ([Write.err msg_bridged_gateway], false) := by
          unfold validate; rw [if_neg hb, hg]; simp only; rw [if_pos hm]
        rw [hv]
        simp [hm]
      · cases hs : inet_aton g with
        | none =>
          have hv : validate res =
              ([Write.err ("invalid address \"" ++ g ++
                "\" was specified for --vmnet-gateway\n")], false) := by
            unfold validate; rw [if_neg hb, hg]; simp only; rw [if_neg hm, hs]
          rw [hv]
          simp [hm, hs]
        | some s =>
          have hv : validate res = ([], true) := by
            unfold validate; rw [if_neg hb, hg]; simp only; rw [if_neg hm, hs]
          rw [hv]
          simp [hm, hs]

theorem unknown_mode_ne_warning (x : String) :
    Write.err ("Unknown vmnet mode \"" ++ x ++ "\"\n") ≠ Write.err msg_warning := by
  intro h
  simp only [Write.err.injEq] at h
  have h2 := congrArg (fun s => s.data.head?) h
  simp only [String.data_append, List.append_assoc, List.cons_append, List.head?_cons] at h2
  have h3 : msg_warning.data.head? = some 'W' := by decide
  rw [h3] at h2
  exact absurd h2 (by decide)

theorem bad_uuid_ne_warning (x : String) :
    Write.err ("Failed to parse UUID \"" ++ x ++ "\"\n") ≠ Write.err msg_warning := by
  intro h
  simp only [Write.err.injEq] at h
  have h2 := congrArg (fun s => s.data.head?) h
  simp only [String.data_append, List.append_assoc, List.cons_append, List.head?_cons] at h2
  have h3 : msg_warning.data.head? = some 'W' := by decide
  rw [h3] at h2
  exact absurd h2 (by decide)

theorem print_usage_no_warning (argv0 : String) : Write.err msg_warning ∉ print_usage argv0 := by
  intro h
  have := print_usage_stdout argv0 _ h
  exact absurd this (by decide)

theorem warnx_no_warning (w : Option GetoptWarn) :
    Write.err msg_warning ∉ w.toList.map Write.warnx := by
  cases w <;> simp [Option.toList]

/-- The option loop does not write the missing-gateway warning. -/
theorem option_loop_no_warning (argv0 : String) (rs : List GetoptRet) :
    ∀ (res : cli_options) (t : List Write), Write.err msg_warning ∉ t →
    Write.err msg_warning ∉ loop_trace (option_loop argv0 res t rs) := by
  induction rs with
  | nil =>
    intro res t ht
    exact ht
  | cons r rs ih =>
    intro res t ht
    have ht2 : Write.err msg_warning ∉ t ++ r.warn.toList.map Write.warnx := by
      intro h
      rcases List.mem_append.mp h with h | h
      · exact ht h
      · exact warnx_no_warning _ h
    have hu : ∀ tail, Write.err msg_warning ∉ tail →
        Write.err msg_warning ∉ (t ++ r.warn.toList.map Write.warnx) ++ tail := by
      intro tail htail h
      rcases List.mem_append.mp h with h | h
      · exact ht2 h
      · exact htail h
    have hmsg : ∀ m, Write.err m ≠ Write.err msg_warning →
        Write.err msg_warning ∉
          loop_trace (Loop.halted (error_exit argv0
            (t ++ r.warn.toList.map Write.warnx ++ [Write.err m]))) := by
      intro m hne
      simp only [loop_trace, error_exit, List.append_assoc]
      rw [← List.append_assoc]
      apply hu
      intro hm
      rcases List.mem_append.mp hm with hm | hm
      · exact hne (List.mem_singleton.mp hm).symm
      · exact print_usage_no_warning _ hm
    rw [option_loop]
    split_ifs
    · exact ih _ _ ht2
    · exact ih _ _ ht2
    · exact ih _ _ ht2
    · exact ih _ _ ht2
    · exact hmsg _ (unknown_mode_ne_warning _)
    · exact ih _ _ ht2
    · exact ih _ _ ht2
    · exact ih _ _ ht2
    · exact ih _ _ ht2
    · split
      · exact hmsg _ (bad_uuid_ne_warning _)
      · exact ih _ _ ht2
    · exact hu _ (print_usage_no_warning _)
    · exact hu _ (by decide)
    · exact hu _ (print_usage_no_warning _)

/-- The validation stage does not write the warning on a bridged configuration. -/
theorem validate_bridged_no_warning {res : cli_options}
    (hm : res.vmnet_mode = VMNET_BRIDGED_MODE) : Write.err msg_warning ∉ (validate res).1 := by
  have hnb : ¬ res.vmnet_mode ≠ VMNET_BRIDGED_MODE := fun h => h hm
  by_cases hi : res.vmnet_interface = none
  · have hv : validate res = ([Write.err msg_bridged_interface], false) := by
      unfold validate; rw [if_pos ⟨hm, hi⟩]
    rw [hv]
    decide
  · have hb : ¬ (res.vmnet_mode = VMNET_BRIDGED_MODE ∧ res.vmnet_interface = none) :=
      fun h => hi h.2
    cases hg : res.vmnet_gateway with
    | none =>
      by_cases hd : res.vmnet_dhcp_end ≠ none
      · have hv : validate res = ([Write.err msg_dhcp_end], false) := by
          unfold validate; rw [if_neg hb, hg]; simp only; rw [if_pos hd, if_neg hnb]; rfl
        rw [hv]
        decide
      · by_cases hk : res.vmnet_mask ≠ none
        · have hv : validate res = ([Write.err msg_mask], false) := by
            unfold validate; rw [if_neg hb, hg]; simp only
            rw [if_neg hd, if_pos hk, if_neg hnb]; rfl
          rw [hv]
          decide
        · have hv : validate res = ([], true) := by
            unfold validate; rw [if_neg hb, hg]; simp only
            rw [if_neg hd, if_neg hk, if_neg hnb]
          rw [hv]
          simp
    | some g =>
      have hv : validate res = ([Write.err msg_bridged_gateway], false) := by
        unfold validate; rw [if_neg hb, hg]; simp only; rw [if_pos hm]
      rw [hv]
      decide

/-- No warning is written when the mode option is `bridged`. -/
theorem bridged_no_warning (rnd : uuid_t) (argv : List String)
    (hmode : option_value CLI_OPTIONS_ID_VMNET_MODE argv = some "bridged") :
    Write.err msg_warning ∉ (cli_options_parse rnd argv).trace := by
  have hl := option_loop_no_warning (argv.headD "(null)") (getopt_long argv).1
    cli_options_zero [] (by simp)
  unfold cli_options_parse
  simp only
  cases hloop : option_loop (argv.headD "(null)") cli_options_zero [] (getopt_long argv).1 with
  | halted run =>
    rw [hloop] at hl
    exact hl
  | finished res0 t0 =>
    rw [hloop] at hl
    simp only [loop_trace] at hl
    have hm0 : res0.vmnet_mode = VMNET_BRIDGED_MODE := by
      rw [(option_loop_finished _ _ _ _ _ _ hloop).2.2.2.2.2.2]
      exact mode_after_bridged hmode
    have hu : ∀ ws, Write.err msg_warning ∉ ws → Write.err msg_warning ∉ t0 ++ ws := by
      intro ws hws h
      rcases List.mem_append.mp h with h | h
      · exact hl h
      · exact hws h
    simp only
    unfold after_options
    split_ifs with hlen
    · exact hu _ (print_usage_no_warning _)
    · cases hf : fill_default rnd { res0 with vde_switch := (getopt_long argv).2.head? } with
      | error w =>
        simp only [error_exit, List.append_assoc]
        apply hu
        rw [(fill_default_error hf).1]
        intro h
        rcases List.mem_append.mp h with h | h
        · simp at h
        · exact print_usage_no_warning _ h
      | ok res1 =>
        simp only
        have hm1 : res1.vmnet_mode = VMNET_BRIDGED_MODE := by
          rw [(fill_default_ok hf).2.2.2.1]
          simp only [hm0]
          decide
        have hv := validate_bridged_no_warning hm1
        cases hval : validate res1 with
        | mk ws ok =>
          rw [hval] at hv
          cases ok with
          | false =>
            simp only [error_exit, List.append_assoc]
            apply hu
            intro h
            rcases List.mem_append.mp h with h | h
            · exact hv h
            · exact print_usage_no_warning _ h
          | true => exact hu _ hv

/-- The last occurrence of an option that takes an argument carries the option value. -/
theorem last_occurrence_value {id : Int} {argv : List String} {r : GetoptRet}
    (hid : id ≠ BADCH ∧ id ≠ 104 ∧ id ≠ 118) (h : last_occurrence id argv = some r) :
    option_value id argv = r.optarg ∧ r.optarg ≠ none := by
  obtain ⟨hmem, hopt⟩ := last_occurrence_mem h
  refine ⟨?_, getopt_long_optarg argv id hid r hmem hopt⟩
  rw [option_value_last_occurrence, h]
  rfl

/-- The defaulting stage assigns nothing on a configuration whose group, mode, range and
interface id are set as the invariants require. -/
theorem fill_default_fixed (rnd : uuid_t) (res : cli_options)
    (hgroup : res.vde_group ≠ none)
    (hmode : res.vmnet_mode = VMNET_HOST_MODE ∨ res.vmnet_mode = VMNET_SHARED_MODE ∨
      res.vmnet_mode = VMNET_BRIDGED_MODE)
    (h4 : res.vmnet_gateway ≠ none → res.vmnet_dhcp_end ≠ none ∧ res.vmnet_mask ≠ none)
    (h6 : uuid_is_null res.vmnet_interface_id = false) :
    fill_default rnd res = Except.ok res := by
  have hm0 : res.vmnet_mode ≠ 0 := by
    rcases hmode with e | e | e <;> rw [e] <;> decide
  obtain ⟨group, sw, mode, iface, gw, dhcp, mask, id⟩ := res
  simp only at hgroup hm0 h4 h6
  unfold fill_default default_dhcp_end
  simp only [if_neg hgroup, if_neg hm0]
  cases gw with
  | none =>
    simp only [ne_eq, not_true_eq_false, false_and, if_false, h6, Bool.false_eq_true]
  | some g =>
    obtain ⟨hd, hk⟩ := h4 (by simp)
    obtain ⟨d, rfl⟩ := Option.ne_none_iff_exists'.mp hd
    obtain ⟨k, rfl⟩ := Option.ne_none_iff_exists'.mp hk
    simp [h6]

/-- Lines 141-213 return a configuration as it is, when it breaks no rule and the
defaulting stage assigns nothing on it. -/
theorem stages_fixed (rnd : uuid_t) (argv0 : String) (t : List Write) (res : cli_options)
    (hfill : fill_default rnd res = Except.ok res)
    (h1 : res.vmnet_mode = VMNET_BRIDGED_MODE → res.vmnet_interface ≠ none)
    (h2 : res.vmnet_gateway ≠ none → res.vmnet_mode ≠ VMNET_BRIDGED_MODE)
    (h3 : res.vmnet_gateway = none → res.vmnet_dhcp_end = none ∧ res.vmnet_mask = none)
    (h5 : ∀ g, res.vmnet_gateway = some g → inet_aton g ≠ none) :
    (validate res).2 = true ∧
    fill_default rnd res = Except.ok res ∧
    ∀ sw, res.vde_switch = some sw →
      (after_options rnd argv0 res t [sw]).status = Status.returned res := by
  have hval : validate res =
      (if res.vmnet_gateway = none ∧ res.vmnet_mode ≠ VMNET_BRIDGED_MODE then
        [Write.err msg_warning] else [], true) := by
    apply validate_true
    · intro hb
      exact h1 hb.1 hb.2
    · exact h3
    · intro g hg
      exact ⟨h2 (by rw [hg]; simp), h5 g hg⟩
  refine ⟨by rw [hval], hfill, ?_⟩
  intro sw hsw
  unfold after_options
  have hres : ({ res with vde_switch := [sw].head? } : cli_options) = res := by
    obtain ⟨group, sw1, mode, iface, gw, dhcp, mask, id⟩ := res
    simp only at hsw
    subst hsw
    rfl
  rw [hres, hfill]
  simp only [List.length_singleton, ne_eq, not_true_eq_false, if_false]
  rw [hval]

/-- A configuration returned when `uuid_generate_random` writes a version-4 UUID has its
group, mode, range and interface id set. -/
theorem returned_is_filled {rnd : uuid_t} {argv : List String} {res : cli_options}
    (hrnd : uuid_version rnd = 4)
    (hres : (cli_options_parse rnd argv).status = Status.returned res) :
    res.vde_group ≠ none ∧
    (res.vmnet_mode = VMNET_HOST_MODE ∨ res.vmnet_mode = VMNET_SHARED_MODE ∨
      res.vmnet_mode = VMNET_BRIDGED_MODE) ∧
    (res.vmnet_gateway ≠ none → res.vmnet_dhcp_end ≠ none ∧ res.vmnet_mask ≠ none) ∧
    uuid_is_null res.vmnet_interface_id = false := by
  obtain ⟨-, -, -, e4, -, e6, e7, e8, -⟩ := parse_returned_fields hres
  obtain ⟨eg, em, ei⟩ := parse_returned_more hres
  refine ⟨?_, ?_, ?_, ?_⟩
  · rw [eg]
    split_ifs with h
    · simp
    · exact h
  · rcases em with ⟨-, h⟩ | ⟨-, h⟩ | ⟨-, h⟩ | ⟨-, h⟩
    · exact Or.inr (Or.inl h)
    · exact Or.inl h
    · exact Or.inr (Or.inl h)
    · exact Or.inr (Or.inr h)
  · intro hgw
    obtain ⟨g, hg⟩ := Option.ne_none_iff_exists'.mp hgw
    rw [hg] at e4
    rw [← e4] at e6 e7 e8
    constructor
    · by_cases hd : option_value CLI_OPTIONS_ID_VMNET_DHCP_END argv = none
      · obtain ⟨s, -, he⟩ := e7 g rfl hd
        rw [he]
        simp [inet_ntoa]
      · rw [e6 (Or.inr hd)]
        exact hd
    · by_cases hm : option_value CLI_OPTIONS_ID_VMNET_MASK argv = none
      · rw [e8, if_pos ⟨by simp, hm⟩]
        simp
      · rw [e8, if_neg (fun h => hm h.2)]
        exact hm
  · rcases ei with ⟨-, h⟩ | ⟨a, uu, -, -, h⟩
    · rw [h]
      exact uuid_version_not_null (by rw [hrnd]; decide)
    · rw [h]
      split_ifs with hn
      · exact uuid_version_not_null (by rw [hrnd]; decide)
      · simpa using hn

/-! ## The claims -/

/-- C1. When no help or version flag is given, the mode option is `bridged` and
`--vmnet-interface` is absent, `cli_options_parse` ends with `exit(EXIT_FAILURE)` and
returns nothing. Put the other way round: a returned configuration whose mode is
`VMNET_BRIDGED_MODE` has `vmnet_interface` set. -/
theorem bridged_requires_interface (rnd : uuid_t) (argv : List String) :
    (¬ help_or_version argv →
      option_value CLI_OPTIONS_ID_VMNET_MODE argv = some "bridged" →
      ¬ supplied CLI_OPTIONS_ID_VMNET_INTERFACE argv →
      (cli_options_parse rnd argv).status = Status.exited EXIT_FAILURE) ∧
    (∀ res, (cli_options_parse rnd argv).status = Status.returned res →
      res.vmnet_mode = VMNET_BRIDGED_MODE → res.vmnet_interface ≠ none) := by
  have key : ∀ res, (cli_options_parse rnd argv).status = Status.returned res →
      res.vmnet_mode = VMNET_BRIDGED_MODE → res.vmnet_interface ≠ none := by
    intro res hres hmode hif
    have hv := (parse_returned_fields hres).2.2.2.2.2.2.2.2
    exact (validate_ok hv).1 ⟨hmode, hif⟩
  refine ⟨?_, key⟩
  intro hflag hmode hif
  rcases parse_status rnd argv with ⟨res, hres⟩ | hfail | ⟨-, hhv⟩
  · exfalso
    obtain ⟨-, -, e3, -, e5, -⟩ := parse_returned_fields hres
    rw [mode_after_bridged hmode] at e5
    rw [option_value_absent hif] at e3
    exact key res hres (by rw [e5]; decide) e3
  · exact hfail
  · exact absurd hhv hflag

theorem bridged_requires_interface_witness :
    (¬ help_or_version argv_bridged ∧
      option_value CLI_OPTIONS_ID_VMNET_MODE argv_bridged = some "bridged" ∧
      ¬ supplied CLI_OPTIONS_ID_VMNET_INTERFACE argv_bridged ∧
      (cli_options_parse sample_uuid argv_bridged).status = Status.exited EXIT_FAILURE) ∧
    ((cli_options_parse sample_uuid argv_bridged_en0).status = Status.returned sample_bridged ∧
      sample_bridged.vmnet_mode = VMNET_BRIDGED_MODE ∧
      sample_bridged.vmnet_interface ≠ none) :=
  ⟨⟨by decide, by decide, by decide,
      (bridged_requires_interface sample_uuid argv_bridged).1
        (by decide) (by decide) (by decide)⟩,
    ⟨by decide, rfl,
      (bridged_requires_interface sample_uuid argv_bridged_en0).2 sample_bridged
        (by decide) rfl⟩⟩

/-- C2. When no help or version flag is given, `--vmnet-gateway` is given and the mode
option is `bridged`, `cli_options_parse` ends with `exit(EXIT_FAILURE)` and returns
nothing. Put the other way round: a returned configuration whose `vmnet_gateway` is set
has a mode other than `VMNET_BRIDGED_MODE`. -/
theorem gateway_excludes_bridged (rnd : uuid_t) (argv : List String) :
    (¬ help_or_version argv →
      supplied CLI_OPTIONS_ID_VMNET_GATEWAY argv →
      option_value CLI_OPTIONS_ID_VMNET_MODE argv = some "bridged" →
      (cli_options_parse rnd argv).status = Status.exited EXIT_FAILURE) ∧
    (∀ res, (cli_options_parse rnd argv).status = Status.returned res →
      res.vmnet_gateway ≠ none → res.vmnet_mode ≠ VMNET_BRIDGED_MODE) := by
  have key : ∀ res, (cli_options_parse rnd argv).status = Status.returned res →
      res.vmnet_gateway ≠ none → res.vmnet_mode ≠ VMNET_BRIDGED_MODE := by
    intro res hres hgw
    have hv := (parse_returned_fields hres).2.2.2.2.2.2.2.2
    obtain ⟨g, hg⟩ := Option.ne_none_iff_exists'.mp hgw
    exact ((validate_ok hv).2.2 g hg).1
  refine ⟨?_, key⟩
  intro hflag hgw hmode
  rcases parse_status rnd argv with ⟨res, hres⟩ | hfail | ⟨-, hhv⟩
  · exfalso
    obtain ⟨-, -, -, e4, e5, -⟩ := parse_returned_fields hres
    rw [mode_after_bridged hmode] at e5
    have hpres := option_value_present (by decide) hgw
    rw [← e4] at hpres
    exact key res hres hpres (by rw [e5]; decide)
  · exact hfail
  · exact absurd hhv hflag

theorem gateway_excludes_bridged_witness :
    (¬ help_or_version argv_bridged_gateway ∧
      supplied CLI_OPTIONS_ID_VMNET_GATEWAY argv_bridged_gateway ∧
      option_value CLI_OPTIONS_ID_VMNET_MODE argv_bridged_gateway = some "bridged" ∧
      (cli_options_parse sample_uuid argv_bridged_gateway).status =
        Status.exited EXIT_FAILURE) ∧
    ((cli_options_parse sample_uuid argv_shared).status = Status.returned sample_shared ∧
      sample_shared.vmnet_gateway ≠ none ∧
      sample_shared.vmnet_mode ≠ VMNET_BRIDGED_MODE) :=
  ⟨⟨by decide, by decide, by decide,
      (gateway_excludes_bridged sample_uuid argv_bridged_gateway).1
        (by decide) (by decide) (by decide)⟩,
    ⟨by decide, by decide,
      (gateway_excludes_bridged sample_uuid argv_shared).2 sample_shared
        (by decide) (by decide)⟩⟩

/-- C3. When `--vmnet-gateway` is given as `g`, `--vmnet-dhcp-end` is absent and a
configuration is returned: `inet_aton` accepts `g`, and `vmnet_dhcp_end` is the text
`inet_ntoa` gives for the address of `g` with its low eight bits cleared (AND 0xFFFFFF00)
and then set to 0xFE; and when `g` is the dotted quad a.b.c.d of octets below 256, that
text is the dotted quad a.b.c.254. -/
theorem dhcp_end_default (rnd : uuid_t) (argv : List String) (g : String) (res : cli_options)
    (hgw : option_value CLI_OPTIONS_ID_VMNET_GATEWAY argv = some g)
    (hend : ¬ supplied CLI_OPTIONS_ID_VMNET_DHCP_END argv)
    (hres : (cli_options_parse rnd argv).status = Status.returned res) :
    (∃ s, inet_aton g = some s ∧
      res.vmnet_dhcp_end = inet_ntoa (htonl (ntohl s &&& 0xFFFFFF00 ||| 0x000000FE))) ∧
    (∀ a b c d, a < 256 → b < 256 → c < 256 → d < 256 → g = dotted_quad a b c d →
      res.vmnet_dhcp_end = some (dotted_quad a b c 254)) := by
  obtain ⟨-, -, -, -, -, -, e7, -⟩ := parse_returned_fields hres
  obtain ⟨s, hs, he⟩ := e7 _ hgw (option_value_absent hend)
  refine ⟨⟨s, hs, he⟩, ?_⟩
  intro a b c d ha hb hc hd hg
  rw [hg, inet_aton_dotted_quad a b c d ha hb hc hd] at hs
  simp only [Option.some.injEq] at hs
  rw [he, ← hs]
  exact dhcp_end_of_dotted_quad a b c d ha hb hc hd

theorem dhcp_end_default_witness :
    option_value CLI_OPTIONS_ID_VMNET_GATEWAY argv_shared = some "192.168.105.1" ∧
    ¬ supplied CLI_OPTIONS_ID_VMNET_DHCP_END argv_shared ∧
    (cli_options_parse sample_uuid argv_shared).status = Status.returned sample_shared ∧
    "192.168.105.1" = dotted_quad 192 168 105 1 ∧
    sample_shared.vmnet_dhcp_end = some (dotted_quad 192 168 105 254) ∧
    dotted_quad 192 168 105 254 = "192.168.105.254" :=
  ⟨by decide, by decide, by decide, by decide,
    (dhcp_end_default sample_uuid argv_shared "192.168.105.1" sample_shared
      (by decide) (by decide) (by decide)).2 192 168 105 1
      (by decide) (by decide) (by decide) (by decide) (by decide),
    by decide⟩

/-- C4, the claim as stated fails: this vector omits `--vmnet-gateway` and gives
`--vmnet-mask`, and the call ends with `exit(EXIT_SUCCESS)`, because the help flag ends
the option loop before validation. -/
theorem mask_without_gateway_help :
    ¬ supplied CLI_OPTIONS_ID_VMNET_GATEWAY ["vde_vmnet", "--vmnet-mask=255.255.0.0", "--help"] ∧
    supplied CLI_OPTIONS_ID_VMNET_MASK ["vde_vmnet", "--vmnet-mask=255.255.0.0", "--help"] ∧
    (cli_options_parse [7] ["vde_vmnet", "--vmnet-mask=255.255.0.0", "--help"]).status =
      Status.exited EXIT_SUCCESS ∧
    (cli_options_parse [7] ["vde_vmnet", "--vmnet-mask=255.255.0.0", "--help"]).status ≠
      Status.exited EXIT_FAILURE := by
  decide

/-- C4, amended. When `--vmnet-gateway` is absent: a returned configuration has
`vmnet_dhcp_end` and `vmnet_mask` unset; and when `--vmnet-dhcp-end` or `--vmnet-mask` is
given, no configuration is returned, and the call ends with `exit(EXIT_FAILURE)` provided
no help or version flag is given. -/
theorem no_gateway_no_range (rnd : uuid_t) (argv : List String)
    (hgw : ¬ supplied CLI_OPTIONS_ID_VMNET_GATEWAY argv) :
    (∀ res, (cli_options_parse rnd argv).status = Status.returned res →
      res.vmnet_dhcp_end = none ∧ res.vmnet_mask = none) ∧
    (supplied CLI_OPTIONS_ID_VMNET_DHCP_END argv ∨ supplied CLI_OPTIONS_ID_VMNET_MASK argv →
      (∀ res, (cli_options_parse rnd argv).status ≠ Status.returned res) ∧
      (¬ help_or_version argv →
        (cli_options_parse rnd argv).status = Status.exited EXIT_FAILURE)) := by
  have key : ∀ res, (cli_options_parse rnd argv).status = Status.returned res →
      res.vmnet_dhcp_end = none ∧ res.vmnet_mask = none := by
    intro res hres
    obtain ⟨-, -, -, e4, -, -, -, -, hv⟩ := parse_returned_fields hres
    rw [option_value_absent hgw] at e4
    exact (validate_ok hv).2.1 e4
  refine ⟨key, ?_⟩
  intro hsup
  have hno : ∀ res, (cli_options_parse rnd argv).status ≠ Status.returned res := by
    intro res hres
    obtain ⟨hd, hm⟩ := key res hres
    obtain ⟨-, -, -, -, -, e6, -, e8, -⟩ := parse_returned_fields hres
    rw [option_value_absent hgw] at e6 e8
    simp only [ne_eq, not_true_eq_false, false_and, if_false] at e8
    rcases hsup with h | h
    · have := option_value_present (by decide) h
      rw [← e6 (Or.inl rfl)] at this
      exact this hd
    · have := option_value_present (by decide) h
      rw [← e8] at this
      exact this hm
  refine ⟨hno, ?_⟩
  intro hflag
  rcases parse_status rnd argv with ⟨res, hres⟩ | hfail | ⟨-, hhv⟩
  · exact absurd hres (hno res)
  · exact hfail
  · exact absurd hhv hflag

theorem no_gateway_no_range_witness :
    (¬ supplied CLI_OPTIONS_ID_VMNET_GATEWAY argv_host ∧
      (cli_options_parse sample_uuid argv_host).status = Status.returned sample_host ∧
      sample_host.vmnet_dhcp_end = none ∧ sample_host.vmnet_mask = none) ∧
    (¬ supplied CLI_OPTIONS_ID_VMNET_GATEWAY argv_dhcp_end_only ∧
      supplied CLI_OPTIONS_ID_VMNET_DHCP_END argv_dhcp_end_only ∧
      ¬ help_or_version argv_dhcp_end_only ∧
      (cli_options_parse sample_uuid argv_dhcp_end_only).status = Status.exited EXIT_FAILURE) :=
  ⟨⟨by decide, by decide,
      (no_gateway_no_range sample_uuid argv_host (by decide)).1 sample_host (by decide)⟩,
    ⟨by decide, by decide, by decide,
      ((no_gateway_no_range sample_uuid argv_dhcp_end_only (by decide)).2
        (Or.inl (by decide))).2 (by decide)⟩⟩

/-- C5. A returned configuration whose `vmnet_gateway` is set has `vmnet_dhcp_end` and
`vmnet_mask` set, and when `--vmnet-mask` is absent the mask is the text
255.255.255.0. -/
theorem gateway_fills_range (rnd : uuid_t) (argv : List String) (res : cli_options)
    (hres : (cli_options_parse rnd argv).status = Status.returned res)
    (hgw : res.vmnet_gateway ≠ none) :
    res.vmnet_dhcp_end ≠ none ∧ res.vmnet_mask ≠ none ∧
    (¬ supplied CLI_OPTIONS_ID_VMNET_MASK argv → res.vmnet_mask = some "255.255.255.0") := by
  obtain ⟨-, -, -, e4, -, e6, e7, e8, -⟩ := parse_returned_fields hres
  obtain ⟨g, hg⟩ := Option.ne_none_iff_exists'.mp hgw
  rw [hg] at e4
  rw [← e4] at e6 e7 e8
  refine ⟨?_, ?_, ?_⟩
  · by_cases hd : option_value CLI_OPTIONS_ID_VMNET_DHCP_END argv = none
    · obtain ⟨s, -, he⟩ := e7 g rfl hd
      rw [he]
      simp [inet_ntoa]
    · rw [e6 (Or.inr hd)]
      exact hd
  · by_cases hm : option_value CLI_OPTIONS_ID_VMNET_MASK argv = none
    · rw [e8, if_pos ⟨by simp, hm⟩]
      simp
    · rw [e8, if_neg (fun h => hm h.2)]
      exact hm
  · intro hm
    rw [e8, if_pos ⟨by simp, option_value_absent hm⟩]

theorem gateway_fills_range_witness :
    (cli_options_parse sample_uuid argv_shared).status = Status.returned sample_shared ∧
    sample_shared.vmnet_gateway ≠ none ∧
    ¬ supplied CLI_OPTIONS_ID_VMNET_MASK argv_shared ∧
    (sample_shared.vmnet_dhcp_end ≠ none ∧ sample_shared.vmnet_mask ≠ none ∧
      (¬ supplied CLI_OPTIONS_ID_VMNET_MASK argv_shared →
        sample_shared.vmnet_mask = some "255.255.255.0")) :=
  ⟨by decide, by decide, by decide,
    gateway_fills_range sample_uuid argv_shared sample_shared (by decide) (by decide)⟩

/-- C6, the claim as stated fails: `inet_aton` takes the three-part address 192.168.1,
which is not four octets, and the configuration is returned with it as gateway. -/
theorem gateway_three_parts_returned :
    spec_dotted_quad "192.168.1" = false ∧
    option_value CLI_OPTIONS_ID_VMNET_GATEWAY
      ["vde_vmnet", "--vmnet-gateway=192.168.1", "/var/run/vde.ctl"] = some "192.168.1" ∧
    (cli_options_parse sample_uuid
      ["vde_vmnet", "--vmnet-gateway=192.168.1", "/var/run/vde.ctl"]).status =
      Status.returned
        { vde_group := some "staff", vde_switch := some "/var/run/vde.ctl",
          vmnet_mode := VMNET_SHARED_MODE, vmnet_interface := none,
          vmnet_gateway := some "192.168.1", vmnet_dhcp_end := some "192.168.0.254",
          vmnet_mask := some "255.255.255.0", vmnet_interface_id := sample_uuid } := by
  decide

/-- C6, amended. The gateway of a returned configuration, when set, is a text that
`inet_aton` accepts; when no help or version flag is given and `inet_aton` rejects the
argument of `--vmnet-gateway`, the call ends with `exit(EXIT_FAILURE)`; and `inet_aton`
accepts every dotted quad of four decimal octets below 256. -/
theorem gateway_accepted_by_inet_aton (rnd : uuid_t) (argv : List String) :
    (∀ res g, (cli_options_parse rnd argv).status = Status.returned res →
      res.vmnet_gateway = some g → inet_aton g ≠ none) ∧
    (∀ g, ¬ help_or_version argv →
      option_value CLI_OPTIONS_ID_VMNET_GATEWAY argv = some g → inet_aton g = none →
      (cli_options_parse rnd argv).status = Status.exited EXIT_FAILURE) ∧
    (∀ a b c d, a < 256 → b < 256 → c < 256 → d < 256 →
      inet_aton (dotted_quad a b c d) ≠ none) := by
  have key : ∀ res g, (cli_options_parse rnd argv).status = Status.returned res →
      res.vmnet_gateway = some g → inet_aton g ≠ none := by
    intro res g hres hg
    have hv := (parse_returned_fields hres).2.2.2.2.2.2.2.2
    exact ((validate_ok hv).2.2 g hg).2
  refine ⟨key, ?_, ?_⟩
  · intro g hflag hg hbad
    rcases parse_status rnd argv with ⟨res, hres⟩ | hfail | ⟨-, hhv⟩
    · exfalso
      obtain ⟨-, -, -, e4, -⟩ := parse_returned_fields hres
      rw [hg] at e4
      exact key res g hres e4 hbad
    · exact hfail
    · exact absurd hhv hflag
  · intro a b c d ha hb hc hd
    rw [inet_aton_dotted_quad a b c d ha hb hc hd]
    simp

theorem gateway_accepted_by_inet_aton_witness :
    ((cli_options_parse sample_uuid argv_shared).status = Status.returned sample_shared ∧
      sample_shared.vmnet_gateway = some "192.168.105.1" ∧
      inet_aton "192.168.105.1" ≠ none) ∧
    (¬ help_or_version argv_bad_gateway ∧
      option_value CLI_OPTIONS_ID_VMNET_GATEWAY argv_bad_gateway = some "192.168.105.one" ∧
      inet_aton "192.168.105.one" = none ∧
      (cli_options_parse sample_uuid argv_bad_gateway).status = Status.exited EXIT_FAILURE) ∧
    inet_aton (dotted_quad 10 0 0 1) ≠ none :=
  ⟨⟨by decide, rfl,
      (gateway_accepted_by_inet_aton sample_uuid argv_shared).1 sample_shared "192.168.105.1"
        (by decide) rfl⟩,
    ⟨by decide, by decide, by decide,
      (gateway_accepted_by_inet_aton sample_uuid argv_bad_gateway).2.1 "192.168.105.one"
        (by decide) (by decide) (by decide)⟩,
    (gateway_accepted_by_inet_aton sample_uuid argv_shared).2.2 10 0 0 1
      (by decide) (by decide) (by decide) (by decide)⟩

/-- C7, the claim as stated fails: with the empty text as the single positional
argument a configuration is returned, and its `vde_switch` is the empty text. -/
theorem empty_switch_returned :
    (cli_options_parse sample_uuid ["vde_vmnet", ""]).status =
      Status.returned
        { vde_group := some "staff", vde_switch := some "", vmnet_mode := VMNET_SHARED_MODE,
          vmnet_interface := none, vmnet_gateway := none, vmnet_dhcp_end := none,
          vmnet_mask := none, vmnet_interface_id := sample_uuid } := by
  decide

/-- C7, amended. A returned configuration has `vde_switch` set, and it is the single
positional argument of the vector as it stands, empty or not. -/
theorem switch_is_positional (rnd : uuid_t) (argv : List String) (res : cli_options)
    (hres : (cli_options_parse rnd argv).status = Status.returned res) :
    ∃ sw, positional argv = [sw] ∧ res.vde_switch = some sw := by
  obtain ⟨hlen, hsw, -⟩ := parse_returned_fields hres
  obtain ⟨sw, hpos⟩ := List.length_eq_one.mp hlen
  refine ⟨sw, hpos, ?_⟩
  rw [hsw, hpos]
  rfl

theorem switch_is_positional_witness :
    (cli_options_parse sample_uuid argv_shared).status = Status.returned sample_shared ∧
    ∃ sw, positional argv_shared = [sw] ∧ sample_shared.vde_switch = some sw :=
  ⟨by decide, switch_is_positional sample_uuid argv_shared sample_shared (by decide)⟩

/-- C8, the claim as stated fails: an unknown mode name, or an unknown option, that
comes before the help or version flag ends the call with `exit(EXIT_FAILURE)`. -/
theorem invalid_before_help_fails :
    help_or_version ["vde_vmnet", "--vmnet-mode=nat", "--help"] ∧
    (cli_options_parse sample_uuid ["vde_vmnet", "--vmnet-mode=nat", "--help"]).status =
      Status.exited EXIT_FAILURE ∧
    help_or_version ["vde_vmnet", "--no-such-option", "--version"] ∧
    (cli_options_parse sample_uuid ["vde_vmnet", "--no-such-option", "--version"]).status =
      Status.exited EXIT_FAILURE := by
  decide

/-- C8, amended. When `getopt_long` returns a help or version flag and every return
before it is accepted by the option loop, the call writes the usage text, or the version,
to stdout and nothing else, and ends with `exit(EXIT_SUCCESS)`, whatever follows the flag;
defaulting and validation are not reached. -/
theorem help_version_exit (rnd : uuid_t) (argv : List String) (pre post : List GetoptRet)
    (r : GetoptRet) (hsplit : (getopt_long argv).1 = pre ++ r :: post)
    (hpre : ∀ p ∈ pre, accepted p = true) (hflag : r.opt = 104 ∨ r.opt = 118) :
    cli_options_parse rnd argv =
      ⟨if r.opt = 104 then print_usage (argv.headD "(null)") else print_version,
        Status.exited EXIT_SUCCESS⟩ := by
  have hr : r ∈ (getopt_long argv).1 := by rw [hsplit]; simp
  have hwarn : r.warn = none := flag_no_warn hr hflag
  have hpre1 : ∀ p ∈ pre, accepted p = true ∧ p.warn = none := by
    intro p hp
    refine ⟨hpre p hp, accepted_no_warn argv ?_ (hpre p hp)⟩
    rw [hsplit]
    exact List.mem_append_left _ hp
  obtain ⟨res1, hloop⟩ :=
    option_loop_accepted (argv.headD "(null)") pre (r :: post) cli_options_zero [] hpre1
  unfold cli_options_parse
  simp only
  rw [hsplit, hloop, option_loop]
  simp only [hwarn, Option.toList, List.map_nil, List.append_nil, List.nil_append]
  rcases hflag with h | h
  · simp [h, CLI_OPTIONS_ID_VDE_GROUP, CLI_OPTIONS_ID_VMNET_MODE,
      CLI_OPTIONS_ID_VMNET_INTERFACE, CLI_OPTIONS_ID_VMNET_GATEWAY,
      CLI_OPTIONS_ID_VMNET_DHCP_END, CLI_OPTIONS_ID_VMNET_MASK,
      CLI_OPTIONS_ID_VMNET_INTERFACE_ID]
  · simp [h, CLI_OPTIONS_ID_VDE_GROUP, CLI_OPTIONS_ID_VMNET_MODE,
      CLI_OPTIONS_ID_VMNET_INTERFACE, CLI_OPTIONS_ID_VMNET_GATEWAY,
      CLI_OPTIONS_ID_VMNET_DHCP_END, CLI_OPTIONS_ID_VMNET_MASK,
      CLI_OPTIONS_ID_VMNET_INTERFACE_ID]

theorem help_version_exit_witness :
    ((getopt_long argv_help).1 =
        [⟨CLI_OPTIONS_ID_VMNET_MODE, some "bridged", none⟩] ++ ⟨104, none, none⟩ ::
          [⟨CLI_OPTIONS_ID_VMNET_MODE, some "nat", none⟩,
            ⟨BADCH, none, some (GetoptWarn.illoptstring "no-such-option")⟩] ∧
      cli_options_parse sample_uuid argv_help =
        ⟨print_usage "vde_vmnet", Status.exited EXIT_SUCCESS⟩) ∧
    ((getopt_long argv_version).1 =
        [] ++ ⟨118, none, none⟩ :: [⟨CLI_OPTIONS_ID_VMNET_INTERFACE_ID, some "zzz", none⟩] ∧
      cli_options_parse sample_uuid argv_version =
        ⟨print_version, Status.exited EXIT_SUCCESS⟩) :=
  ⟨⟨by decide,
      help_version_exit sample_uuid argv_help
        [⟨CLI_OPTIONS_ID_VMNET_MODE, some "bridged", none⟩]
        [⟨CLI_OPTIONS_ID_VMNET_MODE, some "nat", none⟩,
          ⟨BADCH, none, some (GetoptWarn.illoptstring "no-such-option")⟩]
        ⟨104, none, none⟩ (by decide) (by decide) (by decide)⟩,
    ⟨by decide,
      help_version_exit sample_uuid argv_version []
        [⟨CLI_OPTIONS_ID_VMNET_INTERFACE_ID, some "zzz", none⟩] ⟨118, none, none⟩
        (by decide) (by decide) (by decide)⟩⟩

/-- C9. When `uuid_generate_random` writes a version-4 UUID, the `vmnet_interface_id` of
a returned configuration is not the null UUID (`uuid_is_null` is false of it, and it
differs from the sixteen zero bytes), whatever the vector gives for
`--vmnet-interface-id`, nothing and the all-zero UUID included. -/
theorem interface_id_not_null (rnd : uuid_t) (argv : List String) (res : cli_options)
    (hrnd : uuid_version rnd = 4)
    (hres : (cli_options_parse rnd argv).status = Status.returned res) :
    uuid_is_null res.vmnet_interface_id = false ∧ res.vmnet_interface_id ≠ uuid_zero := by
  obtain ⟨res0, t, -, -, hfill, -⟩ := parse_returned hres
  have hid := (fill_default_ok hfill).2.2.2.2.2.2.2.2
  have hnull : uuid_is_null res.vmnet_interface_id = false := by
    rw [hid]
    split_ifs with h
    · exact uuid_version_not_null (by rw [hrnd]; decide)
    · simpa using h
  refine ⟨hnull, ?_⟩
  intro hz
  rw [hz] at hnull
  exact absurd hnull (by decide)

theorem interface_id_not_null_witness :
    uuid_version sample_uuid = 4 ∧
    (¬ supplied CLI_OPTIONS_ID_VMNET_INTERFACE_ID argv_host ∧
      (cli_options_parse sample_uuid argv_host).status = Status.returned sample_host ∧
      uuid_is_null sample_host.vmnet_interface_id = false ∧
      sample_host.vmnet_interface_id ≠ uuid_zero) ∧
    (option_value CLI_OPTIONS_ID_VMNET_INTERFACE_ID argv_zero_id =
        some "00000000-0000-0000-0000-000000000000" ∧
      (cli_options_parse sample_uuid argv_zero_id).status = Status.returned sample_host ∧
      uuid_is_null sample_host.vmnet_interface_id = false ∧
      sample_host.vmnet_interface_id ≠ uuid_zero) :=
  ⟨by decide,
    ⟨by decide, by decide,
      interface_id_not_null sample_uuid argv_host sample_host (by decide) (by decide)⟩,
    ⟨by decide, by decide,
      interface_id_not_null sample_uuid argv_zero_id sample_host (by decide) (by decide)⟩⟩

/-- C10. When no help or version flag is given and the number of positional arguments is
not one (none, two, or more), `cli_options_parse` ends with `exit(EXIT_FAILURE)`, whatever
the options are. -/
theorem positional_count (rnd : uuid_t) (argv : List String)
    (hflag : ¬ help_or_version argv) (hpos : (positional argv).length ≠ 1) :
    (cli_options_parse rnd argv).status = Status.exited EXIT_FAILURE := by
  rcases parse_status rnd argv with ⟨res, hres⟩ | hfail | ⟨-, hhv⟩
  · exact absurd (parse_returned_fields hres).1 hpos
  · exact hfail
  · exact absurd hhv hflag

theorem positional_count_witness :
    (¬ help_or_version argv_no_switch ∧ (positional argv_no_switch).length = 0 ∧
      (cli_options_parse sample_uuid argv_no_switch).status = Status.exited EXIT_FAILURE) ∧
    (¬ help_or_version argv_two_switches ∧ (positional argv_two_switches).length = 2 ∧
      (cli_options_parse sample_uuid argv_two_switches).status = Status.exited EXIT_FAILURE) :=
  ⟨⟨by decide, by decide,
      positional_count sample_uuid argv_no_switch (by decide) (by decide)⟩,
    ⟨by decide, by decide,
      positional_count sample_uuid argv_two_switches (by decide) (by decide)⟩⟩

/-- C11. On a configuration that satisfies the invariants 1-7, the validation stage
(lines 178-212) reaches `return res`, and the defaulting stage (lines 146-176) returns
the configuration as it is; so lines 141-213, run again with the switch name as the
positional argument, return the same configuration, every field unchanged. The same
holds of every configuration that `cli_options_parse` has returned, when
`uuid_generate_random` writes version-4 UUIDs. -/
theorem revalidation_idempotent (rnd : uuid_t) (argv0 : String) (t : List Write)
    (res : cli_options) :
    (valid_configuration res →
      (validate res).2 = true ∧
      fill_default rnd res = Except.ok res ∧
      ∀ sw, res.vde_switch = some sw →
        (after_options rnd argv0 res t [sw]).status = Status.returned res) ∧
    (∀ rnd1 argv, uuid_version rnd1 = 4 →
      (cli_options_parse rnd1 argv).status = Status.returned res →
      (validate res).2 = true ∧
      fill_default rnd res = Except.ok res ∧
      ∀ sw, res.vde_switch = some sw →
        (after_options rnd argv0 res t [sw]).status = Status.returned res) := by
  constructor
  · intro h
    exact stages_fixed rnd argv0 t res
      (fill_default_fixed rnd res h.1 h.2.1 h.2.2.2.2.2.1 h.2.2.2.2.2.2.2.1)
      h.2.2.1 h.2.2.2.1 h.2.2.2.2.1 (valid_gateway_parses h)
  · intro rnd1 argv hrnd hres
    obtain ⟨hg, hm, h4, h6⟩ := returned_is_filled hrnd hres
    obtain ⟨v1, v2, v3⟩ := validate_ok (parse_returned_fields hres).2.2.2.2.2.2.2.2
    exact stages_fixed rnd argv0 t res (fill_default_fixed rnd res hg hm h4 h6)
      (fun hb hi => v1 ⟨hb, hi⟩)
      (fun hgw => by
        obtain ⟨g, hg1⟩ := Option.ne_none_iff_exists'.mp hgw
        exact (v3 g hg1).1)
      v2 (fun g hg1 => (v3 g hg1).2)

theorem revalidation_idempotent_witness :
    (valid_configuration sample_shared ∧
      (validate sample_shared).2 = true ∧
      fill_default uuid_zero sample_shared = Except.ok sample_shared ∧
      ∀ sw, sample_shared.vde_switch = some sw →
        (after_options uuid_zero "vde_vmnet" sample_shared [] [sw]).status =
          Status.returned sample_shared) ∧
    (uuid_version sample_uuid = 4 ∧
      (cli_options_parse sample_uuid argv_host).status = Status.returned sample_host ∧
      (validate sample_host).2 = true ∧
      fill_default uuid_zero sample_host = Except.ok sample_host ∧
      ∀ sw, sample_host.vde_switch = some sw →
        (after_options uuid_zero "vde_vmnet" sample_host [] [sw]).status =
          Status.returned sample_host) :=
  ⟨⟨sample_shared_valid,
      (revalidation_idempotent uuid_zero "vde_vmnet" [] sample_shared).1 sample_shared_valid⟩,
    ⟨by decide, by decide,
      (revalidation_idempotent uuid_zero "vde_vmnet" [] sample_host).2 sample_uuid argv_host
        (by decide) (by decide)⟩⟩

/-- C12, the claim as stated fails: with the help flag before it, the unknown mode name
`nat` does not make the call fail, which ends with `exit(EXIT_SUCCESS)`. -/
theorem unknown_mode_after_help :
    option_value CLI_OPTIONS_ID_VMNET_MODE argv_help_bad_mode = some "nat" ∧
    (cli_options_parse sample_uuid argv_help_bad_mode).status = Status.exited EXIT_SUCCESS ∧
    (cli_options_parse sample_uuid argv_help_bad_mode).status ≠ Status.exited EXIT_FAILURE := by
  decide

/-- C12, amended. In a returned configuration the mode is `VMNET_HOST_MODE`,
`VMNET_SHARED_MODE` or `VMNET_BRIDGED_MODE` exactly when the argument of `--vmnet-mode` is
`host`, `shared` or `bridged`, and it is `VMNET_SHARED_MODE` also when `--vmnet-mode` is
absent. A `--vmnet-mode` with any other argument leaves no configuration returned, and
ends the call with `exit(EXIT_FAILURE)` provided no help or version flag is given. -/
theorem mode_resolution (rnd : uuid_t) (argv : List String) :
    (∀ res, (cli_options_parse rnd argv).status = Status.returned res →
      (res.vmnet_mode = VMNET_HOST_MODE ↔
        option_value CLI_OPTIONS_ID_VMNET_MODE argv = some "host") ∧
      (res.vmnet_mode = VMNET_BRIDGED_MODE ↔
        option_value CLI_OPTIONS_ID_VMNET_MODE argv = some "bridged") ∧
      (res.vmnet_mode = VMNET_SHARED_MODE ↔
        (option_value CLI_OPTIONS_ID_VMNET_MODE argv = some "shared" ∨
          ¬ supplied CLI_OPTIONS_ID_VMNET_MODE argv))) ∧
    ((∃ r ∈ occurrences CLI_OPTIONS_ID_VMNET_MODE argv,
        r.optarg ≠ some "host" ∧ r.optarg ≠ some "shared" ∧ r.optarg ≠ some "bridged") →
      (∀ res, (cli_options_parse rnd argv).status ≠ Status.returned res) ∧
      (¬ help_or_version argv →
        (cli_options_parse rnd argv).status = Status.exited EXIT_FAILURE)) := by
  constructor
  · intro res hres
    have hnone := @option_value_none_iff CLI_OPTIONS_ID_VMNET_MODE argv (by decide)
    rcases (parse_returned_more hres).2.1 with ⟨hv, hm⟩ | ⟨hv, hm⟩ | ⟨hv, hm⟩ | ⟨hv, hm⟩
    · rw [hm, hv]
      refine ⟨?_, ?_, ?_⟩
      · exact ⟨fun h => absurd h (by decide), fun h => absurd h (by simp)⟩
      · exact ⟨fun h => absurd h (by decide), fun h => absurd h (by simp)⟩
      · exact ⟨fun _ => Or.inr (hnone.mp hv), fun _ => rfl⟩
    · rw [hm, hv]
      refine ⟨?_, ?_, ?_⟩
      · exact ⟨fun _ => rfl, fun _ => rfl⟩
      · exact ⟨fun h => absurd h (by decide), fun h => absurd h (by decide)⟩
      · refine ⟨fun h => absurd h (by decide), fun h => ?_⟩
        rcases h with h | h
        · exact absurd h (by decide)
        · exact absurd (hnone.mpr h) (by rw [hv]; simp)
    · rw [hm, hv]
      refine ⟨?_, ?_, ?_⟩
      · exact ⟨fun h => absurd h (by decide), fun h => absurd h (by decide)⟩
      · exact ⟨fun h => absurd h (by decide), fun h => absurd h (by decide)⟩
      · exact ⟨fun _ => Or.inl rfl, fun _ => rfl⟩
    · rw [hm, hv]
      refine ⟨?_, ?_, ?_⟩
      · exact ⟨fun h => absurd h (by decide), fun h => absurd h (by decide)⟩
      · exact ⟨fun _ => rfl, fun _ => rfl⟩
      · refine ⟨fun h => absurd h (by decide), fun h => ?_⟩
        rcases h with h | h
        · exact absurd h (by decide)
        · exact absurd (hnone.mpr h) (by rw [hv]; simp)
  · rintro ⟨r, hr, h1, h2, h3⟩
    have hno : ∀ res, (cli_options_parse rnd argv).status ≠ Status.returned res := by
      intro res hres
      have hacc := parse_all_accepted hres
      unfold occurrences at hr
      simp only [List.mem_filter, decide_eq_true_eq] at hr
      have ha := hacc r hr.1
      simp only [accepted, hr.2, Bool.or_eq_true, Bool.and_eq_true, decide_eq_true_eq,
        CLI_OPTIONS_ID_VDE_GROUP, CLI_OPTIONS_ID_VMNET_MODE, CLI_OPTIONS_ID_VMNET_INTERFACE,
        CLI_OPTIONS_ID_VMNET_GATEWAY, CLI_OPTIONS_ID_VMNET_DHCP_END, CLI_OPTIONS_ID_VMNET_MASK,
        CLI_OPTIONS_ID_VMNET_INTERFACE_ID] at ha
      rcases ha with (ha | ⟨-, ha⟩) | ⟨ha, -⟩
      · omega
      · rcases ha with ha | ha | ha
        · exact h1 ha
        · exact h2 ha
        · exact h3 ha
      · omega
    refine ⟨hno, fun hflag => ?_⟩
    rcases parse_status rnd argv with ⟨res, hres⟩ | hfail | ⟨-, hhv⟩
    · exact absurd hres (hno res)
    · exact hfail
    · exact absurd hhv hflag

theorem mode_resolution_witness :
    ((cli_options_parse sample_uuid argv_host).status = Status.returned sample_host ∧
      (sample_host.vmnet_mode = VMNET_HOST_MODE ↔
        option_value CLI_OPTIONS_ID_VMNET_MODE argv_host = some "host")) ∧
    ((cli_options_parse sample_uuid argv_shared).status = Status.returned sample_shared ∧
      ¬ supplied CLI_OPTIONS_ID_VMNET_MODE argv_shared ∧
      sample_shared.vmnet_mode = VMNET_SHARED_MODE) ∧
    ((∃ r ∈ occurrences CLI_OPTIONS_ID_VMNET_MODE argv_bad_mode,
        r.optarg ≠ some "host" ∧ r.optarg ≠ some "shared" ∧ r.optarg ≠ some "bridged") ∧
      ¬ help_or_version argv_bad_mode ∧
      (cli_options_parse sample_uuid argv_bad_mode).status = Status.exited EXIT_FAILURE) :=
  ⟨⟨by decide,
      ((mode_resolution sample_uuid argv_host).1 sample_host (by decide)).1⟩,
    ⟨by decide, by decide,
      ((mode_resolution sample_uuid argv_shared).1 sample_shared (by decide)).2.2.mpr
        (Or.inr (by decide))⟩,
    ⟨by decide, by decide,
      ((mode_resolution sample_uuid argv_bad_mode).2 (by decide)).2 (by decide)⟩⟩

/-- C13. In a returned configuration each of `vde_group`, `vmnet_interface`,
`vmnet_gateway`, `vmnet_dhcp_end` and `vmnet_mask` whose option is given is the argument
of that option as `getopt_long` hands it over, so that a given `--vmnet-dhcp-end` is not
replaced by the derived address; `vde_switch` is the positional argument; `vde_group` is
`staff` when `--vde-group` is absent; and the argument of `--vde-group=TEXT` is `TEXT`
itself, whatever the text. -/
theorem user_fields_kept (rnd : uuid_t) (argv : List String) (res : cli_options)
    (hres : (cli_options_parse rnd argv).status = Status.returned res) :
    (supplied CLI_OPTIONS_ID_VDE_GROUP argv →
      ∃ a, option_value CLI_OPTIONS_ID_VDE_GROUP argv = some a ∧ res.vde_group = some a) ∧
    (supplied CLI_OPTIONS_ID_VMNET_INTERFACE argv →
      ∃ a, option_value CLI_OPTIONS_ID_VMNET_INTERFACE argv = some a ∧
        res.vmnet_interface = some a) ∧
    (supplied CLI_OPTIONS_ID_VMNET_GATEWAY argv →
      ∃ a, option_value CLI_OPTIONS_ID_VMNET_GATEWAY argv = some a ∧
        res.vmnet_gateway = some a) ∧
    (supplied CLI_OPTIONS_ID_VMNET_DHCP_END argv →
      ∃ a, option_value CLI_OPTIONS_ID_VMNET_DHCP_END argv = some a ∧
        res.vmnet_dhcp_end = some a) ∧
    (supplied CLI_OPTIONS_ID_VMNET_MASK argv →
      ∃ a, option_value CLI_OPTIONS_ID_VMNET_MASK argv = some a ∧ res.vmnet_mask = some a) ∧
    (∃ sw, positional argv = [sw] ∧ res.vde_switch = some sw) ∧
    (¬ supplied CLI_OPTIONS_ID_VDE_GROUP argv → res.vde_group = some "staff") ∧
    (∀ v, getopt_long ["vde_vmnet", "--vde-group=" ++ v] =
      ([⟨CLI_OPTIONS_ID_VDE_GROUP, some v, none⟩], [])) := by
  obtain ⟨hlen, e2, e3, e4, -, e6, -, e8, -⟩ := parse_returned_fields hres
  have eg := (parse_returned_more hres).1
  refine ⟨?_, ?_, ?_, ?_, ?_, ?_, ?_, getopt_vde_group_equals⟩
  · intro hs
    obtain ⟨a, ha⟩ := Option.ne_none_iff_exists'.mp (option_value_present (by decide) hs)
    refine ⟨a, ha, ?_⟩
    rw [eg, ha, if_neg (by simp)]
  · intro hs
    obtain ⟨a, ha⟩ := Option.ne_none_iff_exists'.mp (option_value_present (by decide) hs)
    exact ⟨a, ha, by rw [e3, ha]⟩
  · intro hs
    obtain ⟨a, ha⟩ := Option.ne_none_iff_exists'.mp (option_value_present (by decide) hs)
    exact ⟨a, ha, by rw [e4, ha]⟩
  · intro hs
    have hne := option_value_present (by decide) hs
    obtain ⟨a, ha⟩ := Option.ne_none_iff_exists'.mp hne
    exact ⟨a, ha, by rw [e6 (Or.inr hne), ha]⟩
  · intro hs
    have hne := option_value_present (by decide) hs
    obtain ⟨a, ha⟩ := Option.ne_none_iff_exists'.mp hne
    exact ⟨a, ha, by rw [e8, if_neg (fun h => hne h.2), ha]⟩
  · obtain ⟨sw, hpos⟩ := List.length_eq_one.mp hlen
    exact ⟨sw, hpos, by rw [e2, hpos]; rfl⟩
  · intro hs
    rw [eg, if_pos (option_value_absent hs)]
    rfl

theorem user_fields_kept_witness :
    (cli_options_parse sample_uuid argv_all).status = Status.returned sample_all ∧
    ((supplied CLI_OPTIONS_ID_VDE_GROUP argv_all →
        ∃ a, option_value CLI_OPTIONS_ID_VDE_GROUP argv_all = some a ∧
          sample_all.vde_group = some a) ∧
      (supplied CLI_OPTIONS_ID_VMNET_INTERFACE argv_all →
        ∃ a, option_value CLI_OPTIONS_ID_VMNET_INTERFACE argv_all = some a ∧
          sample_all.vmnet_interface = some a) ∧
      (supplied CLI_OPTIONS_ID_VMNET_GATEWAY argv_all →
        ∃ a, option_value CLI_OPTIONS_ID_VMNET_GATEWAY argv_all = some a ∧
          sample_all.vmnet_gateway = some a) ∧
      (supplied CLI_OPTIONS_ID_VMNET_DHCP_END argv_all →
        ∃ a, option_value CLI_OPTIONS_ID_VMNET_DHCP_END argv_all = some a ∧
          sample_all.vmnet_dhcp_end = some a) ∧
      (supplied CLI_OPTIONS_ID_VMNET_MASK argv_all →
        ∃ a, option_value CLI_OPTIONS_ID_VMNET_MASK argv_all = some a ∧
          sample_all.vmnet_mask = some a) ∧
      (∃ sw, positional argv_all = [sw] ∧ sample_all.vde_switch = some sw) ∧
      (¬ supplied CLI_OPTIONS_ID_VDE_GROUP argv_all → sample_all.vde_group = some "staff") ∧
      (∀ v, getopt_long ["vde_vmnet", "--vde-group=" ++ v] =
        ([⟨CLI_OPTIONS_ID_VDE_GROUP, some v, none⟩], []))) ∧
    option_value CLI_OPTIONS_ID_VMNET_DHCP_END argv_all = some "10.0.0.99" ∧
    sample_all.vmnet_dhcp_end = some "10.0.0.99" :=
  ⟨by decide, user_fields_kept sample_uuid argv_all sample_all (by decide), by decide, rfl⟩

/-- C14, the claim as stated fails: with the version flag before it, the malformed
interface id `zzz` does not make the call fail, which ends with `exit(EXIT_SUCCESS)`. -/
theorem malformed_id_after_version :
    option_value CLI_OPTIONS_ID_VMNET_INTERFACE_ID argv_version_bad_id = some "zzz" ∧
    uuid_parse "zzz" = none ∧
    (cli_options_parse sample_uuid argv_version_bad_id).status = Status.exited EXIT_SUCCESS ∧
    (cli_options_parse sample_uuid argv_version_bad_id).status ≠
      Status.exited EXIT_FAILURE := by
  decide

/-- C14, amended. A `--vmnet-interface-id` whose argument `uuid_parse` rejects leaves no
configuration returned, and ends the call with `exit(EXIT_FAILURE)` provided no help or
version flag is given. When the argument parses to a UUID that is not null, a returned
configuration has these sixteen bytes as `vmnet_interface_id`, whatever
`uuid_generate_random` would write. -/
theorem interface_id_kept (rnd : uuid_t) (argv : List String) :
    ((∃ r ∈ occurrences CLI_OPTIONS_ID_VMNET_INTERFACE_ID argv,
        uuid_parse (r.optarg.getD "") = none) →
      (∀ res, (cli_options_parse rnd argv).status ≠ Status.returned res) ∧
      (¬ help_or_version argv →
        (cli_options_parse rnd argv).status = Status.exited EXIT_FAILURE)) ∧
    (∀ res a uu, (cli_options_parse rnd argv).status = Status.returned res →
      option_value CLI_OPTIONS_ID_VMNET_INTERFACE_ID argv = some a →
      uuid_parse a = some uu → uuid_is_null uu = false →
      res.vmnet_interface_id = uu) := by
  constructor
  · rintro ⟨r, hr, hbad⟩
    have hno : ∀ res, (cli_options_parse rnd argv).status ≠ Status.returned res := by
      intro res hres
      have hacc := parse_all_accepted hres
      unfold occurrences at hr
      simp only [List.mem_filter, decide_eq_true_eq] at hr
      have ha := hacc r hr.1
      simp only [accepted, hr.2, hbad, Bool.or_eq_true, Bool.and_eq_true, decide_eq_true_eq,
        CLI_OPTIONS_ID_VDE_GROUP, CLI_OPTIONS_ID_VMNET_MODE, CLI_OPTIONS_ID_VMNET_INTERFACE,
        CLI_OPTIONS_ID_VMNET_GATEWAY, CLI_OPTIONS_ID_VMNET_DHCP_END, CLI_OPTIONS_ID_VMNET_MASK,
        CLI_OPTIONS_ID_VMNET_INTERFACE_ID, Option.isSome_none] at ha
      rcases ha with (ha | ⟨ha, -⟩) | ⟨-, ha⟩
      · omega
      · omega
      · exact absurd ha (by simp)
    refine ⟨hno, fun hflag => ?_⟩
    rcases parse_status rnd argv with ⟨res, hres⟩ | hfail | ⟨-, hhv⟩
    · exact absurd hres (hno res)
    · exact hfail
    · exact absurd hhv hflag
  · intro res a uu hres ha hu hnull
    rcases (parse_returned_more hres).2.2 with ⟨hv, -⟩ | ⟨a1, uu1, hv, hu1, hid⟩
    · rw [hv] at ha
      exact absurd ha (by simp)
    · rw [hv] at ha
      simp only [Option.some.injEq] at ha
      subst ha
      rw [hu1] at hu
      simp only [Option.some.injEq] at hu
      subst hu
      rw [hid, hnull]
      rfl

theorem interface_id_kept_witness :
    ((∃ r ∈ occurrences CLI_OPTIONS_ID_VMNET_INTERFACE_ID argv_bad_id,
        uuid_parse (r.optarg.getD "") = none) ∧
      ¬ help_or_version argv_bad_id ∧
      (cli_options_parse sample_uuid argv_bad_id).status = Status.exited EXIT_FAILURE) ∧
    ((cli_options_parse sample_uuid argv_all).status = Status.returned sample_all ∧
      option_value CLI_OPTIONS_ID_VMNET_INTERFACE_ID argv_all =
        some "deadbeef-0000-4000-8000-00000000cafe" ∧
      uuid_parse "deadbeef-0000-4000-8000-00000000cafe" = some sample_id ∧
      uuid_is_null sample_id = false ∧
      sample_id ≠ sample_uuid ∧
      sample_all.vmnet_interface_id = sample_id) :=
  ⟨⟨by decide, by decide,
      ((interface_id_kept sample_uuid argv_bad_id).1 (by decide)).2 (by decide)⟩,
    ⟨by decide, by decide, by decide, by decide, by decide,
      (interface_id_kept sample_uuid argv_all).2 sample_all
        "deadbeef-0000-4000-8000-00000000cafe" sample_id
        (by decide) (by decide) (by decide) (by decide)⟩⟩

/-- C15, the claim as stated fails: this failing call writes its error message to stderr
and then the usage text to stdout; nothing of the usage text is on stderr. -/
theorem usage_on_stdout :
    (cli_options_parse sample_uuid argv_bridged).status = Status.exited EXIT_FAILURE ∧
    (cli_options_parse sample_uuid argv_bridged).trace =
      Write.err msg_bridged_interface :: print_usage "vde_vmnet" ∧
    (cli_options_parse sample_uuid argv_bridged).trace.filter on_stderr =
      [Write.err msg_bridged_interface] ∧
    (print_usage "vde_vmnet").all (fun w => !on_stderr w) = true := by
  decide

/-- C15, amended. A call that ends with `exit(EXIT_FAILURE)`, a status other than zero,
has written the usage text last, and the usage text goes to stdout, not to stderr; a call
that ends otherwise returns a configuration or ends with `exit(EXIT_SUCCESS)`, the latter
only on a help or version flag. -/
theorem failure_exit_usage (rnd : uuid_t) (argv : List String) :
    ((cli_options_parse rnd argv).status = Status.exited EXIT_FAILURE →
      EXIT_FAILURE ≠ 0 ∧
      ∃ t, (cli_options_parse rnd argv).trace = t ++ print_usage (argv.headD "(null)")) ∧
    (∀ w ∈ print_usage (argv.headD "(null)"), on_stderr w = false) ∧
    ((∃ res, (cli_options_parse rnd argv).status = Status.returned res) ∨
      (cli_options_parse rnd argv).status = Status.exited EXIT_FAILURE ∨
      ((cli_options_parse rnd argv).status = Status.exited EXIT_SUCCESS ∧
        EXIT_SUCCESS = 0 ∧ help_or_version argv)) := by
  refine ⟨?_, print_usage_stdout _, ?_⟩
  · intro h
    obtain ⟨t, ht, -⟩ := parse_failure_trace h
    exact ⟨by decide, t, ht⟩
  · rcases parse_status rnd argv with h | h | ⟨h, hv⟩
    · exact Or.inl h
    · exact Or.inr (Or.inl h)
    · exact Or.inr (Or.inr ⟨h, rfl, hv⟩)

theorem failure_exit_usage_witness :
    (cli_options_parse sample_uuid argv_bad_gateway).status = Status.exited EXIT_FAILURE ∧
    (EXIT_FAILURE ≠ 0 ∧
      ∃ t, (cli_options_parse sample_uuid argv_bad_gateway).trace =
        t ++ print_usage (argv_bad_gateway.headD "(null)")) :=
  ⟨by decide, (failure_exit_usage sample_uuid argv_bad_gateway).1 (by decide)⟩

/-- C16, the claim as stated fails: a vector without a positional argument ends the call
with `exit(EXIT_FAILURE)` after the usage text alone; no message is written. -/
theorem positional_count_no_message :
    (positional argv_no_switch).length = 0 ∧
    (cli_options_parse sample_uuid argv_no_switch).status = Status.exited EXIT_FAILURE ∧
    (cli_options_parse sample_uuid argv_no_switch).trace = print_usage "vde_vmnet" ∧
    (cli_options_parse sample_uuid argv_no_switch).trace.filter on_stderr = [] := by
  decide

/-- C16, amended. A call that ends with `exit(EXIT_FAILURE)` has written the usage text
last and, before it, a message on stderr (of `cli_options_parse`, of `getopt_long`, or of
`perror`), except when the options are all accepted and the error is the number of
positional arguments: then the usage text is all that is written. -/
theorem failure_message (rnd : uuid_t) (argv : List String)
    (h : (cli_options_parse rnd argv).status = Status.exited EXIT_FAILURE) :
    EXIT_FAILURE ≠ 0 ∧
    ∃ t, (cli_options_parse rnd argv).trace = t ++ print_usage (argv.headD "(null)") ∧
      ((∃ w ∈ t, on_stderr w = true) ∨
        (t = [] ∧ all_accepted argv ∧ (positional argv).length ≠ 1)) :=
  ⟨by decide, parse_failure_trace h⟩

theorem failure_message_witness :
    (cli_options_parse sample_uuid argv_bad_mode).status = Status.exited EXIT_FAILURE ∧
    (cli_options_parse sample_uuid argv_bad_mode).trace =
      Write.err "Unknown vmnet mode \"Host\"\n" :: print_usage "vde_vmnet" ∧
    (EXIT_FAILURE ≠ 0 ∧
      ∃ t, (cli_options_parse sample_uuid argv_bad_mode).trace =
          t ++ print_usage (argv_bad_mode.headD "(null)") ∧
        ((∃ w ∈ t, on_stderr w = true) ∨
          (t = [] ∧ all_accepted argv_bad_mode ∧ (positional argv_bad_mode).length ≠ 1))) :=
  ⟨by decide, by decide, failure_message sample_uuid argv_bad_mode (by decide)⟩

/-- C17. The validation stage writes the warning if it applies and then the message of
the first rule broken, in the order: bridged without interface; gateway unset with
dhcp-end set, then with mask set; gateway set in bridged mode, then a gateway that is not
an address; it reaches `return res` exactly when no rule is broken. So a bridged
configuration without interface gets the missing-interface message, with a gateway or
not. When the options are all accepted and the positional argument is one, this is all
the call writes, before the usage text when a rule is broken. -/
theorem validation_order (rnd : uuid_t) (argv : List String) :
    (∀ res, validate res =
      (gateway_warning res ++ (violated_rules res).head?.toList.map Write.err,
        (violated_rules res).isEmpty)) ∧
    (∀ res, res.vmnet_mode = VMNET_BRIDGED_MODE → res.vmnet_interface = none →
      validate res = ([Write.err msg_bridged_interface], false)) ∧
    (all_accepted argv → (positional argv).length = 1 →
      ∃ res0,
        option_loop (argv.headD "(null)") cli_options_zero [] (getopt_long argv).1 =
          Loop.finished res0 [] ∧
        ∀ res1,
          fill_default rnd { res0 with vde_switch := (positional argv).head? } =
            Except.ok res1 →
          (cli_options_parse rnd argv).trace =
            gateway_warning res1 ++ (violated_rules res1).head?.toList.map Write.err ++
              (if (violated_rules res1).isEmpty then [] else
                print_usage (argv.headD "(null)"))) := by
  refine ⟨validate_first_rule, ?_, ?_⟩
  · intro res hm hi
    unfold validate
    rw [if_pos ⟨hm, hi⟩]
  · intro hacc hlen
    obtain ⟨res0, hfin, hrun⟩ := parse_of_accepted rnd argv hacc
    refine ⟨res0, hfin, ?_⟩
    intro res1 hfill
    rw [hrun]
    unfold after_options
    rw [if_neg (by simpa using hlen), hfill]
    simp only
    rw [validate_first_rule res1]
    cases (violated_rules res1).isEmpty <;> simp [error_exit]

theorem validation_order_witness :
    all_accepted argv_bridged_gateway_only ∧
    (positional argv_bridged_gateway_only).length = 1 ∧
    (cli_options_parse sample_uuid argv_bridged_gateway_only).trace =
      Write.err msg_bridged_interface :: print_usage "vde_vmnet" ∧
    ∃ res0,
      option_loop (argv_bridged_gateway_only.headD "(null)") cli_options_zero []
          (getopt_long argv_bridged_gateway_only).1 = Loop.finished res0 [] ∧
        ∀ res1,
          fill_default sample_uuid
              { res0 with vde_switch := (positional argv_bridged_gateway_only).head? } =
            Except.ok res1 →
          (cli_options_parse sample_uuid argv_bridged_gateway_only).trace =
            gateway_warning res1 ++ (violated_rules res1).head?.toList.map Write.err ++
              (if (violated_rules res1).isEmpty then [] else
                print_usage (argv_bridged_gateway_only.headD "(null)")) :=
  ⟨by decide, by decide, by decide,
    (validation_order sample_uuid argv_bridged_gateway_only).2.2 (by decide) (by decide)⟩

/-- C18, the claim as stated fails: this vector has one positional argument, no mode and
no gateway, dhcp-end or mask, and its malformed interface id ends the call with
`exit(EXIT_FAILURE)`: no configuration is returned and no warning is written. -/
theorem warning_vector_fails :
    (positional argv_bad_id).length = 1 ∧
    ¬ supplied CLI_OPTIONS_ID_VMNET_MODE argv_bad_id ∧
    ¬ supplied CLI_OPTIONS_ID_VMNET_GATEWAY argv_bad_id ∧
    ¬ supplied CLI_OPTIONS_ID_VMNET_DHCP_END argv_bad_id ∧
    ¬ supplied CLI_OPTIONS_ID_VMNET_MASK argv_bad_id ∧
    (cli_options_parse sample_uuid argv_bad_id).status = Status.exited EXIT_FAILURE ∧
    Write.err msg_warning ∉ (cli_options_parse sample_uuid argv_bad_id).trace := by
  decide

/-- C18, amended. When the options are all accepted, the positional argument is one, the
mode option is `host`, `shared` or absent, and `--vmnet-gateway`, `--vmnet-dhcp-end` and
`--vmnet-mask` are absent, the call writes the warning, and nothing else, and returns the
configuration that the defaulting stage produced, as it is. When the mode option is
`bridged`, no warning is written, whatever the rest of the vector. -/
theorem gateway_warning_not_fatal (rnd : uuid_t) (argv : List String) :
    (all_accepted argv → (positional argv).length = 1 →
      option_value CLI_OPTIONS_ID_VMNET_MODE argv ≠ some "bridged" →
      ¬ supplied CLI_OPTIONS_ID_VMNET_GATEWAY argv →
      ¬ supplied CLI_OPTIONS_ID_VMNET_DHCP_END argv →
      ¬ supplied CLI_OPTIONS_ID_VMNET_MASK argv →
      ∃ res0 res,
        option_loop (argv.headD "(null)") cli_options_zero [] (getopt_long argv).1 =
          Loop.finished res0 [] ∧
        fill_default rnd { res0 with vde_switch := (positional argv).head? } =
          Except.ok res ∧
        cli_options_parse rnd argv = ⟨[Write.err msg_warning], Status.returned res⟩) ∧
    (option_value CLI_OPTIONS_ID_VMNET_MODE argv = some "bridged" →
      Write.err msg_warning ∉ (cli_options_parse rnd argv).trace) := by
  refine ⟨?_, bridged_no_warning rnd argv⟩
  intro hacc hlen hmode hgw hend hmask
  obtain ⟨res0, hfin, hrun⟩ := parse_of_accepted rnd argv hacc
  obtain ⟨-, -, -, l4, l5, l6, l7⟩ := option_loop_finished _ _ _ _ _ _ hfin
  have g0 : res0.vmnet_gateway = none := by rw [l4]; exact option_value_absent hgw
  have d0 : res0.vmnet_dhcp_end = none := by rw [l5]; exact option_value_absent hend
  have k0 : res0.vmnet_mask = none := by rw [l6]; exact option_value_absent hmask
  obtain ⟨res, hfill⟩ := fill_default_succeeds rnd
    { res0 with vde_switch := (positional argv).head? }
    (fun g hg => by simp only [g0] at hg; exact absurd hg (by simp))
  refine ⟨res0, res, hfin, hfill, ?_⟩
  obtain ⟨-, -, f3, f4, -, f6, -, f8, -⟩ := fill_default_ok hfill
  simp only at f3 f4 f6 f8
  have g1 : res.vmnet_gateway = none := by rw [f3, g0]
  have d1 : res.vmnet_dhcp_end = none := by rw [f6 (Or.inl g0), d0]
  have k1 : res.vmnet_mask = none := by
    rw [f8, if_neg (fun h => h.1 g0), k0]
  have m1 : res.vmnet_mode ≠ VMNET_BRIDGED_MODE := by
    rw [f4, l7]
    have hm : cli_options_zero.vmnet_mode = 0 := rfl
    rw [hm]
    rcases mode_cases argv hacc with ⟨-, e⟩ | ⟨-, e⟩ | ⟨-, e⟩ | ⟨hv, -⟩
    · rw [e]; decide
    · rw [e]; decide
    · rw [e]; decide
    · exact absurd hv hmode
  have hval := @validate_true res (fun h => m1 h.1) (fun _ => ⟨d1, k1⟩)
    (fun g hg => by rw [g1] at hg; exact absurd hg (by simp))
  rw [if_pos ⟨g1, m1⟩] at hval
  rw [hrun]
  unfold after_options
  rw [if_neg (by simpa using hlen), hfill]
  simp only
  rw [hval]
  rfl

theorem gateway_warning_not_fatal_witness :
    (all_accepted argv_host ∧ (positional argv_host).length = 1 ∧
      option_value CLI_OPTIONS_ID_VMNET_MODE argv_host ≠ some "bridged" ∧
      ¬ supplied CLI_OPTIONS_ID_VMNET_GATEWAY argv_host ∧
      ¬ supplied CLI_OPTIONS_ID_VMNET_DHCP_END argv_host ∧
      ¬ supplied CLI_OPTIONS_ID_VMNET_MASK argv_host ∧
      cli_options_parse sample_uuid argv_host =
        ⟨[Write.err msg_warning], Status.returned sample_host⟩ ∧
      ∃ res0 res,
        option_loop (argv_host.headD "(null)") cli_options_zero [] (getopt_long argv_host).1 =
          Loop.finished res0 [] ∧
        fill_default sample_uuid { res0 with vde_switch := (positional argv_host).head? } =
          Except.ok res ∧
        cli_options_parse sample_uuid argv_host =
          ⟨[Write.err msg_warning], Status.returned res⟩) ∧
    (option_value CLI_OPTIONS_ID_VMNET_MODE argv_bridged_en0 = some "bridged" ∧
      cli_options_parse sample_uuid argv_bridged_en0 = ⟨[], Status.returned sample_bridged⟩ ∧
      Write.err msg_warning ∉ (cli_options_parse sample_uuid argv_bridged_en0).trace) :=
  ⟨⟨by decide, by decide, by decide, by decide, by decide, by decide, by decide,
      (gateway_warning_not_fatal sample_uuid argv_host).1
        (by decide) (by decide) (by decide) (by decide) (by decide) (by decide)⟩,
    ⟨by decide, by decide,
      (gateway_warning_not_fatal sample_uuid argv_bridged_en0).2 (by decide)⟩⟩

/-- C19. When every option is accepted (recognised options only, a mode name among
`host`, `shared` and `bridged`, interface ids that parse, no help or version flag), a
configuration is returned if and only if the positional argument is one, a mode option
`bridged` comes with `--vmnet-interface` and without `--vmnet-gateway`, an absent
`--vmnet-gateway` comes with absent `--vmnet-dhcp-end` and `--vmnet-mask`, and
`inet_aton` accepts the argument of `--vmnet-gateway` when there is one. -/
theorem acceptance_condition (rnd : uuid_t) (argv : List String) (hacc : all_accepted argv) :
    (∃ res, (cli_options_parse rnd argv).status = Status.returned res) ↔
      ((positional argv).length = 1 ∧
        (option_value CLI_OPTIONS_ID_VMNET_MODE argv = some "bridged" →
          supplied CLI_OPTIONS_ID_VMNET_INTERFACE argv ∧
            ¬ supplied CLI_OPTIONS_ID_VMNET_GATEWAY argv) ∧
        (¬ supplied CLI_OPTIONS_ID_VMNET_GATEWAY argv →
          ¬ supplied CLI_OPTIONS_ID_VMNET_DHCP_END argv ∧
            ¬ supplied CLI_OPTIONS_ID_VMNET_MASK argv) ∧
        (∀ g, option_value CLI_OPTIONS_ID_VMNET_GATEWAY argv = some g →
          inet_aton g ≠ none)) := by
  have nI := @option_value_none_iff CLI_OPTIONS_ID_VMNET_INTERFACE argv (by decide)
  have nG := @option_value_none_iff CLI_OPTIONS_ID_VMNET_GATEWAY argv (by decide)
  have nD := @option_value_none_iff CLI_OPTIONS_ID_VMNET_DHCP_END argv (by decide)
  have nM := @option_value_none_iff CLI_OPTIONS_ID_VMNET_MASK argv (by decide)
  constructor
  · rintro ⟨res, hres⟩
    obtain ⟨hlen, -, e3, e4, e5, e6, -, e8, hv⟩ := parse_returned_fields hres
    obtain ⟨v1, v2, v3⟩ := validate_ok hv
    refine ⟨hlen, ?_, ?_, ?_⟩
    · intro hmode
      have hm : res.vmnet_mode = VMNET_BRIDGED_MODE := by
        rw [e5, mode_after_bridged hmode]; decide
      constructor
      · by_contra hs
        exact v1 ⟨hm, by rw [e3]; exact nI.mpr hs⟩
      · intro hs
        obtain ⟨g, hg⟩ := Option.ne_none_iff_exists'.mp (option_value_present (by decide) hs)
        exact (v3 g (by rw [e4, hg])).1 hm
    · intro hs
      have hg : res.vmnet_gateway = none := by rw [e4]; exact nG.mpr hs
      obtain ⟨hd, hk⟩ := v2 hg
      rw [e6 (Or.inl (nG.mpr hs))] at hd
      rw [e8, if_neg (fun h => h.1 (nG.mpr hs))] at hk
      exact ⟨nD.mp hd, nM.mp hk⟩
    · intro g hg
      exact (v3 g (by rw [e4, hg])).2
  · rintro ⟨hlen, c1, c2, c3⟩
    obtain ⟨res0, hfin, hrun⟩ := parse_of_accepted rnd argv hacc
    obtain ⟨-, -, l3, l4, l5, l6, l7⟩ := option_loop_finished _ _ _ _ _ _ hfin
    have l3a : res0.vmnet_interface = option_value CLI_OPTIONS_ID_VMNET_INTERFACE argv := l3
    have l4a : res0.vmnet_gateway = option_value CLI_OPTIONS_ID_VMNET_GATEWAY argv := l4
    have l5a : res0.vmnet_dhcp_end = option_value CLI_OPTIONS_ID_VMNET_DHCP_END argv := l5
    have l6a : res0.vmnet_mask = option_value CLI_OPTIONS_ID_VMNET_MASK argv := l6
    have l7a : res0.vmnet_mode = mode_after 0 (getopt_long argv).1 := l7
    obtain ⟨res, hfill⟩ := fill_default_succeeds rnd
      { res0 with vde_switch := (positional argv).head? }
      (fun g hg _ => c3 g (by rw [← l4a]; exact hg))
    obtain ⟨-, f2, f3, f4, -, f6, -, f8, -⟩ := fill_default_ok hfill
    simp only at f2 f3 f4 f6 f8
    rw [l3a] at f2
    rw [l4a] at f3 f6 f8
    rw [l5a] at f6
    rw [l6a] at f8
    rw [l7a] at f4
    have hbr : res.vmnet_mode = VMNET_BRIDGED_MODE →
        option_value CLI_OPTIONS_ID_VMNET_MODE argv = some "bridged" := by
      intro hm
      rw [f4] at hm
      rcases mode_cases argv hacc with ⟨-, e⟩ | ⟨-, e⟩ | ⟨-, e⟩ | ⟨hv, -⟩
      · rw [e] at hm; exact absurd hm (by decide)
      · rw [e] at hm; exact absurd hm (by decide)
      · rw [e] at hm; exact absurd hm (by decide)
      · exact hv
    have hval := @validate_true res
      (fun h => by
        have hi := (c1 (hbr h.1)).1
        rw [f2] at h
        exact option_value_present (by decide) hi h.2)
      (fun hg => by
        rw [f3] at hg
        obtain ⟨hd, hk⟩ := c2 (nG.mp hg)
        constructor
        · rw [f6 (Or.inl hg)]; exact nD.mpr hd
        · rw [f8, if_neg (fun h => h.1 hg)]; exact nM.mpr hk)
      (fun g hg => by
        rw [f3] at hg
        refine ⟨fun hm => ?_, c3 g hg⟩
        have hng := (c1 (hbr hm)).2
        rw [nG.mpr hng] at hg
        exact absurd hg (by simp))
    refine ⟨res, ?_⟩
    rw [hrun]
    unfold after_options
    rw [if_neg (by simpa using hlen), hfill]
    simp only
    rw [hval]

theorem acceptance_condition_witness :
    (all_accepted argv_all ∧
      (∃ res, (cli_options_parse sample_uuid argv_all).status = Status.returned res) ∧
      ((∃ res, (cli_options_parse sample_uuid argv_all).status = Status.returned res) ↔
        ((positional argv_all).length = 1 ∧
          (option_value CLI_OPTIONS_ID_VMNET_MODE argv_all = some "bridged" →
            supplied CLI_OPTIONS_ID_VMNET_INTERFACE argv_all ∧
              ¬ supplied CLI_OPTIONS_ID_VMNET_GATEWAY argv_all) ∧
          (¬ supplied CLI_OPTIONS_ID_VMNET_GATEWAY argv_all →
            ¬ supplied CLI_OPTIONS_ID_VMNET_DHCP_END argv_all ∧
              ¬ supplied CLI_OPTIONS_ID_VMNET_MASK argv_all) ∧
          (∀ g, option_value CLI_OPTIONS_ID_VMNET_GATEWAY argv_all = some g →
            inet_aton g ≠ none)))) ∧
    (all_accepted argv_bridged_gateway ∧
      ¬ (option_value CLI_OPTIONS_ID_VMNET_MODE argv_bridged_gateway = some "bridged" →
          supplied CLI_OPTIONS_ID_VMNET_INTERFACE argv_bridged_gateway ∧
            ¬ supplied CLI_OPTIONS_ID_VMNET_GATEWAY argv_bridged_gateway) ∧
      ¬ ∃ res, (cli_options_parse sample_uuid argv_bridged_gateway).status =
          Status.returned res) :=
  ⟨⟨by decide, ⟨sample_all, by decide⟩,
      acceptance_condition sample_uuid argv_all (by decide)⟩,
    ⟨by decide, by decide,
      fun h => absurd
        ((acceptance_condition sample_uuid argv_bridged_gateway (by decide)).mp h).2.1
        (by decide)⟩⟩

/-- C20. In a returned configuration each field that an option sets is given by the
last occurrence of the option in the vector: `vde_group`, `vmnet_interface`,
`vmnet_gateway`, `vmnet_dhcp_end` and `vmnet_mask` are its argument, `vmnet_mode` is the
mode its argument names, and `vmnet_interface_id` is what its argument parses to (or the
random id when that is the null UUID). -/
theorem last_occurrence_wins (rnd : uuid_t) (argv : List String) (res : cli_options)
    (hres : (cli_options_parse rnd argv).status = Status.returned res) :
    (∀ r, last_occurrence CLI_OPTIONS_ID_VDE_GROUP argv = some r →
      res.vde_group = r.optarg) ∧
    (∀ r, last_occurrence CLI_OPTIONS_ID_VMNET_MODE argv = some r →
      (r.optarg = some "host" ∧ res.vmnet_mode = VMNET_HOST_MODE) ∨
      (r.optarg = some "shared" ∧ res.vmnet_mode = VMNET_SHARED_MODE) ∨
      (r.optarg = some "bridged" ∧ res.vmnet_mode = VMNET_BRIDGED_MODE)) ∧
    (∀ r, last_occurrence CLI_OPTIONS_ID_VMNET_INTERFACE argv = some r →
      res.vmnet_interface = r.optarg) ∧
    (∀ r, last_occurrence CLI_OPTIONS_ID_VMNET_GATEWAY argv = some r →
      res.vmnet_gateway = r.optarg) ∧
    (∀ r, last_occurrence CLI_OPTIONS_ID_VMNET_DHCP_END argv = some r →
      res.vmnet_dhcp_end = r.optarg) ∧
    (∀ r, last_occurrence CLI_OPTIONS_ID_VMNET_MASK argv = some r →
      res.vmnet_mask = r.optarg) ∧
    (∀ r, last_occurrence CLI_OPTIONS_ID_VMNET_INTERFACE_ID argv = some r →
      ∃ uu, uuid_parse (r.optarg.getD "") = some uu ∧
        res.vmnet_interface_id = (if uuid_is_null uu then rnd else uu)) := by
  obtain ⟨-, -, e3, e4, -, e6, -, e8, -⟩ := parse_returned_fields hres
  obtain ⟨eg, em, ei⟩ := parse_returned_more hres
  refine ⟨?_, ?_, ?_, ?_, ?_, ?_, ?_⟩
  · intro r hr
    obtain ⟨hv, hne⟩ := last_occurrence_value (by decide) hr
    rw [eg, hv, if_neg hne]
  · intro r hr
    obtain ⟨hv, hne⟩ := last_occurrence_value (by decide) hr
    rw [hv] at em
    rcases em with ⟨h, -⟩ | h | h | h
    · exact absurd h hne
    · exact Or.inl h
    · exact Or.inr (Or.inl h)
    · exact Or.inr (Or.inr h)
  · intro r hr
    rw [e3, (last_occurrence_value (by decide) hr).1]
  · intro r hr
    rw [e4, (last_occurrence_value (by decide) hr).1]
  · intro r hr
    obtain ⟨hv, hne⟩ := last_occurrence_value (by decide) hr
    rw [e6 (Or.inr (by rw [hv]; exact hne)), hv]
  · intro r hr
    obtain ⟨hv, hne⟩ := last_occurrence_value (by decide) hr
    rw [e8, if_neg (fun h => hne (by rw [← hv]; exact h.2)), hv]
  · intro r hr
    obtain ⟨hv, hne⟩ := last_occurrence_value (by decide) hr
    rw [hv] at ei
    rcases ei with ⟨h, -⟩ | ⟨a, uu, ha, hu, hid⟩
    · exact absurd h hne
    · refine ⟨uu, ?_, hid⟩
      rw [ha]
      exact hu

theorem last_occurrence_wins_witness :
    (cli_options_parse sample_uuid argv_twice).status = Status.returned sample_twice ∧
    occurrences CLI_OPTIONS_ID_VMNET_MODE argv_twice =
      [⟨CLI_OPTIONS_ID_VMNET_MODE, some "bridged", none⟩,
        ⟨CLI_OPTIONS_ID_VMNET_MODE, some "shared", none⟩] ∧
    last_occurrence CLI_OPTIONS_ID_VDE_GROUP argv_twice =
      some ⟨CLI_OPTIONS_ID_VDE_GROUP, some "admin", none⟩ ∧
    sample_twice.vde_group = some "admin" ∧
    sample_twice.vmnet_mode = VMNET_SHARED_MODE ∧
    ((some "shared" : Option String) = some "host" ∧
        sample_twice.vmnet_mode = VMNET_HOST_MODE ∨
      (some "shared" : Option String) = some "shared" ∧
        sample_twice.vmnet_mode = VMNET_SHARED_MODE ∨
      (some "shared" : Option String) = some "bridged" ∧
        sample_twice.vmnet_mode = VMNET_BRIDGED_MODE) :=
  ⟨by decide, by decide, by decide,
    (last_occurrence_wins sample_uuid argv_twice sample_twice (by decide)).1
      ⟨CLI_OPTIONS_ID_VDE_GROUP, some "admin", none⟩ (by decide),
    by decide,
    (last_occurrence_wins sample_uuid argv_twice sample_twice (by decide)).2.1
      ⟨CLI_OPTIONS_ID_VMNET_MODE, some "shared", none⟩ (by decide)⟩

end VdeVmnet
